import Mathlib

/-!
# Weather simulation of `apps/openmw/mwworld/weather.cpp`

A shallow embedding of the weather manager: the weather profiles, the moon
model, the regional weather draw, the transition engine, the daily colour
resolver, the update tick and the save/restore of the manager state.

Conventions of the embedding.

* `float` and `double` values are exact rationals (`ℚ`); the rounding of
  floating-point arithmetic is not modelled, and the literal `0.00835` is the
  rational `835/100000`. The conversion of an `unsigned int` to `float`, which
  loses whole units above 2^24, is modelled (`floatOfUInt`).
* `std::map<std::string, T>` is an association list with at most one entry per
  key (`StrMap`).
* A C++ exception (`std::map::at` on an unregistered weather name) is the
  result `none`.
* The collaborators that are consulted during a call (world, store, sound
  manager, random number generator) are passed in as a `World` value; what is
  only sent to the renderer or the sound manager is not part of the state.
-/

namespace MWWorld

/-! ## Plain data -/

/-- Colour with four channels (`osg::Vec4f`). -/
structure Vec4f where
  x : ℚ
  y : ℚ
  z : ℚ
  w : ℚ
deriving DecidableEq

/-- Vector with three components (`osg::Vec3f`). -/
structure Vec3f where
  x : ℚ
  y : ℚ
  z : ℚ
deriving DecidableEq

/-- Association list standing for `std::map<std::string, T>`. -/
abbrev StrMap (α : Type) := List (String × α)

/-- Lookup of a key (`std::map::find`). -/
def StrMap.find {α : Type} : StrMap α → String → Option α
  | [], _ => none
  | (k, v) :: rest, key => if k = key then some v else StrMap.find rest key

/-- Assignment through `operator[]`: the entry of the key is replaced or added. -/
def StrMap.set {α : Type} : StrMap α → String → α → StrMap α
  | [], key, v => [(key, v)]
  | (k, x) :: rest, key, v =>
    if k = key then (key, v) :: rest else (k, x) :: StrMap.set rest key v

/-- Insertion with `std::map::insert`: an existing entry of the key is kept. -/
def StrMap.insert {α : Type} : StrMap α → String → α → StrMap α
  | [], key, v => [(key, v)]
  | (k, x) :: rest, key, v =>
    if k = key then (k, x) :: rest else (k, x) :: StrMap.insert rest key v

/-- Lower-casing of one character (`tolower` in the C locale). -/
def lowerChar (c : Char) : Char :=
  if c = 'A' then 'a' else if c = 'B' then 'b' else if c = 'C' then 'c'
  else if c = 'D' then 'd' else if c = 'E' then 'e' else if c = 'F' then 'f'
  else if c = 'G' then 'g' else if c = 'H' then 'h' else if c = 'I' then 'i'
  else if c = 'J' then 'j' else if c = 'K' then 'k' else if c = 'L' then 'l'
  else if c = 'M' then 'm' else if c = 'N' then 'n' else if c = 'O' then 'o'
  else if c = 'P' then 'p' else if c = 'Q' then 'q' else if c = 'R' then 'r'
  else if c = 'S' then 's' else if c = 'T' then 't' else if c = 'U' then 'u'
  else if c = 'V' then 'v' else if c = 'W' then 'w' else if c = 'X' then 'x'
  else if c = 'Y' then 'y' else if c = 'Z' then 'z' else c

/-- Lower-casing of a string (`Misc::StringUtils::lowerCase`). -/
def lowerCase (s : String) : String := String.mk (s.data.map lowerChar)

/-- Lower-casing of the first character only, as `addWeather` does. -/
def lowerFirst (s : String) : String :=
  match s.data with
  | [] => s
  | c :: rest => String.mk (lowerChar c :: rest)

/-- Case-insensitive comparison (`Misc::StringUtils::ciEqual`). -/
def ciEqual (a b : String) : Bool := decide (lowerCase a = lowerCase b)

/-- Scalar interpolation `lerp (float, float, float)`. -/
def lerp (x y factor : ℚ) : ℚ := x * (1 - factor) + y * factor

/-- Colour interpolation `lerp (Vec4f, Vec4f, float)`, channel by channel. -/
def lerp4 (x y : Vec4f) (factor : ℚ) : Vec4f :=
  { x := x.x * (1 - factor) + y.x * factor
    y := x.y * (1 - factor) + y.y * factor
    z := x.z * (1 - factor) + y.z * factor
    w := x.w * (1 - factor) + y.w * factor }

/-! ## The configuration lookup -/

/-- Named configuration lookup (`MWWorld::Fallback`), whose implementation is
not part of the translation unit: the four typed getters are parameters. -/
structure Fallback where
  getFallbackString : String → String
  getFallbackFloat : String → ℚ
  getFallbackColour : String → Vec4f
  getFallbackBool : String → Bool

/-! ## Weather profiles -/

/-- Parameters of one weather type (`MWWorld::Weather`). -/
structure Weather where
  mCloudTexture : String
  mSkySunriseColor : Vec4f
  mSkyDayColor : Vec4f
  mSkySunsetColor : Vec4f
  mSkyNightColor : Vec4f
  mFogSunriseColor : Vec4f
  mFogDayColor : Vec4f
  mFogSunsetColor : Vec4f
  mFogNightColor : Vec4f
  mAmbientSunriseColor : Vec4f
  mAmbientDayColor : Vec4f
  mAmbientSunsetColor : Vec4f
  mAmbientNightColor : Vec4f
  mSunSunriseColor : Vec4f
  mSunDayColor : Vec4f
  mSunSunsetColor : Vec4f
  mSunNightColor : Vec4f
  mLandFogDayDepth : ℚ
  mLandFogNightDepth : ℚ
  mSunDiscSunsetColor : Vec4f
  mWindSpeed : ℚ
  mCloudSpeed : ℚ
  mGlareView : ℚ
  mAmbientLoopSoundID : String
  mIsStorm : Bool
  mRainSpeed : ℚ
  mRainFrequency : ℚ
  mParticleEffect : String
  mRainEffect : String
  mTransitionDelta : ℚ
  mCloudsMaximumPercent : ℚ
deriving DecidableEq

/-- Constructor `Weather::Weather`. -/
def Weather.new (name : String) (fallback : Fallback) (stormWindSpeed rainSpeed : ℚ)
    (ambientLoopSoundID particleEffect : String) : Weather :=
  let mWindSpeed := fallback.getFallbackFloat ("Weather_" ++ name ++ "_Wind_Speed")
  { mCloudTexture := fallback.getFallbackString ("Weather_" ++ name ++ "_Cloud_Texture")
    mSkySunriseColor := fallback.getFallbackColour ("Weather_" ++ name ++ "_Sky_Sunrise_Color")
    mSkyDayColor := fallback.getFallbackColour ("Weather_" ++ name ++ "_Sky_Day_Color")
    mSkySunsetColor := fallback.getFallbackColour ("Weather_" ++ name ++ "_Sky_Sunset_Color")
    mSkyNightColor := fallback.getFallbackColour ("Weather_" ++ name ++ "_Sky_Night_Color")
    mFogSunriseColor := fallback.getFallbackColour ("Weather_" ++ name ++ "_Fog_Sunrise_Color")
    mFogDayColor := fallback.getFallbackColour ("Weather_" ++ name ++ "_Fog_Day_Color")
    mFogSunsetColor := fallback.getFallbackColour ("Weather_" ++ name ++ "_Fog_Sunset_Color")
    mFogNightColor := fallback.getFallbackColour ("Weather_" ++ name ++ "_Fog_Night_Color")
    mAmbientSunriseColor :=
      fallback.getFallbackColour ("Weather_" ++ name ++ "_Ambient_Sunrise_Color")
    mAmbientDayColor := fallback.getFallbackColour ("Weather_" ++ name ++ "_Ambient_Day_Color")
    mAmbientSunsetColor :=
      fallback.getFallbackColour ("Weather_" ++ name ++ "_Ambient_Sunset_Color")
    mAmbientNightColor :=
      fallback.getFallbackColour ("Weather_" ++ name ++ "_Ambient_Night_Color")
    mSunSunriseColor := fallback.getFallbackColour ("Weather_" ++ name ++ "_Sun_Sunrise_Color")
    mSunDayColor := fallback.getFallbackColour ("Weather_" ++ name ++ "_Sun_Day_Color")
    mSunSunsetColor := fallback.getFallbackColour ("Weather_" ++ name ++ "_Sun_Sunset_Color")
    mSunNightColor := fallback.getFallbackColour ("Weather_" ++ name ++ "_Sun_Night_Color")
    mLandFogDayDepth := fallback.getFallbackFloat ("Weather_" ++ name ++ "_Land_Fog_Day_Depth")
    mLandFogNightDepth :=
      fallback.getFallbackFloat ("Weather_" ++ name ++ "_Land_Fog_Night_Depth")
    mSunDiscSunsetColor :=
      fallback.getFallbackColour ("Weather_" ++ name ++ "_Sun_Disc_Sunset_Color")
    mWindSpeed := mWindSpeed
    mCloudSpeed := fallback.getFallbackFloat ("Weather_" ++ name ++ "_Cloud_Speed")
    mGlareView := fallback.getFallbackFloat ("Weather_" ++ name ++ "_Glare_View")
    mAmbientLoopSoundID := ambientLoopSoundID
    mIsStorm := decide (mWindSpeed > stormWindSpeed)
    mRainSpeed := rainSpeed
    mRainFrequency := fallback.getFallbackFloat ("Weather_" ++ name ++ "_Rain_Entrance_Speed")
    mParticleEffect := particleEffect
    mRainEffect :=
      if fallback.getFallbackBool ("Weather_" ++ name ++ "_Using_Precip")
      then "meshes\\raindrop.nif" else ""
    mTransitionDelta := fallback.getFallbackFloat ("Weather_" ++ name ++ "_Transition_Delta")
    mCloudsMaximumPercent :=
      fallback.getFallbackFloat ("Weather_" ++ name ++ "_Clouds_Maximum_Percent") }

/-- Seconds of a full transition away from this weather
(`Weather::transitionSeconds`). -/
def Weather.transitionSeconds (w : Weather) : ℚ :=
  ((835 : ℚ) / 100000 / w.mTransitionDelta) * 60 * 60

/-- Cloud cross-fade factor (`Weather::cloudBlendFactor`). -/
def Weather.cloudBlendFactor (w : Weather) (transitionRatio : ℚ) : ℚ :=
  transitionRatio / w.mCloudsMaximumPercent

/-! ## The moon model -/

/-- Parameters of one moon (`MWWorld::MoonModel`). -/
structure MoonModel where
  mFadeInStart : ℚ
  mFadeInFinish : ℚ
  mFadeOutStart : ℚ
  mFadeOutFinish : ℚ
  mAxisOffset : ℚ
  mSpeed : ℚ
  mDailyIncrement : ℚ
  mFadeStartAngle : ℚ
  mFadeEndAngle : ℚ
  mMoonShadowEarlyFadeAngle : ℚ
deriving DecidableEq

/-- Constructor `MoonModel::MoonModel`, with the clamp of the speed. -/
def MoonModel.new (name : String) (fallback : Fallback) : MoonModel :=
  { mFadeInStart := fallback.getFallbackFloat ("Moons_" ++ name ++ "_Fade_In_Start")
    mFadeInFinish := fallback.getFallbackFloat ("Moons_" ++ name ++ "_Fade_In_Finish")
    mFadeOutStart := fallback.getFallbackFloat ("Moons_" ++ name ++ "_Fade_Out_Start")
    mFadeOutFinish := fallback.getFallbackFloat ("Moons_" ++ name ++ "_Fade_Out_Finish")
    mAxisOffset := fallback.getFallbackFloat ("Moons_" ++ name ++ "_Axis_Offset")
    mSpeed := min (fallback.getFallbackFloat ("Moons_" ++ name ++ "_Speed")) ((180 : ℚ) / 23)
    mDailyIncrement := fallback.getFallbackFloat ("Moons_" ++ name ++ "_Daily_Increment")
    mFadeStartAngle := fallback.getFallbackFloat ("Moons_" ++ name ++ "_Fade_Start_Angle")
    mFadeEndAngle := fallback.getFallbackFloat ("Moons_" ++ name ++ "_Fade_End_Angle")
    mMoonShadowEarlyFadeAngle :=
      fallback.getFallbackFloat ("Moons_" ++ name ++ "_Moon_Shadow_Early_Fade_Angle") }

/-- Wrap-around of `unsigned int` arithmetic (32 bits). -/
def wrapUInt (n : Nat) : Nat := n % 2 ^ 32

/-- Number of low bits of an `unsigned int` that do not fit in the 24-bit
significand of a `float`; the fuel 8 covers 32 bits. -/
def floatShift : Nat → Nat → Nat
  | 0, _ => 0
  | fuel + 1, n => if n < 2 ^ 24 then 0 else floatShift fuel (n / 2) + 1

/-- Value of an `unsigned int` after its conversion to `float`: the nearest
number with a 24-bit significand, a tie going to the even significand (the
default rounding mode). Numbers up to 2^24 are kept. -/
def floatOfUInt (n : Nat) : Nat :=
  let unit := 2 ^ floatShift 8 n
  let significand := n / unit
  let rest := n % unit
  if 2 * rest > unit ∨ (2 * rest = unit ∧ significand % 2 = 1) then (significand + 1) * unit
  else significand * unit

/-- Rounding toward zero, as in the quotient of `std::fmod`. -/
def truncate (q : ℚ) : Int := if 0 ≤ q then ⌊q⌋ else -⌊-q⌋

/-- Floating-point remainder `std::fmod (x, y)` in exact arithmetic: `x` minus
`y` times the quotient rounded toward zero. -/
def fmod (x y : ℚ) : ℚ := x - y * (truncate (x / y) : ℚ)

/-- State of one moon handed to the sky (`MWRender::MoonState`). -/
structure MoonState where
  mRotationFromHorizon : ℚ
  mRotationFromNorth : ℚ
  mPhase : Nat
  mShadowBlend : ℚ
  mMoonAlpha : ℚ
deriving DecidableEq

/-- Hour of the moon rise of a day (`MoonModel::moonRiseHour`); the day count
is an `unsigned int`, the sum `daysPassed - 1 + startDay` is computed in
`unsigned int` and converted to `float` for the product. -/
def MoonModel.moonRiseHour (moon : MoonModel) (daysPassed : Nat) : ℚ :=
  let startDay : Nat := 16
  moon.mDailyIncrement +
    fmod ((floatOfUInt (wrapUInt (wrapUInt (daysPassed + (2 ^ 32 - 1)) + startDay)) : ℚ)
      * moon.mDailyIncrement) 24

/-- Degrees travelled in the given hours (`MoonModel::rotation`). -/
def MoonModel.rotation (moon : MoonModel) (hours : ℚ) : ℚ := 15 * moon.mSpeed * hours

/-- Angle of the moon above the horizon of its rise (`MoonModel::angle`). -/
def MoonModel.angle (moon : MoonModel) (daysPassed : Nat) (gameHour : ℚ) : ℚ :=
  let moonRiseHourToday := moon.moonRiseHour daysPassed
  let moonRiseAngleToday : ℚ :=
    if gameHour < moonRiseHourToday then
      let moonRiseHourYesterday := moon.moonRiseHour (wrapUInt (daysPassed + (2 ^ 32 - 1)))
      if moonRiseHourYesterday < 24 then
        let moonRiseAngleYesterday := moon.rotation (24 - moonRiseHourYesterday)
        if moonRiseAngleYesterday < 180 then
          -- The moon rose but did not set yesterday
          moon.rotation gameHour + moonRiseAngleYesterday
        else 0
      else 0
    else
      moon.rotation (gameHour - moonRiseHourToday)
  if moonRiseAngleToday ≥ 180 then
    -- The moon set today, reset the angle to the horizon.
    0
  else moonRiseAngleToday

/-- Phase of the moon, a number from 0 to 7 (`MoonModel::phase`). -/
def MoonModel.phase (moon : MoonModel) (daysPassed : Nat) (gameHour : ℚ) : Nat :=
  -- If the moon didn't rise yet today, use yesterday's moon phase.
  if gameHour < moon.moonRiseHour daysPassed then
    (daysPassed / 3) % 8
  else
    (wrapUInt (daysPassed + 1) / 3) % 8

/-- Ratio between the textured moon and the solid disk (`MoonModel::shadowBlend`). -/
def MoonModel.shadowBlend (moon : MoonModel) (angle : ℚ) : ℚ :=
  let fadeAngle := moon.mFadeStartAngle - moon.mFadeEndAngle
  let fadeEndAngle2 := 180 - moon.mFadeEndAngle
  let fadeStartAngle2 := 180 - moon.mFadeStartAngle
  if angle ≥ moon.mFadeEndAngle ∧ angle < moon.mFadeStartAngle then
    (angle - moon.mFadeEndAngle) / fadeAngle
  else if angle ≥ moon.mFadeStartAngle ∧ angle < fadeStartAngle2 then
    1
  else if angle ≥ fadeStartAngle2 ∧ angle < fadeEndAngle2 then
    (fadeEndAngle2 - angle) / fadeAngle
  else
    0

/-- Transparency of the moon by the hour (`MoonModel::hourlyAlpha`). -/
def MoonModel.hourlyAlpha (moon : MoonModel) (gameHour : ℚ) : ℚ :=
  if gameHour ≥ moon.mFadeOutStart ∧ gameHour < moon.mFadeOutFinish then
    (moon.mFadeOutFinish - gameHour) / (moon.mFadeOutFinish - moon.mFadeOutStart)
  else if gameHour ≥ moon.mFadeOutFinish ∧ gameHour < moon.mFadeInStart then
    0
  else if gameHour ≥ moon.mFadeInStart ∧ gameHour < moon.mFadeInFinish then
    (gameHour - moon.mFadeInStart) / (moon.mFadeInFinish - moon.mFadeInStart)
  else
    1

/-- Transparency of the moon by its angle (`MoonModel::earlyMoonShadowAlpha`). -/
def MoonModel.earlyMoonShadowAlpha (moon : MoonModel) (angle : ℚ) : ℚ :=
  let moonShadowEarlyFadeAngle1 := moon.mFadeEndAngle - moon.mMoonShadowEarlyFadeAngle
  let fadeEndAngle2 := 180 - moon.mFadeEndAngle
  let moonShadowEarlyFadeAngle2 := fadeEndAngle2 + moon.mMoonShadowEarlyFadeAngle
  if angle ≥ moonShadowEarlyFadeAngle1 ∧ angle < moon.mFadeEndAngle then
    (angle - moonShadowEarlyFadeAngle1) / moon.mMoonShadowEarlyFadeAngle
  else if angle ≥ moon.mFadeEndAngle ∧ angle < fadeEndAngle2 then
    1
  else if angle ≥ fadeEndAngle2 ∧ angle < moonShadowEarlyFadeAngle2 then
    (moonShadowEarlyFadeAngle2 - angle) / moon.mMoonShadowEarlyFadeAngle
  else
    0

/-- State of the moon at a day and hour (`MoonModel::calculateState`). -/
def MoonModel.calculateState (moon : MoonModel) (daysPassed : Nat) (gameHour : ℚ) :
    MoonState :=
  let rotationFromHorizon := moon.angle daysPassed gameHour
  { mRotationFromHorizon := rotationFromHorizon
    mRotationFromNorth := moon.mAxisOffset
    mPhase := moon.phase daysPassed gameHour
    mShadowBlend := moon.shadowBlend rotationFromHorizon
    mMoonAlpha := moon.earlyMoonShadowAlpha rotationFromHorizon * moon.hourlyAlpha gameHour }

/-! ## The resolved result and the manager state -/

/-- Resolved parameters of the current instant (`MWRender::WeatherResult`). -/
structure WeatherResult where
  mCloudTexture : String
  mNextCloudTexture : String
  mCloudBlendFactor : ℚ
  mFogColor : Vec4f
  mAmbientColor : Vec4f
  mSkyColor : Vec4f
  mSunColor : Vec4f
  mSunDiscColor : Vec4f
  mFogDepth : ℚ
  mWindSpeed : ℚ
  mCloudSpeed : ℚ
  mGlareView : ℚ
  mNightFade : ℚ
  mNight : Bool
  mIsStorm : Bool
  mAmbientLoopSoundID : String
  mAmbientSoundVolume : ℚ
  mEffectFade : ℚ
  mParticleEffect : String
  mRainEffect : String
  mRainSpeed : ℚ
  mRainFrequency : ℚ
deriving DecidableEq

/-- Member variables of `MWWorld::WeatherManager`.  `mAmbientSound` records
whether the sound pointer is non-null. -/
structure WeatherManager where
  mHour : ℚ
  mWindSpeed : ℚ
  mIsStorm : Bool
  mStormDirection : Vec3f
  mCurrentWeather : String
  mNextWeather : String
  mFirstUpdate : Bool
  mRemainingTransitionTime : ℚ
  mThunderFlash : ℚ
  mThunderChance : ℚ
  mThunderChanceNeeded : ℚ
  mTimePassed : ℚ
  mWeatherUpdateTime : ℚ
  mThunderSoundDelay : ℚ
  mMasser : MoonModel
  mSecunda : MoonModel
  mThunderSoundID0 : String
  mThunderSoundID1 : String
  mThunderSoundID2 : String
  mThunderSoundID3 : String
  mSunriseTime : ℚ
  mSunsetTime : ℚ
  mSunriseDuration : ℚ
  mSunsetDuration : ℚ
  mHoursBetweenWeatherChanges : ℚ
  mThunderFrequency : ℚ
  mThunderThreshold : ℚ
  mRainSpeed : ℚ
  mNightStart : ℚ
  mNightEnd : ℚ
  mDayStart : ℚ
  mDayEnd : ℚ
  mWeatherSettings : StrMap Weather
  mCurrentRegion : String
  mRegionOverrides : StrMap String
  mRegionMods : StrMap (List Int)
  mPlayingSoundID : String
  mAmbientSound : Bool
  mResult : WeatherResult
deriving DecidableEq

/-- Lookup of a registered profile (`WeatherManager::findWeather`); `none`
stands for the exception of `std::map::at`. -/
def WeatherManager.findWeather (m : WeatherManager) (name : String) : Option Weather :=
  m.mWeatherSettings.find name

/-- Registration of one profile (`WeatherManager::addWeather`).  The game
setting `fStromWindSpeed` of the store is a parameter. -/
def WeatherManager.addWeather (m : WeatherManager) (fStromWindSpeed : ℚ) (name : String)
    (fallback : Fallback) (ambientLoopSoundID particleEffect : String) : WeatherManager :=
  let weather :=
    Weather.new name fallback fStromWindSpeed m.mRainSpeed ambientLoopSoundID particleEffect
  { m with mWeatherSettings := m.mWeatherSettings.insert (lowerFirst name) weather }

/-- Constructor `WeatherManager::WeatherManager`.  The members without an
initialiser get their default (empty strings and maps, a null sound pointer);
the contents of `mResult`, which the constructor leaves indeterminate, are the
parameter `result0`. -/
def WeatherManager.new (fallback : Fallback) (fStromWindSpeed : ℚ)
    (result0 : WeatherResult) : WeatherManager :=
  let mSunriseTime := fallback.getFallbackFloat "Weather_Sunrise_Time"
  let mSunsetTime := fallback.getFallbackFloat "Weather_Sunset_Time"
  let mSunriseDuration := fallback.getFallbackFloat "Weather_Sunrise_Duration"
  let mSunsetDuration := fallback.getFallbackFloat "Weather_Sunset_Duration"
  let mHoursBetweenWeatherChanges :=
    fallback.getFallbackFloat "Weather_Hours_Between_Weather_Changes"
  let m0 : WeatherManager :=
    { mHour := 14
      mWindSpeed := 0
      mIsStorm := false
      mStormDirection := ⟨0, 1, 0⟩
      mCurrentWeather := "clear"
      mNextWeather := ""
      mFirstUpdate := true
      mRemainingTransitionTime := 0
      mThunderFlash := 0
      mThunderChance := 0
      mThunderChanceNeeded := 50
      mTimePassed := 0
      mWeatherUpdateTime := mHoursBetweenWeatherChanges * 3600
      mThunderSoundDelay := (1 : ℚ) / 4
      mMasser := MoonModel.new "Masser" fallback
      mSecunda := MoonModel.new "Secunda" fallback
      mThunderSoundID0 := fallback.getFallbackString "Weather_Thunderstorm_Thunder_Sound_ID_0"
      mThunderSoundID1 := fallback.getFallbackString "Weather_Thunderstorm_Thunder_Sound_ID_1"
      mThunderSoundID2 := fallback.getFallbackString "Weather_Thunderstorm_Thunder_Sound_ID_2"
      mThunderSoundID3 := fallback.getFallbackString "Weather_Thunderstorm_Thunder_Sound_ID_3"
      mSunriseTime := mSunriseTime
      mSunsetTime := mSunsetTime
      mSunriseDuration := mSunriseDuration
      mSunsetDuration := mSunsetDuration
      mHoursBetweenWeatherChanges := mHoursBetweenWeatherChanges
      mThunderFrequency := fallback.getFallbackFloat "Weather_Thunderstorm_Thunder_Frequency"
      mThunderThreshold := fallback.getFallbackFloat "Weather_Thunderstorm_Thunder_Threshold"
      mRainSpeed := fallback.getFallbackFloat "Weather_Precip_Gravity"
      mNightStart := mSunsetTime + mSunsetDuration
      mNightEnd := mSunriseTime - (1 : ℚ) / 2
      mDayStart := mSunriseTime + mSunriseDuration
      mDayEnd := mSunsetTime
      mWeatherSettings := []
      mCurrentRegion := ""
      mRegionOverrides := []
      mRegionMods := []
      mPlayingSoundID := ""
      mAmbientSound := false
      mResult := result0 }
  let m1 := m0.addWeather fStromWindSpeed "Clear" fallback "" ""
  let m2 := m1.addWeather fStromWindSpeed "Cloudy" fallback "" ""
  let m3 := m2.addWeather fStromWindSpeed "Foggy" fallback "" ""
  let m4 := m3.addWeather fStromWindSpeed "Overcast" fallback "" ""
  let m5 := m4.addWeather fStromWindSpeed "Rain" fallback "rain" ""
  let m6 := m5.addWeather fStromWindSpeed "Thunderstorm" fallback "rain heavy" ""
  let m7 := m6.addWeather fStromWindSpeed "Ashstorm" fallback "ashstorm" "meshes\\ashcloud.nif"
  let m8 := m7.addWeather fStromWindSpeed "Blight" fallback "blight" "meshes\\blightcloud.nif"
  let m9 := m8.addWeather fStromWindSpeed "Snow" fallback "" "meshes\\snow.nif"
  m9.addWeather fStromWindSpeed "Blizzard" fallback "BM Blizzard" "meshes\\blizzard.nif"

/-! ## The transition engine: `setWeather` -/

/-- Request of a weather (`WeatherManager::setWeather`). -/
def WeatherManager.setWeather (m : WeatherManager) (weather : String) (instant : Bool) :
    Option WeatherManager :=
  if weather = m.mCurrentWeather ∧ m.mNextWeather = "" then
    some { m with mFirstUpdate := false }
  else if instant || m.mFirstUpdate then
    some { m with mNextWeather := "", mCurrentWeather := weather, mFirstUpdate := false }
  else do
    let m1 ←
      if m.mNextWeather ≠ "" then do
        -- transition more than 50% finished?
        let cur ← m.findWeather m.mCurrentWeather
        if m.mRemainingTransitionTime / cur.transitionSeconds ≤ (1 : ℚ) / 2 then
          pure { m with mCurrentWeather := m.mNextWeather }
        else
          pure m
      else
        pure m
    let m2 := { m1 with mNextWeather := weather }
    let cur ← m2.findWeather m2.mCurrentWeather
    pure { m2 with mRemainingTransitionTime := cur.transitionSeconds, mFirstUpdate := false }

/-! ## The collaborators -/

/-- Region record of the store (`ESM::Region`): its id and the ten weather
chances of `mData`, each with the value it has once stored in the
`std::vector<char>` of `nextWeather`. -/
structure Region where
  mId : String
  mClear : Int
  mCloudy : Int
  mFoggy : Int
  mOvercast : Int
  mRain : Int
  mThunder : Int
  mAsh : Int
  mBlight : Int
  mA : Int
  mB : Int

/-- What the collaborators answer during one call: the world and its store,
the player, the sound manager and the random number generator. -/
structure World where
  /-- Answer of `World::isCellExterior`. -/
  isCellExterior : Bool
  /-- Answer of `World::isCellQuasiExterior`. -/
  isCellQuasiExterior : Bool
  /-- Answer of `Ptr::isInCell` for the player. -/
  playerInCell : Bool
  /-- Region of the cell of the player (`getCell()->getCell()->mRegion`). -/
  playerRegion : String
  /-- Position of the player. -/
  playerPos : Vec3f
  /-- Lookup of a region in the store (`search`, and `find` which throws). -/
  searchRegion : String → Option Region
  /-- Normalisation of a vector (`osg::Vec3f::normalize`). -/
  normalize : Vec3f → Vec3f
  /-- Value of `Misc::Rng::rollDice(100)` in `nextWeather`. -/
  rollWeather : Nat
  /-- Value of `Misc::Rng::rollDice(4)` for the thunder sound. -/
  rollSound : Nat
  /-- Value of `Misc::Rng::rollDice(100)` for the thunder threshold. -/
  rollThunder : Nat
  /-- Whether `playSound` hands back a non-null sound. -/
  playSoundOk : Bool

/-! ## The daily colour resolver: `setResult` and `transition` -/

/-- Resolution of one weather at the current hour
(`WeatherManager::setResult`). -/
def WeatherManager.setResult (m : WeatherManager) (weatherType : String) :
    Option WeatherManager := do
  let current ← m.findWeather weatherType
  let night : Bool := decide (m.mHour < m.mSunriseTime ∨ m.mHour > m.mNightStart - 1)
  let r0 : WeatherResult :=
    { m.mResult with
      mCloudTexture := current.mCloudTexture
      mCloudBlendFactor := 0
      mWindSpeed := current.mWindSpeed
      mCloudSpeed := current.mCloudSpeed
      mGlareView := current.mGlareView
      mAmbientLoopSoundID := current.mAmbientLoopSoundID
      mAmbientSoundVolume := 1
      mEffectFade := 1
      mSunColor := current.mSunDiscSunsetColor
      mIsStorm := current.mIsStorm
      mRainSpeed := current.mRainSpeed
      mRainFrequency := current.mRainFrequency
      mParticleEffect := current.mParticleEffect
      mRainEffect := current.mRainEffect
      mNight := night
      mFogDepth := if night then current.mLandFogNightDepth else current.mLandFogDayDepth }
  let r1 : WeatherResult :=
    -- night
    if m.mHour ≤ m.mNightEnd ∨ m.mHour ≥ m.mNightStart + 1 then
      { r0 with
        mFogColor := current.mFogNightColor
        mAmbientColor := current.mAmbientNightColor
        mSunColor := current.mSunNightColor
        mSkyColor := current.mSkyNightColor
        mNightFade := 1 }
    -- sunrise
    else if m.mHour ≥ m.mNightEnd ∧ m.mHour ≤ m.mDayStart + 1 then
      if m.mHour ≤ m.mSunriseTime then
        -- fade in
        let advance := m.mSunriseTime - m.mHour
        let factor := advance / ((1 : ℚ) / 2)
        { r0 with
          mFogColor := lerp4 current.mFogSunriseColor current.mFogNightColor factor
          mAmbientColor := lerp4 current.mAmbientSunriseColor current.mAmbientNightColor factor
          mSunColor := lerp4 current.mSunSunriseColor current.mSunNightColor factor
          mSkyColor := lerp4 current.mSkySunriseColor current.mSkyNightColor factor
          mNightFade := factor }
      else
        -- fade out
        let advance := m.mHour - m.mSunriseTime
        let factor := advance / 3
        { r0 with
          mFogColor := lerp4 current.mFogSunriseColor current.mFogDayColor factor
          mAmbientColor := lerp4 current.mAmbientSunriseColor current.mAmbientDayColor factor
          mSunColor := lerp4 current.mSunSunriseColor current.mSunDayColor factor
          mSkyColor := lerp4 current.mSkySunriseColor current.mSkyDayColor factor }
    -- day
    else if m.mHour ≥ m.mDayStart + 1 ∧ m.mHour ≤ m.mDayEnd - 1 then
      { r0 with
        mFogColor := current.mFogDayColor
        mAmbientColor := current.mAmbientDayColor
        mSunColor := current.mSunDayColor
        mSkyColor := current.mSkyDayColor }
    -- sunset
    else if m.mHour ≥ m.mDayEnd - 1 ∧ m.mHour ≤ m.mNightStart + 1 then
      if m.mHour ≤ m.mDayEnd + 1 then
        -- fade in
        let advance := (m.mDayEnd + 1) - m.mHour
        let factor := advance / 2
        { r0 with
          mFogColor := lerp4 current.mFogSunsetColor current.mFogDayColor factor
          mAmbientColor := lerp4 current.mAmbientSunsetColor current.mAmbientDayColor factor
          mSunColor := lerp4 current.mSunSunsetColor current.mSunDayColor factor
          mSkyColor := lerp4 current.mSkySunsetColor current.mSkyDayColor factor }
      else
        -- fade out
        let advance := m.mHour - (m.mDayEnd + 1)
        let factor := advance / 2
        { r0 with
          mFogColor := lerp4 current.mFogSunsetColor current.mFogNightColor factor
          mAmbientColor := lerp4 current.mAmbientSunsetColor current.mAmbientNightColor factor
          mSunColor := lerp4 current.mSunSunsetColor current.mSunNightColor factor
          mSkyColor := lerp4 current.mSkySunsetColor current.mSkyNightColor factor
          mNightFade := factor }
    else r0
  pure { m with mResult := r1 }

/-- Blend of the current and the next weather (`WeatherManager::transition`). -/
def WeatherManager.transition (m : WeatherManager) (factor : ℚ) : Option WeatherManager := do
  let m1 ← m.setResult m.mCurrentWeather
  let current := m1.mResult
  let m2 ← m1.setResult m1.mNextWeather
  let other := m2.mResult
  let nextWeather ← m2.findWeather m2.mNextWeather
  let r0 : WeatherResult :=
    { m2.mResult with
      mCloudTexture := current.mCloudTexture
      mNextCloudTexture := other.mCloudTexture
      mCloudBlendFactor := nextWeather.cloudBlendFactor factor
      mFogColor := lerp4 current.mFogColor other.mFogColor factor
      mSunColor := lerp4 current.mSunColor other.mSunColor factor
      mSkyColor := lerp4 current.mSkyColor other.mSkyColor factor
      mAmbientColor := lerp4 current.mAmbientColor other.mAmbientColor factor
      mSunDiscColor := lerp4 current.mSunDiscColor other.mSunDiscColor factor
      mFogDepth := lerp current.mFogDepth other.mFogDepth factor
      mWindSpeed := lerp current.mWindSpeed other.mWindSpeed factor
      mCloudSpeed := lerp current.mCloudSpeed other.mCloudSpeed factor
      mGlareView := lerp current.mGlareView other.mGlareView factor
      mNightFade := lerp current.mNightFade other.mNightFade factor
      mNight := current.mNight }
  let r1 : WeatherResult :=
    if factor < (1 : ℚ) / 2 then
      { r0 with
        mIsStorm := current.mIsStorm
        mParticleEffect := current.mParticleEffect
        mRainEffect := current.mRainEffect
        mRainSpeed := current.mRainSpeed
        mRainFrequency := current.mRainFrequency
        mAmbientSoundVolume := 1 - factor * 2
        mEffectFade := 1 - factor * 2
        mAmbientLoopSoundID := current.mAmbientLoopSoundID }
    else
      { r0 with
        mIsStorm := other.mIsStorm
        mParticleEffect := other.mParticleEffect
        mRainEffect := other.mRainEffect
        mRainSpeed := other.mRainSpeed
        mRainFrequency := other.mRainFrequency
        mAmbientSoundVolume := 2 * (factor - (1 : ℚ) / 2)
        mEffectFade := 2 * (factor - (1 : ℚ) / 2)
        mAmbientLoopSoundID := other.mAmbientLoopSoundID }
  pure { m2 with mResult := r1 }

/-! ## The regional draw: `nextWeather` -/

/-- The ten chances of a region in the order in which `nextWeather` pushes
them into its vector. -/
def Region.probability (region : Region) : List Int :=
  [region.mClear, region.mCloudy, region.mFoggy, region.mOvercast, region.mRain,
   region.mThunder, region.mAsh, region.mBlight, region.mA, region.mB]

/-- The accumulation loop of `nextWeather`: `sum` and `i` are the loop
variables, the list holds the entries not yet visited, and the value is `i`
when the loop is left. -/
def nextWeatherLoop (chance : Int) : List Int → Int → Nat → Nat
  | [], _, i => i
  | p :: rest, sum, i =>
    if chance < sum + p then i else nextWeatherLoop chance rest (sum + p) (i + 1)

/-- The `switch (i)` at the end of `nextWeather`. -/
def weatherOfIndex (i : Nat) : String :=
  match i with
  | 1 => "cloudy"
  | 2 => "foggy"
  | 3 => "overcast"
  | 4 => "rain"
  | 5 => "thunderstorm"
  | 6 => "ashstorm"
  | 7 => "blight"
  | 8 => "snow"
  | 9 => "blizzard"
  | _ => "clear"

/-- The table that `nextWeather` draws from: the override installed for the
lower-cased region id when there is one, the ten chances of the region
otherwise. -/
def WeatherManager.probabilityTable (m : WeatherManager) (region : Region) : List Int :=
  match m.mRegionMods.find (lowerCase region.mId) with
  | some chances => chances
  | none => region.probability

/-- Draw of the next weather of a region (`WeatherManager::nextWeather`);
`roll` is the value of `Misc::Rng::rollDice(100)`. -/
def WeatherManager.nextWeather (m : WeatherManager) (region : Region) (roll : Nat) : String :=
  let probability := m.probabilityTable region
  let chance : Int := (roll : Int) + 1
  weatherOfIndex (nextWeatherLoop chance probability 0 0)

/-! ## Small accessors and script commands -/

/-- Setter `WeatherManager::setHour`. -/
def WeatherManager.setHour (m : WeatherManager) (hour : ℚ) : WeatherManager :=
  { m with mHour := hour }

/-- Numeric id of the current weather (`WeatherManager::getWeatherID`). -/
def WeatherManager.getWeatherID (m : WeatherManager) : Nat :=
  if m.mCurrentWeather = "clear" then 0
  else if m.mCurrentWeather = "cloudy" then 1
  else if m.mCurrentWeather = "foggy" then 2
  else if m.mCurrentWeather = "overcast" then 3
  else if m.mCurrentWeather = "rain" then 4
  else if m.mCurrentWeather = "thunderstorm" then 5
  else if m.mCurrentWeather = "ashstorm" then 6
  else if m.mCurrentWeather = "blight" then 7
  else if m.mCurrentWeather = "snow" then 8
  else if m.mCurrentWeather = "blizzard" then 9
  else 0

/-- Script command `WeatherManager::changeWeather`; `none` when the region
lookup or `setWeather` throws. -/
def WeatherManager.changeWeather (m : WeatherManager) (world : World) (region : String)
    (id : Nat) : Option WeatherManager := do
  -- make sure this region exists
  let _ ← world.searchRegion region
  let weather : String :=
    if id = 0 then "clear"
    else if id = 1 then "cloudy"
    else if id = 2 then "foggy"
    else if id = 3 then "overcast"
    else if id = 4 then "rain"
    else if id = 5 then "thunderstorm"
    else if id = 6 then "ashstorm"
    else if id = 7 then "blight"
    else if id = 8 then "snow"
    else if id = 9 then "blizzard"
    else "clear"
  let m1 := { m with mRegionOverrides := m.mRegionOverrides.set (lowerCase region) weather }
  if world.playerInCell then
    if ciEqual region world.playerRegion then m1.setWeather weather false else pure m1
  else
    pure m1

/-- Script command `WeatherManager::modRegion`. -/
def WeatherManager.modRegion (m : WeatherManager) (regionid : String) (chances : List Int) :
    WeatherManager :=
  let m1 := { m with mRegionMods := m.mRegionMods.set (lowerCase regionid) chances }
  -- Start transitioning right away if the region no longer supports the current weather type
  let current := m1.getWeatherID
  if current ≥ chances.length ∨ chances.getD current 0 = 0 then
    { m1 with mWeatherUpdateTime := 0 }
  else m1

/-- Accessor `WeatherManager::getWindSpeed`. -/
def WeatherManager.getWindSpeed (m : WeatherManager) : ℚ := m.mWindSpeed

/-- Query `WeatherManager::isDark`. -/
def WeatherManager.isDark (m : WeatherManager) (world : World) : Bool :=
  let exterior := world.isCellExterior || world.isCellQuasiExterior
  exterior && decide (m.mHour < m.mSunriseTime ∨ m.mHour > m.mNightStart - 1)

/-- Accessor `WeatherManager::isInStorm`. -/
def WeatherManager.isInStorm (m : WeatherManager) : Bool := m.mIsStorm

/-- Accessor `WeatherManager::getStormDirection`. -/
def WeatherManager.getStormDirection (m : WeatherManager) : Vec3f := m.mStormDirection

/-- Accumulation of simulated time (`WeatherManager::advanceTime`). -/
def WeatherManager.advanceTime (m : WeatherManager) (hours : ℚ) : WeatherManager :=
  { m with mTimePassed := m.mTimePassed + hours * 3600 }

/-- Stop of the ambient loop (`WeatherManager::stopSounds`). -/
def WeatherManager.stopSounds (m : WeatherManager) : WeatherManager :=
  if m.mAmbientSound then { m with mAmbientSound := false, mPlayingSoundID := "" } else m

/-! ## Region re-evaluation and the update tick -/

/-- Re-evaluation of the regional weather
(`WeatherManager::switchToNextWeather`). -/
def WeatherManager.switchToNextWeather (m : WeatherManager) (world : World)
    (instantly : Bool) : Option WeatherManager :=
  if world.isCellExterior || world.isCellQuasiExterior then
    let regionstr := lowerCase world.playerRegion
    if m.mWeatherUpdateTime ≤ 0 ∨ regionstr ≠ m.mCurrentRegion then
      let m1 : WeatherManager :=
        { m with
          mCurrentRegion := regionstr
          mWeatherUpdateTime := m.mHoursBetweenWeatherChanges * 3600 }
      let weatherType : String :=
        match m1.mRegionOverrides.find regionstr with
        | some forced => forced
        | none =>
          -- get weather probabilities for the current region
          match world.searchRegion regionstr with
          | some region => m1.nextWeather region world.rollWeather
          | none => "clear"
      m1.setWeather weatherType instantly
    else
      some m
  else
    some m

/-- Step of `update` that advances the transition countdown and completes the
transition (the first `if (mNextWeather != "")`). -/
def WeatherManager.updateTransition (m : WeatherManager) (timePassed : ℚ) : WeatherManager :=
  if m.mNextWeather ≠ "" then
    let m1 : WeatherManager :=
      { m with mRemainingTransitionTime := m.mRemainingTransitionTime - timePassed }
    if m1.mRemainingTransitionTime < 0 then
      { m1 with mCurrentWeather := m1.mNextWeather, mNextWeather := "" }
    else m1
  else m

/-- Step of `update` that computes `mResult` (the second
`if (mNextWeather != "")`). -/
def WeatherManager.updateResult (m : WeatherManager) : Option WeatherManager :=
  if m.mNextWeather ≠ "" then do
    let cur ← m.findWeather m.mCurrentWeather
    m.transition (1 - m.mRemainingTransitionTime / cur.transitionSeconds)
  else
    m.setResult m.mCurrentWeather

/-- Step of `update` that mirrors wind and storm of the result and computes
the storm direction. -/
def WeatherManager.updateStorm (m : WeatherManager) (world : World) : WeatherManager :=
  let m1 : WeatherManager :=
    { m with mWindSpeed := m.mResult.mWindSpeed, mIsStorm := m.mResult.mIsStorm }
  if m1.mIsStorm then
    let playerPos := world.playerPos
    let redMountainPos : Vec3f := ⟨19950, 72032, 27831⟩
    let direction : Vec3f :=
      ⟨playerPos.x - redMountainPos.x, playerPos.y - redMountainPos.y, 0⟩
    { m1 with mStormDirection := world.normalize direction }
  else m1

/-- Step of `update` for the thunder timers (the block `if (!paused)`). -/
def WeatherManager.updateThunder (m : WeatherManager) (world : World) (duration : ℚ)
    (paused : Bool) : WeatherManager :=
  if !paused then
    if m.mCurrentWeather = "thunderstorm" ∧ m.mNextWeather = "" then
      if m.mThunderFlash > 0 then
        -- play the sound after a delay
        let m1 : WeatherManager :=
          { m with mThunderSoundDelay := m.mThunderSoundDelay - duration }
        let m2 : WeatherManager :=
          if m1.mThunderSoundDelay ≤ 0 then { m1 with mThunderSoundDelay := 1000 } else m1
        { m2 with
          mThunderFlash := m2.mThunderFlash - duration
          mThunderChanceNeeded := (world.rollThunder : ℚ)
          mThunderChance := 0 }
      else
        -- no thunder active
        let m1 : WeatherManager :=
          { m with mThunderChance := m.mThunderChance + duration * 4 }
        if m1.mThunderChance ≥ m1.mThunderChanceNeeded then
          { m1 with mThunderFlash := m1.mThunderThreshold, mThunderSoundDelay := (1 : ℚ) / 4 }
        else m1
    else m
  else m

/-- Step of `update` that starts and stops the ambient loop. -/
def WeatherManager.updateSound (m : WeatherManager) (world : World) : WeatherManager :=
  if m.mPlayingSoundID ≠ m.mResult.mAmbientLoopSoundID then
    let m1 := m.stopSounds
    let m2 : WeatherManager :=
      if m1.mResult.mAmbientLoopSoundID ≠ "" then
        { m1 with mAmbientSound := world.playSoundOk }
      else m1
    { m2 with mPlayingSoundID := m2.mResult.mAmbientLoopSoundID }
  else m

/-- One simulation tick (`WeatherManager::update`). -/
def WeatherManager.update (m : WeatherManager) (world : World) (duration : ℚ)
    (paused : Bool) : Option WeatherManager :=
  let timePassed := m.mTimePassed
  let m0 : WeatherManager :=
    { m with mTimePassed := 0, mWeatherUpdateTime := m.mWeatherUpdateTime - timePassed }
  let exterior := world.isCellExterior || world.isCellQuasiExterior
  if !exterior then
    some m0.stopSounds
  else do
    let m1 ← m0.switchToNextWeather world false
    let m2 := m1.updateTransition timePassed
    let m3 ← m2.updateResult
    let m4 := m3.updateStorm world
    let m5 := m4.updateThunder world duration paused
    pure (m5.updateSound world)

/-! ## Save, restore and reset -/

/-- Saved weather record (`ESM::WeatherState`). -/
structure WeatherState where
  mHour : ℚ
  mWindSpeed : ℚ
  mCurrentWeather : String
  mNextWeather : String
  mCurrentRegion : String
  mFirstUpdate : Bool
  mRemainingTransitionTime : ℚ
  mTimePassed : ℚ
deriving DecidableEq

/-- The save-file layer (`ESM::ESMWriter`, `ESM::ESMReader`,
`ESM::WeatherState::save` and `load`, the tag `ESM::REC_WTHR`), which is not
part of the translation unit, as a parameter.  A record body has the type `α`;
`save` is what `state.save(writer)` puts between `startRecord` and `endRecord`,
and `load` is what `state.load(reader)` reads back, `none` when it throws. -/
structure EsmFormat (α : Type) where
  REC_WTHR : Nat
  save : WeatherState → α
  load : α → Option WeatherState

/-- Snapshot of the manager (`WeatherManager::write`): the record type and the
record body handed to the writer. -/
def WeatherManager.write {α : Type} (m : WeatherManager) (esm : EsmFormat α) : Nat × α :=
  let state : WeatherState :=
    { mHour := m.mHour
      mWindSpeed := m.mWindSpeed
      mCurrentWeather := m.mCurrentWeather
      mNextWeather := m.mNextWeather
      mCurrentRegion := m.mCurrentRegion
      mFirstUpdate := m.mFirstUpdate
      mRemainingTransitionTime := m.mRemainingTransitionTime
      mTimePassed := m.mTimePassed }
  (esm.REC_WTHR, esm.save state)

/-- Restore of the manager (`WeatherManager::readRecord`): the new state and
the returned flag; `none` when the load throws. -/
def WeatherManager.readRecord {α : Type} (m : WeatherManager) (esm : EsmFormat α)
    (reader : α) (type : Nat) : Option (WeatherManager × Bool) :=
  if esm.REC_WTHR = type then do
    -- load first so that if it fails, we haven't accidentally reset the state below
    let state ← esm.load reader
    -- swap in the loaded values now that we can't fail
    pure
      ({ m with
          mHour := state.mHour
          mWindSpeed := state.mWindSpeed
          mCurrentWeather := state.mCurrentWeather
          mNextWeather := state.mNextWeather
          mCurrentRegion := state.mCurrentRegion
          mFirstUpdate := state.mFirstUpdate
          mRemainingTransitionTime := state.mRemainingTransitionTime
          mTimePassed := state.mTimePassed },
        true)
  else
    some (m, false)

/-- Reset for a new game or a load (`WeatherManager::clear`). -/
def WeatherManager.clear (m : WeatherManager) : WeatherManager :=
  let m1 := m.stopSounds
  { m1 with
    mRegionOverrides := []
    mRegionMods := []
    mThunderFlash := 0
    mThunderChance := 0
    mThunderChanceNeeded := 50 }

/-! ## The sun arc of `update` -/

/-- Values of the block of `update` that computes the direction of the sun.
The angle `theta` of the source is pi times `thetaOverPi`. -/
structure SunArc where
  adjustedHour : ℚ
  adjustedNightStart : ℚ
  is_night : Bool
  dayDuration : ℚ
  nightDuration : ℚ
  thetaOverPi : ℚ
deriving DecidableEq

/-- The block of `update` that shifts the hour and the night start into the
24-hour window beginning at the sunrise time and computes the angle of the sun
(`is_night`, `dayDuration`, `nightDuration`, `theta`). -/
def WeatherManager.sunArc (m : WeatherManager) : SunArc :=
  let adjustedHour : ℚ := if m.mHour < m.mSunriseTime then m.mHour + 24 else m.mHour
  let adjustedNightStart : ℚ :=
    if m.mNightStart < m.mSunriseTime then m.mNightStart + 24 else m.mNightStart
  let is_night : Bool := decide (adjustedHour ≥ adjustedNightStart)
  let dayDuration := adjustedNightStart - m.mSunriseTime
  let nightDuration := 24 - dayDuration
  let thetaOverPi : ℚ :=
    if !is_night then (adjustedHour - m.mSunriseTime) / dayDuration
    else (adjustedHour - adjustedNightStart) / nightDuration
  { adjustedHour := adjustedHour
    adjustedNightStart := adjustedNightStart
    is_night := is_night
    dayDuration := dayDuration
    nightDuration := nightDuration
    thetaOverPi := thetaOverPi }

/-- The divisor of the branch of the sun arc that is taken. -/
def SunArc.divisor (arc : SunArc) : ℚ :=
  if !arc.is_night then arc.dayDuration else arc.nightDuration

/-! ## Runs of the simulation loop -/

/-- One frame of the simulation loop: the hours handed to `advanceTime` since
the previous frame, and the collaborators and arguments of the `update` call
of the frame. -/
structure Tick where
  hours : ℚ
  world : World
  duration : ℚ
  paused : Bool

/-- One frame: `advanceTime` followed by `update`. -/
def WeatherManager.tick (m : WeatherManager) (t : Tick) : Option WeatherManager :=
  (m.advanceTime t.hours).update t.world t.duration t.paused

/-- A sequence of frames; `none` as soon as one of them throws. -/
def WeatherManager.run (m : WeatherManager) : List Tick → Option WeatherManager
  | [] => some m
  | t :: rest =>
    match m.tick t with
    | some m1 => m1.run rest
    | none => none

/-- Seconds of time-passed consumed by the `update` calls of a run that starts
with `pending` seconds not yet consumed. -/
def consumed (pending : ℚ) : List Tick → ℚ
  | [] => 0
  | t :: rest => pending + t.hours * 3600 + consumed 0 rest

/-- All frames of the run are exterior frames in which `switchToNextWeather`
requests no weather: the player stays in `region` and the weather-update
countdown, `countdown` at the start, stays positive. -/
def noWeatherRequest (countdown : ℚ) (region : String) (pending : ℚ) : List Tick → Bool
  | [] => true
  | t :: rest =>
    (t.world.isCellExterior || t.world.isCellQuasiExterior) &&
      decide (lowerCase t.world.playerRegion = region) &&
      decide (0 < countdown - (pending + t.hours * 3600)) &&
      noWeatherRequest (countdown - (pending + t.hours * 3600)) region 0 rest

/-! ## Vocabulary of the statements -/

/-- Cumulative weight sum of a table: the sum of its first `k` entries. -/
def cumulative (table : List Int) (k : Nat) : Int := (table.take k).sum

/-- The ten weather names in the canonical order of the weight tables. -/
def canonicalOrder : List String :=
  ["clear", "cloudy", "foggy", "overcast", "rain", "thunderstorm", "ashstorm", "blight",
   "snow", "blizzard"]

/-- The four colours that `setResult` resolves by the hour: fog, ambient, sun
and sky. -/
structure PhaseColours where
  fog : Vec4f
  ambient : Vec4f
  sun : Vec4f
  sky : Vec4f
deriving DecidableEq

/-- The four resolved colours of a result. -/
def WeatherResult.colours (r : WeatherResult) : PhaseColours :=
  { fog := r.mFogColor, ambient := r.mAmbientColor, sun := r.mSunColor, sky := r.mSkyColor }

/-- The night colours of a profile. -/
def Weather.nightColours (w : Weather) : PhaseColours :=
  { fog := w.mFogNightColor, ambient := w.mAmbientNightColor, sun := w.mSunNightColor,
    sky := w.mSkyNightColor }

/-- The sunrise colours of a profile. -/
def Weather.sunriseColours (w : Weather) : PhaseColours :=
  { fog := w.mFogSunriseColor, ambient := w.mAmbientSunriseColor, sun := w.mSunSunriseColor,
    sky := w.mSkySunriseColor }

/-- The day colours of a profile. -/
def Weather.dayColours (w : Weather) : PhaseColours :=
  { fog := w.mFogDayColor, ambient := w.mAmbientDayColor, sun := w.mSunDayColor,
    sky := w.mSkyDayColor }

/-- The sunset colours of a profile. -/
def Weather.sunsetColours (w : Weather) : PhaseColours :=
  { fog := w.mFogSunsetColor, ambient := w.mAmbientSunsetColor, sun := w.mSunSunsetColor,
    sky := w.mSkySunsetColor }

/-- Every channel of `c` lies between the minimum and the maximum of the same
channel of `a` and `b`. -/
def Vec4f.between (c a b : Vec4f) : Prop :=
  (min a.x b.x ≤ c.x ∧ c.x ≤ max a.x b.x) ∧ (min a.y b.y ≤ c.y ∧ c.y ≤ max a.y b.y) ∧
    (min a.z b.z ≤ c.z ∧ c.z ≤ max a.z b.z) ∧ (min a.w b.w ≤ c.w ∧ c.w ≤ max a.w b.w)

instance (c a b : Vec4f) : Decidable (c.between a b) := by
  unfold Vec4f.between
  infer_instance

/-- Each of the four colours of `c` lies channel by channel between the
corresponding colours of `a` and `b`. -/
def PhaseColours.between (c a b : PhaseColours) : Prop :=
  c.fog.between a.fog b.fog ∧ c.ambient.between a.ambient b.ambient ∧
    c.sun.between a.sun b.sun ∧ c.sky.between a.sky b.sky

instance (c a b : PhaseColours) : Decidable (c.between a b) := by
  unfold PhaseColours.between
  infer_instance

/-- The hours that the constructor derives from the configured sunrise and
sunset times and durations. -/
def WeatherManager.hasDerivedTimes (m : WeatherManager) : Prop :=
  m.mNightStart = m.mSunsetTime + m.mSunsetDuration ∧
    m.mNightEnd = m.mSunriseTime - 1 / 2 ∧
    m.mDayStart = m.mSunriseTime + m.mSunriseDuration ∧
    m.mDayEnd = m.mSunsetTime

instance (m : WeatherManager) : Decidable m.hasDerivedTimes := by
  unfold WeatherManager.hasDerivedTimes
  infer_instance

/-- The weather name of a numeric id in `changeWeather`: the canonical order,
and "clear" for an id above 9. -/
def weatherOfId (id : Nat) : String := canonicalOrder.getD id "clear"

/-- Hour of the moon rise in the words of the specification,
`dailyIncrement + ((day - 1 + 16) * dailyIncrement) mod 24`, with the day
arithmetic in the integers and `mod` read as `std::fmod`. -/
def MoonModel.riseSpec (moon : MoonModel) (day : Int) : ℚ :=
  moon.mDailyIncrement + fmod (((day - 1 + 16 : Int) : ℚ) * moon.mDailyIncrement) 24

/-- Angle of the moon in the words of the specification: the three cases on
the rise hours of the day and of the day before, with a value that reaches 180
replaced by 0. -/
def MoonModel.angleSpec (moon : MoonModel) (day : Int) (hour : ℚ) : ℚ :=
  let value : ℚ :=
    if hour ≥ moon.riseSpec day then
      moon.rotation (hour - moon.riseSpec day)
    else if moon.riseSpec (day - 1) < 24 ∧ moon.rotation (24 - moon.riseSpec (day - 1)) < 180 then
      moon.rotation hour + moon.rotation (24 - moon.riseSpec (day - 1))
    else 0
  if value ≥ 180 then 0 else value

/-- Interpolation of the four colours of two phases by one factor. -/
def PhaseColours.lerp (a b : PhaseColours) (factor : ℚ) : PhaseColours :=
  { fog := lerp4 a.fog b.fog factor
    ambient := lerp4 a.ambient b.ambient factor
    sun := lerp4 a.sun b.sun factor
    sky := lerp4 a.sky b.sky factor }

/-- The thunder sub-state: flash timer, accumulated chance, chance threshold
needed and sound-repeat delay. -/
def WeatherManager.thunderState (m : WeatherManager) : ℚ × ℚ × ℚ × ℚ :=
  (m.mThunderFlash, m.mThunderChance, m.mThunderChanceNeeded, m.mThunderSoundDelay)

/-- One operation on the manager: a weather request, the advance of the
simulated time, or an update tick. -/
inductive Op where
  | setWeather (name : String) (instant : Bool)
  | advanceTime (hours : ℚ)
  | update (world : World) (duration : ℚ) (paused : Bool)

/-- The operation applied to a manager; `none` when it throws. -/
def WeatherManager.applyOp (m : WeatherManager) : Op → Option WeatherManager
  | Op.setWeather name instant => m.setWeather name instant
  | Op.advanceTime hours => some (m.advanceTime hours)
  | Op.update world duration paused => m.update world duration paused

/-- A sequence of operations; `none` as soon as one of them throws. -/
def WeatherManager.runOps (m : WeatherManager) : List Op → Option WeatherManager
  | [] => some m
  | op :: rest =>
    match m.applyOp op with
    | some m1 => m1.runOps rest
    | none => none

/-- The operation adds no negative amount of simulated time. -/
def Op.addsNoNegativeTime : Op → Bool
  | Op.advanceTime hours => decide (0 ≤ hours)
  | _ => true

/-- The invariant of the transition engine: when a transition is pending,
the current weather is registered and the remaining transition time lies
between 0 and its `transitionSeconds`. -/
def WeatherManager.remainingInRange (m : WeatherManager) : Prop :=
  m.mNextWeather ≠ "" →
    match m.findWeather m.mCurrentWeather with
    | some w =>
      0 ≤ m.mRemainingTransitionTime ∧ m.mRemainingTransitionTime ≤ w.transitionSeconds
    | none => False

instance (m : WeatherManager) : Decidable m.remainingInRange := by
  unfold WeatherManager.remainingInRange
  cases m.findWeather m.mCurrentWeather <;> infer_instance

/-! ## Concrete inputs -/

/-- Configuration in which every number is `1`, every colour is black and
every string and flag is empty. -/
def unitFallback : Fallback :=
  { getFallbackString := fun _ => ""
    getFallbackFloat := fun _ => 1
    getFallbackColour := fun _ => ⟨0, 0, 0, 0⟩
    getFallbackBool := fun _ => false }

/-- Result record filled with zeros and empty strings. -/
def zeroResult : WeatherResult :=
  { mCloudTexture := ""
    mNextCloudTexture := ""
    mCloudBlendFactor := 0
    mFogColor := ⟨0, 0, 0, 0⟩
    mAmbientColor := ⟨0, 0, 0, 0⟩
    mSkyColor := ⟨0, 0, 0, 0⟩
    mSunColor := ⟨0, 0, 0, 0⟩
    mSunDiscColor := ⟨0, 0, 0, 0⟩
    mFogDepth := 0
    mWindSpeed := 0
    mCloudSpeed := 0
    mGlareView := 0
    mNightFade := 0
    mNight := false
    mIsStorm := false
    mAmbientLoopSoundID := ""
    mAmbientSoundVolume := 0
    mEffectFade := 0
    mParticleEffect := ""
    mRainEffect := ""
    mRainSpeed := 0
    mRainFrequency := 0 }

/-- The manager as constructed from `unitFallback`. -/
def freshManager : WeatherManager := WeatherManager.new unitFallback 0 zeroResult

/-- Region `"West Gash"` whose ten chances are `chances` (missing entries are 0). -/
def regionOf (chances : List Int) : Region :=
  { mId := "West Gash"
    mClear := chances.getD 0 0
    mCloudy := chances.getD 1 0
    mFoggy := chances.getD 2 0
    mOvercast := chances.getD 3 0
    mRain := chances.getD 4 0
    mThunder := chances.getD 5 0
    mAsh := chances.getD 6 0
    mBlight := chances.getD 7 0
    mA := chances.getD 8 0
    mB := chances.getD 9 0 }

/-- The constructed manager once its first-update flag is cleared: stable
"clear" weather. -/
def stableClear : WeatherManager := { freshManager with mFirstUpdate := false }

/-- A manager on its way from "clear" to "rain" with `remaining` seconds left. -/
def clearToRain (remaining : ℚ) : WeatherManager :=
  { stableClear with mNextWeather := "rain", mRemainingTransitionTime := remaining }

/-- An exterior cell of the region with the empty name; the store knows no
region, every roll is 0 and no sound can be played. -/
def exteriorWorld : World :=
  { isCellExterior := true
    isCellQuasiExterior := false
    playerInCell := true
    playerRegion := ""
    playerPos := ⟨0, 0, 0⟩
    searchRegion := fun _ => none
    normalize := fun v => v
    rollWeather := 0
    rollSound := 0
    rollThunder := 0
    playSoundOk := false }

/-- An unpaused exterior frame of one second of real time that consumes the
given hours of simulated time. -/
def exteriorTick (hours : ℚ) : Tick :=
  { hours := hours, world := exteriorWorld, duration := 1, paused := false }

/-- A save-file layer whose record body is the saved state itself. -/
def plainFormat : EsmFormat WeatherState :=
  { REC_WTHR := 0x52485457, save := fun state => state, load := fun body => some body }

/-- A manager in the middle of a thunderstorm session: an override table
installed by `modRegion`, a forced weather for the region, and thunder timers
away from their initial values. -/
def stormyManager : WeatherManager :=
  { freshManager.modRegion "West Gash" [50, 50] with
    mRegionOverrides := [("west gash", "thunderstorm")]
    mThunderFlash := 2
    mThunderChance := 7
    mThunderChanceNeeded := 80
    mThunderSoundDelay := 1000 }

/-- Configuration of a moon with the speed -1 and every other number 0. -/
def backwardMoonFallback : Fallback :=
  { unitFallback with
    getFallbackFloat := fun key => if key = "Moons_Masser_Speed" then -1 else 0 }

/-- A moon of speed 1 whose other parameters are 0. -/
def forwardMoon : MoonModel := { MoonModel.new "Masser" backwardMoonFallback with mSpeed := 1 }

/-- Configuration with sunrise at 6 lasting 5 hours, sunset at 18 lasting 2
hours, a white day fog of the "Clear" weather and black for every other
colour; every other number is 1. -/
def longSunriseFallback : Fallback :=
  { unitFallback with
    getFallbackFloat := fun key =>
      if key = "Weather_Sunrise_Time" then 6
      else if key = "Weather_Sunrise_Duration" then 5
      else if key = "Weather_Sunset_Time" then 18
      else if key = "Weather_Sunset_Duration" then 2
      else 1
    getFallbackColour := fun key =>
      if key = "Weather_Clear_Fog_Day_Color" then ⟨1, 1, 1, 1⟩ else ⟨0, 0, 0, 0⟩ }

/-- The manager constructed from `longSunriseFallback`, at hour 11. -/
def longSunriseManager : WeatherManager :=
  (WeatherManager.new longSunriseFallback 0 zeroResult).setHour 11

/-- The stable "clear" manager with a forced "blight" for the region
"west gash" and an expired weather-update countdown. -/
def forcedBlightManager : WeatherManager :=
  { stableClear with
    mRegionOverrides := [("west gash", "blight")]
    mWeatherUpdateTime := 0 }

/-- An exterior cell of the region "West Gash", which the store knows with
the chance 100 for "rain"; the weather roll is 42. -/
def westGashWorld : World :=
  { exteriorWorld with
    playerRegion := "West Gash"
    searchRegion := fun _ => some (regionOf [0, 0, 0, 0, 100])
    rollWeather := 42 }

/-- A moon of speed 1 and daily increment 1 whose other parameters are 0. -/
def dailyMoon : MoonModel := { forwardMoon with mDailyIncrement := 1 }

/-- A moon with the fade end angle 10 and the fade start angle 40. -/
def fadingMoon : MoonModel := { forwardMoon with mFadeEndAngle := 10, mFadeStartAngle := 40 }

/-- The constructed manager at hour 23 with sunrise at 6 and night start at 6:
the day arc is empty. -/
def noDayManager : WeatherManager :=
  { freshManager with mHour := 23, mSunriseTime := 6, mNightStart := 6 }

/-- A stable thunderstorm at the start of a flash session: the accumulated
chance has reached the threshold 80, the flash timer has just been set to the
configured threshold 1 and the sound-repeat delay to 0.25. -/
def flashingManager : WeatherManager :=
  { stableClear with
    mCurrentWeather := "thunderstorm"
    mThunderFlash := 1
    mThunderChance := 80
    mThunderChanceNeeded := 80
    mThunderSoundDelay := 1 / 4 }

/-- An exterior cell as `exteriorWorld`, with the thunder roll 7. -/
def thunderWorld : World := { exteriorWorld with rollThunder := 7 }

/-- Configuration with sunrise at 6 and sunset at 18, both lasting 2 hours, a
red sunrise fog and a blue day fog of the "Clear" weather and black for every
other colour; every other number is 1. -/
def dawnFallback : Fallback :=
  { unitFallback with
    getFallbackFloat := fun key =>
      if key = "Weather_Sunrise_Time" then 6
      else if key = "Weather_Sunrise_Duration" then 2
      else if key = "Weather_Sunset_Time" then 18
      else if key = "Weather_Sunset_Duration" then 2
      else 1
    getFallbackColour := fun key =>
      if key = "Weather_Clear_Fog_Sunrise_Color" then ⟨1, 0, 0, 1⟩
      else if key = "Weather_Clear_Fog_Day_Color" then ⟨0, 0, 1, 1⟩
      else ⟨0, 0, 0, 0⟩ }

/-- The manager constructed from `dawnFallback`, at hour 7. -/
def dawnManager : WeatherManager :=
  (WeatherManager.new dawnFallback 0 zeroResult).setHour 7

/-! ## The regional draw -/

theorem cumulative_cons (p : Int) (rest : List Int) (k : Nat) :
    cumulative (p :: rest) (k + 1) = p + cumulative rest k := by
  simp [cumulative]

theorem cumulative_zero (table : List Int) : cumulative table 0 = 0 := by
  simp [cumulative]

/-- The loop of `nextWeather` leaves with `i` advanced by the number `k` of
entries whose running sum does not exceed the draw: `k` is the position of the
first entry whose running sum exceeds it, or the length of the table. -/
theorem nextWeatherLoop_spec (chance : Int) :
    ∀ (table : List Int) (sum : Int) (i : Nat),
      ∃ k, nextWeatherLoop chance table sum i = i + k ∧ k ≤ table.length ∧
        (∀ j, j < k → ¬ chance < sum + cumulative table (j + 1)) ∧
        (k < table.length → chance < sum + cumulative table (k + 1)) := by
  intro table
  induction table with
  | nil =>
    intro sum i
    exact ⟨0, by simp [nextWeatherLoop], le_refl _, by intro j hj; omega, by simp⟩
  | cons p rest ih =>
    intro sum i
    by_cases h : chance < sum + p
    · refine ⟨0, by simp [nextWeatherLoop, h], Nat.zero_le _, by intro j hj; omega, ?_⟩
      intro _
      rw [cumulative_cons, cumulative_zero]
      simpa using h
    · obtain ⟨k, hk, hlen, hbefore, hat⟩ := ih (sum + p) (i + 1)
      refine ⟨k + 1, ?_, by simpa using hlen, ?_, ?_⟩
      · simp only [nextWeatherLoop, h, if_false, hk]
        omega
      · intro j hj
        cases j with
        | zero =>
          rw [cumulative_cons, cumulative_zero]
          simpa using h
        | succ j =>
          rw [cumulative_cons, ← add_assoc]
          exact hbefore j (by omega)
      · intro hlt
        rw [cumulative_cons, ← add_assoc]
        exact hat (by simpa using hlt)

theorem weatherOfIndex_canonical (i : Nat) (h : i < 10) :
    some (weatherOfIndex i) = canonicalOrder[i]? := by
  interval_cases i <;> rfl

theorem weatherOfIndex_of_ge (i : Nat) (h : 10 ≤ i) : weatherOfIndex i = "clear" := by
  obtain ⟨n, rfl⟩ := Nat.exists_eq_add_of_le h
  rw [Nat.add_comm]
  rfl

/-- The index at which the loop of `nextWeather` is left, for a whole table. -/
theorem nextWeatherLoop_index (chance : Int) (table : List Int) :
    nextWeatherLoop chance table 0 0 ≤ table.length ∧
      (∀ j, j < nextWeatherLoop chance table 0 0 → ¬ chance < cumulative table (j + 1)) ∧
      (nextWeatherLoop chance table 0 0 < table.length →
        chance < cumulative table (nextWeatherLoop chance table 0 0 + 1)) := by
  obtain ⟨k, hk, hlen, hbefore, hat⟩ := nextWeatherLoop_spec chance table 0 0
  have hk0 : nextWeatherLoop chance table 0 0 = k := by simpa using hk
  rw [hk0]
  refine ⟨hlen, ?_, ?_⟩
  · intro j hj
    simpa using hbefore j hj
  · intro hlt
    simpa using hat hlt

/-- C1 (as amended): for every weight table with at least ten entries and every
draw `d = roll + 1` in 1..100, `nextWeather` returns the first weather of the
canonical order whose cumulative weight sum strictly exceeds `d`, and "clear"
when none of the ten cumulative sums exceeds `d`; the result depends only on
`d` and the table, which is the override installed for the lower-cased region
id when there is one and the ten chances of the region otherwise. -/
theorem nextWeather_first_exceeding (m : WeatherManager) (region : Region) (roll : Nat)
    (hroll : roll < 100) (hlen : 10 ≤ (m.probabilityTable region).length) :
    (∀ i, i < 10 →
        (roll : Int) + 1 < cumulative (m.probabilityTable region) (i + 1) →
        (∀ j, j < i → ¬ (roll : Int) + 1 < cumulative (m.probabilityTable region) (j + 1)) →
        some (m.nextWeather region roll) = canonicalOrder[i]?) ∧
      ((∀ i, i < 10 → ¬ (roll : Int) + 1 < cumulative (m.probabilityTable region) (i + 1)) →
        m.nextWeather region roll = "clear") ∧
      (∀ (m2 : WeatherManager) (region2 : Region),
        m2.probabilityTable region2 = m.probabilityTable region →
        m2.nextWeather region2 roll = m.nextWeather region roll) ∧
      (∀ chances, m.mRegionMods.find (lowerCase region.mId) = some chances →
        m.probabilityTable region = chances) ∧
      (m.mRegionMods.find (lowerCase region.mId) = none →
        m.probabilityTable region =
          [region.mClear, region.mCloudy, region.mFoggy, region.mOvercast, region.mRain,
           region.mThunder, region.mAsh, region.mBlight, region.mA, region.mB]) := by
  have _hd : (1 : Int) ≤ (roll : Int) + 1 ∧ (roll : Int) + 1 ≤ 100 := by omega
  obtain ⟨hle, hbefore, hat⟩ :=
    nextWeatherLoop_index ((roll : Int) + 1) (m.probabilityTable region)
  refine ⟨?_, ?_, ?_, ?_, ?_⟩
  · intro i hi hex hmin
    have hidx : nextWeatherLoop ((roll : Int) + 1) (m.probabilityTable region) 0 0 = i := by
      rcases Nat.lt_trichotomy
        (nextWeatherLoop ((roll : Int) + 1) (m.probabilityTable region) 0 0) i with hlt | heq | hgt
      · exact absurd (hat (by omega)) (hmin _ hlt)
      · exact heq
      · exact absurd hex (hbefore i hgt)
    simp only [WeatherManager.nextWeather, hidx]
    exact weatherOfIndex_canonical i hi
  · intro hnone
    have hge : 10 ≤ nextWeatherLoop ((roll : Int) + 1) (m.probabilityTable region) 0 0 := by
      by_contra hlt
      exact hnone _ (by omega) (hat (by omega))
    simp only [WeatherManager.nextWeather]
    exact weatherOfIndex_of_ge _ hge
  · intro m2 region2 htable
    simp only [WeatherManager.nextWeather, htable]
  · intro chances hfind
    simp only [WeatherManager.probabilityTable, hfind]
  · intro hfind
    simp only [WeatherManager.probabilityTable, hfind, Region.probability]

/-- C1, witness: the region chances 30, 70, 0, ... and the draw 30 (roll 29):
the first cumulative sum above 30 is that of "cloudy". -/
theorem nextWeather_first_exceeding_witness :
    freshManager.nextWeather (regionOf [30, 70, 0, 0, 0, 0, 0, 0, 0, 0]) 29 = "cloudy" := by
  have h := (nextWeather_first_exceeding freshManager
    (regionOf [30, 70, 0, 0, 0, 0, 0, 0, 0, 0]) 29 (by decide) (by decide)).1 1 (by decide)
    (by decide) (by decide)
  simpa [canonicalOrder] using h

/-- C1, counterexample: with the two-entry override 50, 50 installed by
`modRegion` and the draw 100 (roll 99), no cumulative sum exceeds the draw, and
`nextWeather` returns "foggy", not "clear". -/
theorem nextWeather_short_table_counterexample :
    (freshManager.modRegion "West Gash" [50, 50]).probabilityTable (regionOf []) = [50, 50] ∧
      (∀ i : Fin 10, ¬ ((99 : Nat) : Int) + 1 < cumulative [50, 50] (i.val + 1)) ∧
      (freshManager.modRegion "West Gash" [50, 50]).nextWeather (regionOf []) 99 = "foggy" ∧
      (freshManager.modRegion "West Gash" [50, 50]).nextWeather (regionOf []) 99 ≠ "clear" := by
  refine ⟨by decide, ?_, by decide, by decide⟩
  intro i
  fin_cases i <;> decide

/-- C2: with the chances 0, 100, 0, ..., 0 and the draw 100 (the roll 99 of
`rollDice(100)`) the comparison `chance < sum` never holds, the loop runs to
the end and `nextWeather` returns "clear"; every smaller draw returns
"cloudy". -/
theorem nextWeather_certain_cloudy_draw_100 :
    freshManager.nextWeather (regionOf [0, 100, 0, 0, 0, 0, 0, 0, 0, 0]) 99 = "clear" ∧
      (∀ roll : Fin 99,
        freshManager.nextWeather (regionOf [0, 100, 0, 0, 0, 0, 0, 0, 0, 0]) roll.val
          = "cloudy") ∧
      (∀ roll : Fin 100,
        freshManager.nextWeather (regionOf [100, 0, 0, 0, 0, 0, 0, 0, 0, 0]) roll.val
          = "clear") := by
  refine ⟨by decide, ?_, ?_⟩
  · rintro ⟨roll, hroll⟩
    have htable : freshManager.probabilityTable (regionOf [0, 100, 0, 0, 0, 0, 0, 0, 0, 0])
        = [0, 100, 0, 0, 0, 0, 0, 0, 0, 0] := by decide
    have hloop : nextWeatherLoop ((roll : Int) + 1) [0, 100, 0, 0, 0, 0, 0, 0, 0, 0] 0 0 = 1 := by
      simp only [nextWeatherLoop]
      rw [if_neg (by omega), if_pos (by omega)]
    show weatherOfIndex (nextWeatherLoop ((roll : Int) + 1)
      (freshManager.probabilityTable (regionOf [0, 100, 0, 0, 0, 0, 0, 0, 0, 0])) 0 0) = "cloudy"
    rw [htable, hloop]
    rfl
  · rintro ⟨roll, hroll⟩
    have htable : freshManager.probabilityTable (regionOf [100, 0, 0, 0, 0, 0, 0, 0, 0, 0])
        = [100, 0, 0, 0, 0, 0, 0, 0, 0, 0] := by decide
    show weatherOfIndex (nextWeatherLoop ((roll : Int) + 1)
      (freshManager.probabilityTable (regionOf [100, 0, 0, 0, 0, 0, 0, 0, 0, 0])) 0 0) = "clear"
    rw [htable]
    by_cases h0 : roll < 99
    · have hloop :
          nextWeatherLoop ((roll : Int) + 1) [100, 0, 0, 0, 0, 0, 0, 0, 0, 0] 0 0 = 0 := by
        simp only [nextWeatherLoop]
        rw [if_pos (by omega)]
      rw [hloop]
      rfl
    · have hr : roll = 99 := by omega
      subst hr
      decide

/-! ## The transition engine -/

/-- The profile registered by the constructor under a lower-case name has the
transition time 30.06 s when the configured transition delta is 1. -/
theorem freshManager_transitionSeconds (name : String) (w : Weather)
    (h : freshManager.findWeather name = some w) : w.transitionSeconds = 1503 / 50 := by
  have hdelta : w.mTransitionDelta = 1 := by
    simp only [freshManager, WeatherManager.new, WeatherManager.addWeather,
      WeatherManager.findWeather, StrMap.insert, StrMap.find] at h
    repeat' split at h
    all_goals first
      | (injection h with h; subst h; rfl)
      | exact absurd h (by simp)
  rw [Weather.transitionSeconds, hdelta]
  norm_num

/-- C3 (as amended): from a state that is stable in "clear" with the
first-update flag clear, `setWeather("rain", false)` starts the transition from
"clear" to "rain" with the remaining time `transitionSeconds` of the "clear"
profile; nothing else changes. -/
theorem setWeather_rain_from_stable_clear (m : WeatherManager) (clear : Weather)
    (hcur : m.mCurrentWeather = "clear") (hnext : m.mNextWeather = "")
    (hfirst : m.mFirstUpdate = false) (hclear : m.findWeather "clear" = some clear) :
    m.setWeather "rain" false =
      some { m with
        mNextWeather := "rain"
        mRemainingTransitionTime := clear.transitionSeconds
        mFirstUpdate := false } := by
  have hfind : m.mWeatherSettings.find "clear" = some clear := hclear
  simp [WeatherManager.setWeather, WeatherManager.findWeather, hcur, hnext, hfirst, hfind]

/-- C3, witness: the constructed manager with the first-update flag cleared. -/
theorem setWeather_rain_from_stable_clear_witness :
    (stableClear.setWeather "rain" false).map
        (fun m => (m.mCurrentWeather, m.mNextWeather, m.mFirstUpdate))
      = some ("clear", "rain", false) := by
  rw [setWeather_rain_from_stable_clear stableClear
    (Weather.new "Clear" unitFallback 0 1 "" "") (by decide) (by decide) (by decide) (by rfl)]
  decide

/-- C3, counterexample: the manager as constructed is stable in "clear", but
its first-update flag is set, and `setWeather("rain", false)` jumps to "rain"
without a transition. -/
theorem setWeather_rain_first_update_counterexample :
    freshManager.mCurrentWeather = "clear" ∧ freshManager.mNextWeather = "" ∧
      (freshManager.setWeather "rain" false).map
          (fun m => (m.mCurrentWeather, m.mNextWeather))
        = some ("rain", "") := by
  decide

/-- C5: a non-instant `setWeather(C)` during a transition from A to B with the
first-update flag clear. When `remaining / transitionSeconds(A) <= 0.5` the
manager goes from B to C with `remaining = transitionSeconds(B)`; when the ratio
is above 0.5 it goes from A to C with `remaining = transitionSeconds(A)`. -/
theorem setWeather_fifty_percent_rule (m : WeatherManager) (weather : String) (a : Weather)
    (hnext : m.mNextWeather ≠ "") (hfirst : m.mFirstUpdate = false)
    (ha : m.findWeather m.mCurrentWeather = some a) :
    (∀ b : Weather, m.findWeather m.mNextWeather = some b →
        m.mRemainingTransitionTime / a.transitionSeconds ≤ 1 / 2 →
        m.setWeather weather false =
          some { m with
            mCurrentWeather := m.mNextWeather
            mNextWeather := weather
            mRemainingTransitionTime := b.transitionSeconds
            mFirstUpdate := false }) ∧
      (1 / 2 < m.mRemainingTransitionTime / a.transitionSeconds →
        m.setWeather weather false =
          some { m with
            mNextWeather := weather
            mRemainingTransitionTime := a.transitionSeconds
            mFirstUpdate := false }) := by
  constructor
  · intro b hb hratio
    have hfa : m.mWeatherSettings.find m.mCurrentWeather = some a := ha
    have hfb : m.mWeatherSettings.find m.mNextWeather = some b := hb
    simp only [WeatherManager.setWeather, WeatherManager.findWeather, hnext, hfirst, hfa, hfb,
      hratio, and_false, if_false, if_true, Bool.or_false, Bool.false_eq_true, ne_eq,
      not_false_eq_true, Option.pure_def, Option.bind_eq_bind, Option.some_bind]
  · intro hratio
    have hfa : m.mWeatherSettings.find m.mCurrentWeather = some a := ha
    have hnot : ¬ m.mRemainingTransitionTime / a.transitionSeconds ≤ 1 / 2 := not_le.mpr hratio
    simp only [WeatherManager.setWeather, WeatherManager.findWeather, hnext, hfirst, hfa,
      hnot, and_false, if_false, if_true, Bool.or_false, Bool.false_eq_true, ne_eq,
      not_false_eq_true, Option.pure_def, Option.bind_eq_bind, Option.some_bind]

/-- C5, witness: 10 s before the end of the 30.06 s transition from "clear" to
"rain" a request of "snow" promotes "rain"; 20 s before the end it does not. -/
theorem setWeather_fifty_percent_rule_witness :
    (((clearToRain 10).setWeather "snow" false).map
        (fun m => (m.mCurrentWeather, m.mNextWeather)) = some ("rain", "snow")) ∧
      (((clearToRain 20).setWeather "snow" false).map
        (fun m => (m.mCurrentWeather, m.mNextWeather)) = some ("clear", "snow")) := by
  have hclear : ∀ r, (clearToRain r).findWeather (clearToRain r).mCurrentWeather
      = some (Weather.new "Clear" unitFallback 0 1 "" "") := fun _ => rfl
  have hrain : ∀ r, (clearToRain r).findWeather (clearToRain r).mNextWeather
      = some (Weather.new "Rain" unitFallback 0 1 "rain" "") := fun _ => rfl
  have hsec : (Weather.new "Clear" unitFallback 0 1 "" "").transitionSeconds = 1503 / 50 :=
    freshManager_transitionSeconds "clear" _ rfl
  constructor
  · rw [(setWeather_fifty_percent_rule (clearToRain 10) "snow" _ (by decide) (by decide)
      (hclear 10)).1 _ (hrain 10) (by rw [hsec]; norm_num [clearToRain])]
    rfl
  · rw [(setWeather_fifty_percent_rule (clearToRain 20) "snow" _ (by decide) (by decide)
      (hclear 20)).2 (by rw [hsec]; norm_num [clearToRain])]
    rfl

/-- C6: with no pending next weather, `setWeather` of the current weather, for
either value of the instant flag, changes nothing but the first-update flag,
which becomes false. -/
theorem setWeather_current_is_noop (m : WeatherManager) (instant : Bool)
    (hnext : m.mNextWeather = "") :
    m.setWeather m.mCurrentWeather instant = some { m with mFirstUpdate := false } := by
  simp [WeatherManager.setWeather, hnext]

/-- C6, witness: the constructed manager, asked for "clear". -/
theorem setWeather_current_is_noop_witness :
    freshManager.setWeather "clear" true = some { freshManager with mFirstUpdate := false } :=
  setWeather_current_is_noop freshManager true (by decide)

/-- C7: when the no-op case does not apply, `setWeather(name, instant)` with
`instant` true or with the first-update flag set jumps to the stable state of
`name`: current is `name`, next is empty, the first-update flag is false, and
every other field, the remaining transition time included, keeps its value. -/
theorem setWeather_jumps_when_instant_or_first (m : WeatherManager) (name : String)
    (instant : Bool) (hnoop : ¬ (name = m.mCurrentWeather ∧ m.mNextWeather = ""))
    (hjump : instant = true ∨ m.mFirstUpdate = true) :
    m.setWeather name instant =
      some { m with mNextWeather := "", mCurrentWeather := name, mFirstUpdate := false } := by
  have hor : (instant || m.mFirstUpdate) = true := by
    rcases hjump with h | h <;> simp [h]
  simp only [WeatherManager.setWeather, if_neg hnoop, hor, if_true]

/-- C7, witness: an instant request of "snow" 10 s before the end of a
transition from "clear" to "rain". -/
theorem setWeather_jumps_when_instant_or_first_witness :
    ((clearToRain 10).setWeather "snow" true).map
        (fun m => (m.mCurrentWeather, m.mNextWeather, m.mFirstUpdate,
          m.mRemainingTransitionTime))
      = some ("snow", "", false, 10) := by
  rw [setWeather_jumps_when_instant_or_first (clearToRain 10) "snow" true (by decide)
    (Or.inl rfl)]
  rfl

/-! ## The update tick -/

theorem setResult_of_find (m : WeatherManager) (weatherType : String) (w : Weather)
    (h : m.findWeather weatherType = some w) :
    ∃ r, m.setResult weatherType = some { m with mResult := r } := by
  simp only [WeatherManager.setResult, h, Option.pure_def, Option.bind_eq_bind,
    Option.some_bind]
  exact ⟨_, rfl⟩

theorem transition_of_find (m : WeatherManager) (factor : ℚ) (a b : Weather)
    (ha : m.findWeather m.mCurrentWeather = some a)
    (hb : m.findWeather m.mNextWeather = some b) :
    ∃ r, m.transition factor = some { m with mResult := r } := by
  obtain ⟨r1, h1⟩ := setResult_of_find m m.mCurrentWeather a ha
  have hb1 : ({ m with mResult := r1 } : WeatherManager).findWeather m.mNextWeather = some b := hb
  obtain ⟨r2, h2⟩ := setResult_of_find { m with mResult := r1 } m.mNextWeather b hb1
  have hb2 : ({ m with mResult := r2 } : WeatherManager).findWeather m.mNextWeather = some b := hb
  simp only [WeatherManager.transition, h1, h2, hb2, Option.pure_def, Option.bind_eq_bind,
    Option.some_bind]
  exact ⟨_, rfl⟩

/-- The result step of `update` succeeds when the current weather, and the next
weather if one is pending, are registered; it changes `mResult` only. -/
theorem updateResult_of_find (m : WeatherManager) (a : Weather)
    (ha : m.findWeather m.mCurrentWeather = some a)
    (hb : m.mNextWeather ≠ "" → ∃ b, m.findWeather m.mNextWeather = some b) :
    ∃ r, m.updateResult = some { m with mResult := r } := by
  unfold WeatherManager.updateResult
  by_cases hnext : m.mNextWeather = ""
  · rw [if_neg (not_not.mpr hnext)]
    exact setResult_of_find m m.mCurrentWeather a ha
  · obtain ⟨b, hb⟩ := hb hnext
    rw [if_pos hnext]
    simp only [ha, Option.bind_eq_bind, Option.some_bind]
    exact transition_of_find m _ a b ha hb

/-- The storm step of `update` leaves the transition engine, the region
bookkeeping and the thunder timers alone. -/
theorem updateStorm_frame (m : WeatherManager) (world : World) :
    (m.updateStorm world).mCurrentWeather = m.mCurrentWeather ∧
      (m.updateStorm world).mNextWeather = m.mNextWeather ∧
      (m.updateStorm world).mRemainingTransitionTime = m.mRemainingTransitionTime ∧
      (m.updateStorm world).mFirstUpdate = m.mFirstUpdate ∧
      (m.updateStorm world).mWeatherSettings = m.mWeatherSettings ∧
      (m.updateStorm world).mCurrentRegion = m.mCurrentRegion ∧
      (m.updateStorm world).mWeatherUpdateTime = m.mWeatherUpdateTime ∧
      (m.updateStorm world).mTimePassed = m.mTimePassed := by
  by_cases h : m.mResult.mIsStorm = true <;> simp [WeatherManager.updateStorm, h]

/-- The thunder step of `update` leaves the transition engine and the region
bookkeeping alone. -/
theorem updateThunder_frame (m : WeatherManager) (world : World) (duration : ℚ)
    (paused : Bool) :
    (m.updateThunder world duration paused).mCurrentWeather = m.mCurrentWeather ∧
      (m.updateThunder world duration paused).mNextWeather = m.mNextWeather ∧
      (m.updateThunder world duration paused).mRemainingTransitionTime
        = m.mRemainingTransitionTime ∧
      (m.updateThunder world duration paused).mFirstUpdate = m.mFirstUpdate ∧
      (m.updateThunder world duration paused).mWeatherSettings = m.mWeatherSettings ∧
      (m.updateThunder world duration paused).mCurrentRegion = m.mCurrentRegion ∧
      (m.updateThunder world duration paused).mWeatherUpdateTime = m.mWeatherUpdateTime ∧
      (m.updateThunder world duration paused).mTimePassed = m.mTimePassed := by
  simp only [WeatherManager.updateThunder]
  split_ifs <;> simp

/-- The sound step of `update` leaves the transition engine and the region
bookkeeping alone. -/
theorem updateSound_frame (m : WeatherManager) (world : World) :
    (m.updateSound world).mCurrentWeather = m.mCurrentWeather ∧
      (m.updateSound world).mNextWeather = m.mNextWeather ∧
      (m.updateSound world).mRemainingTransitionTime = m.mRemainingTransitionTime ∧
      (m.updateSound world).mFirstUpdate = m.mFirstUpdate ∧
      (m.updateSound world).mWeatherSettings = m.mWeatherSettings ∧
      (m.updateSound world).mCurrentRegion = m.mCurrentRegion ∧
      (m.updateSound world).mWeatherUpdateTime = m.mWeatherUpdateTime ∧
      (m.updateSound world).mTimePassed = m.mTimePassed := by
  simp only [WeatherManager.updateSound, WeatherManager.stopSounds]
  split_ifs <;> simp

/-- The transition step of `update`, case by case. -/
theorem updateTransition_cases (m : WeatherManager) (timePassed : ℚ) :
    (m.updateTransition timePassed).mFirstUpdate = m.mFirstUpdate ∧
      (m.updateTransition timePassed).mWeatherSettings = m.mWeatherSettings ∧
      (m.updateTransition timePassed).mCurrentRegion = m.mCurrentRegion ∧
      (m.updateTransition timePassed).mWeatherUpdateTime = m.mWeatherUpdateTime ∧
      (m.updateTransition timePassed).mTimePassed = m.mTimePassed ∧
      (m.mNextWeather = "" →
        (m.updateTransition timePassed).mCurrentWeather = m.mCurrentWeather ∧
        (m.updateTransition timePassed).mNextWeather = "" ∧
        (m.updateTransition timePassed).mRemainingTransitionTime
          = m.mRemainingTransitionTime) ∧
      (m.mNextWeather ≠ "" → m.mRemainingTransitionTime - timePassed < 0 →
        (m.updateTransition timePassed).mCurrentWeather = m.mNextWeather ∧
        (m.updateTransition timePassed).mNextWeather = "" ∧
        (m.updateTransition timePassed).mRemainingTransitionTime
          = m.mRemainingTransitionTime - timePassed) ∧
      (m.mNextWeather ≠ "" → ¬ m.mRemainingTransitionTime - timePassed < 0 →
        (m.updateTransition timePassed).mCurrentWeather = m.mCurrentWeather ∧
        (m.updateTransition timePassed).mNextWeather = m.mNextWeather ∧
        (m.updateTransition timePassed).mRemainingTransitionTime
          = m.mRemainingTransitionTime - timePassed) := by
  unfold WeatherManager.updateTransition
  by_cases hnext : m.mNextWeather = ""
  · simp [hnext]
  · by_cases hneg : m.mRemainingTransitionTime - timePassed < 0
    · simp [hnext, hneg]
    · simp [hnext, hneg]

/-- The transition step reads the current weather, the next weather and the
remaining time only. -/
theorem updateTransition_congr (m m0 : WeatherManager) (timePassed : ℚ)
    (hcur : m0.mCurrentWeather = m.mCurrentWeather) (hnext : m0.mNextWeather = m.mNextWeather)
    (hrem : m0.mRemainingTransitionTime = m.mRemainingTransitionTime) :
    (m0.updateTransition timePassed).mCurrentWeather
        = (m.updateTransition timePassed).mCurrentWeather ∧
      (m0.updateTransition timePassed).mNextWeather
        = (m.updateTransition timePassed).mNextWeather ∧
      (m0.updateTransition timePassed).mRemainingTransitionTime
        = (m.updateTransition timePassed).mRemainingTransitionTime := by
  simp only [WeatherManager.updateTransition, hcur, hnext, hrem]
  split_ifs <;> simp [hcur, hnext, hrem]

/-- On an exterior tick on which `switchToNextWeather` requests no weather
(the player is in the stored region and the countdown stays positive),
`update` returns when the weathers involved are registered; it consumes the
time-passed, leaves the profiles and the region alone, and applies the
transition step to the engine. -/
theorem update_without_request (m : WeatherManager) (world : World) (duration : ℚ)
    (paused : Bool)
    (hext : (world.isCellExterior || world.isCellQuasiExterior) = true)
    (hregion : lowerCase world.playerRegion = m.mCurrentRegion)
    (hcount : 0 < m.mWeatherUpdateTime - m.mTimePassed)
    (hreg : ∀ name, name = m.mCurrentWeather ∨ (name = m.mNextWeather ∧ name ≠ "") →
      ∃ w, m.findWeather name = some w) :
    ∃ m2, m.update world duration paused = some m2 ∧
      m2.mFirstUpdate = m.mFirstUpdate ∧
      m2.mWeatherSettings = m.mWeatherSettings ∧
      m2.mCurrentRegion = m.mCurrentRegion ∧
      m2.mWeatherUpdateTime = m.mWeatherUpdateTime - m.mTimePassed ∧
      m2.mTimePassed = 0 ∧
      m2.mCurrentWeather = (m.updateTransition m.mTimePassed).mCurrentWeather ∧
      m2.mNextWeather = (m.updateTransition m.mTimePassed).mNextWeather ∧
      m2.mRemainingTransitionTime
        = (m.updateTransition m.mTimePassed).mRemainingTransitionTime := by
  obtain ⟨m0, hm0⟩ : ∃ m0 : WeatherManager, m0 =
      { m with mTimePassed := 0, mWeatherUpdateTime := m.mWeatherUpdateTime - m.mTimePassed } :=
    ⟨_, rfl⟩
  have e1 : m0.mCurrentRegion = m.mCurrentRegion := by rw [hm0]
  have e2 : m0.mWeatherUpdateTime = m.mWeatherUpdateTime - m.mTimePassed := by rw [hm0]
  have e3 : m0.mTimePassed = 0 := by rw [hm0]
  have e4 : m0.mCurrentWeather = m.mCurrentWeather := by rw [hm0]
  have e5 : m0.mNextWeather = m.mNextWeather := by rw [hm0]
  have e6 : m0.mRemainingTransitionTime = m.mRemainingTransitionTime := by rw [hm0]
  have e7 : m0.mWeatherSettings = m.mWeatherSettings := by rw [hm0]
  have e8 : m0.mFirstUpdate = m.mFirstUpdate := by rw [hm0]
  have hsw : m0.switchToNextWeather world false = some m0 := by
    unfold WeatherManager.switchToNextWeather
    rw [if_pos hext]
    simp only []
    rw [if_neg]
    rw [e1, e2]
    push_neg
    exact ⟨hcount, hregion⟩
  obtain ⟨t1, t2, t3, t4, t5, t6, t7, t8⟩ := updateTransition_cases m0 m.mTimePassed
  obtain ⟨c1, c2, c3⟩ := updateTransition_congr m m0 m.mTimePassed e4 e5 e6
  -- the weathers of the engine after the transition step are registered
  have hfind : ∀ name, (m0.updateTransition m.mTimePassed).findWeather name
      = m.findWeather name := by
    intro name
    simp only [WeatherManager.findWeather, t2, e7]
  have hcur : ∃ a, (m0.updateTransition m.mTimePassed).findWeather
      (m0.updateTransition m.mTimePassed).mCurrentWeather = some a := by
    rw [hfind]
    by_cases hnext : m0.mNextWeather = ""
    · rw [(t6 hnext).1, e4]
      exact hreg _ (Or.inl rfl)
    · by_cases hneg : m0.mRemainingTransitionTime - m.mTimePassed < 0
      · rw [(t7 hnext hneg).1, e5]
        exact hreg _ (Or.inr ⟨rfl, by rw [← e5]; exact hnext⟩)
      · rw [(t8 hnext hneg).1, e4]
        exact hreg _ (Or.inl rfl)
  have hnxt : (m0.updateTransition m.mTimePassed).mNextWeather ≠ "" →
      ∃ b, (m0.updateTransition m.mTimePassed).findWeather
        (m0.updateTransition m.mTimePassed).mNextWeather = some b := by
    intro hne
    rw [hfind]
    by_cases hnext : m0.mNextWeather = ""
    · exact absurd (t6 hnext).2.1 hne
    · by_cases hneg : m0.mRemainingTransitionTime - m.mTimePassed < 0
      · exact absurd (t7 hnext hneg).2.1 hne
      · rw [(t8 hnext hneg).2.1, e5]
        exact hreg _ (Or.inr ⟨rfl, by rw [← e5]; exact hnext⟩)
  obtain ⟨a, ha⟩ := hcur
  obtain ⟨r, hr⟩ := updateResult_of_find (m0.updateTransition m.mTimePassed) a ha hnxt
  obtain ⟨m3, hm3⟩ : ∃ m3 : WeatherManager,
      m3 = { m0.updateTransition m.mTimePassed with mResult := r } := ⟨_, rfl⟩
  rw [← hm3] at hr
  have hupd : m.update world duration paused =
      some (((m3.updateStorm world).updateThunder world duration paused).updateSound world) := by
    unfold WeatherManager.update
    simp only [hext, Bool.not_true, Bool.false_eq_true, if_false, ← hm0, hsw, hr,
      Option.pure_def, Option.bind_eq_bind, Option.some_bind]
  obtain ⟨s1, s2, s3, s4, s5, s6, s7, s8⟩ := updateStorm_frame m3 world
  obtain ⟨u1, u2, u3, u4, u5, u6, u7, u8⟩ :=
    updateThunder_frame (m3.updateStorm world) world duration paused
  obtain ⟨v1, v2, v3, v4, v5, v6, v7, v8⟩ :=
    updateSound_frame ((m3.updateStorm world).updateThunder world duration paused) world
  have k1 : m3.mCurrentWeather = (m0.updateTransition m.mTimePassed).mCurrentWeather := by
    rw [hm3]
  have k2 : m3.mNextWeather = (m0.updateTransition m.mTimePassed).mNextWeather := by rw [hm3]
  have k3 : m3.mRemainingTransitionTime
      = (m0.updateTransition m.mTimePassed).mRemainingTransitionTime := by rw [hm3]
  have k4 : m3.mFirstUpdate = (m0.updateTransition m.mTimePassed).mFirstUpdate := by rw [hm3]
  have k5 : m3.mWeatherSettings = (m0.updateTransition m.mTimePassed).mWeatherSettings := by
    rw [hm3]
  have k6 : m3.mCurrentRegion = (m0.updateTransition m.mTimePassed).mCurrentRegion := by
    rw [hm3]
  have k7 : m3.mWeatherUpdateTime = (m0.updateTransition m.mTimePassed).mWeatherUpdateTime := by
    rw [hm3]
  have k8 : m3.mTimePassed = (m0.updateTransition m.mTimePassed).mTimePassed := by rw [hm3]
  refine ⟨_, hupd, ?_, ?_, ?_, ?_, ?_, ?_, ?_, ?_⟩
  · rw [v4, u4, s4, k4, t1, e8]
  · rw [v5, u5, s5, k5, t2, e7]
  · rw [v6, u6, s6, k6, t3, e1]
  · rw [v7, u7, s7, k7, t4, e2]
  · rw [v8, u8, s8, k8, t5, e3]
  · rw [v1, u1, s1, k1, c1]
  · rw [v2, u2, s2, k2, c2]
  · rw [v3, u3, s3, k3, c3]

/-- One frame without a weather request: `advanceTime` and `update` return,
consume `pending + hours * 3600` seconds and apply the transition step. -/
theorem tick_without_request (m : WeatherManager) (t : Tick)
    (hext : (t.world.isCellExterior || t.world.isCellQuasiExterior) = true)
    (hregion : lowerCase t.world.playerRegion = m.mCurrentRegion)
    (hcount : 0 < m.mWeatherUpdateTime - (m.mTimePassed + t.hours * 3600))
    (hreg : ∀ name, name = m.mCurrentWeather ∨ (name = m.mNextWeather ∧ name ≠ "") →
      ∃ w, m.findWeather name = some w) :
    ∃ m2, m.tick t = some m2 ∧
      m2.mWeatherSettings = m.mWeatherSettings ∧
      m2.mCurrentRegion = m.mCurrentRegion ∧
      m2.mWeatherUpdateTime = m.mWeatherUpdateTime - (m.mTimePassed + t.hours * 3600) ∧
      m2.mTimePassed = 0 ∧
      (m.mNextWeather = "" →
        m2.mCurrentWeather = m.mCurrentWeather ∧ m2.mNextWeather = "" ∧
        m2.mRemainingTransitionTime = m.mRemainingTransitionTime) ∧
      (m.mNextWeather ≠ "" →
        m.mRemainingTransitionTime - (m.mTimePassed + t.hours * 3600) < 0 →
        m2.mCurrentWeather = m.mNextWeather ∧ m2.mNextWeather = "" ∧
        m2.mRemainingTransitionTime
          = m.mRemainingTransitionTime - (m.mTimePassed + t.hours * 3600)) ∧
      (m.mNextWeather ≠ "" →
        ¬ m.mRemainingTransitionTime - (m.mTimePassed + t.hours * 3600) < 0 →
        m2.mCurrentWeather = m.mCurrentWeather ∧ m2.mNextWeather = m.mNextWeather ∧
        m2.mRemainingTransitionTime
          = m.mRemainingTransitionTime - (m.mTimePassed + t.hours * 3600)) := by
  obtain ⟨m2, hm2, _, f2, f3, f4, f5, f6, f7, f8⟩ :=
    update_without_request (m.advanceTime t.hours) t.world t.duration t.paused hext hregion
      hcount hreg
  obtain ⟨_, _, _, _, _, t6, t7, t8⟩ :=
    updateTransition_cases (m.advanceTime t.hours) (m.mTimePassed + t.hours * 3600)
  refine ⟨m2, hm2, f2, f3, f4, f5, ?_, ?_, ?_⟩
  · intro hnext
    rw [f6, f7, f8]
    exact t6 hnext
  · intro hnext hneg
    rw [f6, f7, f8]
    exact t7 hnext hneg
  · intro hnext hneg
    rw [f6, f7, f8]
    exact t8 hnext hneg

theorem noWeatherRequest_cons (countdown : ℚ) (region : String) (pending : ℚ) (t : Tick)
    (rest : List Tick) (h : noWeatherRequest countdown region pending (t :: rest) = true) :
    (t.world.isCellExterior || t.world.isCellQuasiExterior) = true ∧
      lowerCase t.world.playerRegion = region ∧
      0 < countdown - (pending + t.hours * 3600) ∧
      noWeatherRequest (countdown - (pending + t.hours * 3600)) region 0 rest = true := by
  simp only [noWeatherRequest, Bool.and_eq_true, decide_eq_true_eq] at h
  exact ⟨h.1.1.1, h.1.1.2, h.1.2, h.2⟩

/-- A stable manager stays stable over frames without a weather request. -/
theorem run_stays_stable (ticks : List Tick) :
    ∀ (m : WeatherManager) (w : Weather), m.mNextWeather = "" →
      m.findWeather m.mCurrentWeather = some w →
      noWeatherRequest m.mWeatherUpdateTime m.mCurrentRegion m.mTimePassed ticks = true →
      ∃ m2, m.run ticks = some m2 ∧ m2.mCurrentWeather = m.mCurrentWeather ∧
        m2.mNextWeather = "" := by
  induction ticks with
  | nil =>
    intro m w hnext _ _
    exact ⟨m, rfl, rfl, hnext⟩
  | cons t rest ih =>
    intro m w hnext hw hquiet
    obtain ⟨hext, hregion, hcount, hrest⟩ := noWeatherRequest_cons _ _ _ _ _ hquiet
    have hreg : ∀ name, name = m.mCurrentWeather ∨ (name = m.mNextWeather ∧ name ≠ "") →
        ∃ w, m.findWeather name = some w := by
      rintro name (rfl | ⟨h1, h2⟩)
      · exact ⟨w, hw⟩
      · exact absurd (h1.trans hnext) h2
    obtain ⟨m1, hm1, g1, g2, g3, g4, g5, _, _⟩ := tick_without_request m t hext hregion hcount hreg
    obtain ⟨k1, k2, _⟩ := g5 hnext
    have hw1 : m1.findWeather m1.mCurrentWeather = some w := by
      simp only [WeatherManager.findWeather, g1, k1]
      exact hw
    obtain ⟨m2, hm2, r1, r2⟩ := ih m1 w k2 hw1 (by rw [g3, g2, g4]; exact hrest)
    refine ⟨m2, ?_, r1.trans k1, r2⟩
    simp only [WeatherManager.run, hm1]
    exact hm2

/-- A pending transition completes over frames without a weather request as
soon as they consume more than the remaining time. -/
theorem run_completes_transition (ticks : List Tick) :
    ∀ (m : WeatherManager) (a b : Weather), m.mNextWeather ≠ "" →
      m.findWeather m.mCurrentWeather = some a →
      m.findWeather m.mNextWeather = some b →
      (0 ≤ m.mRemainingTransitionTime ∨ ticks ≠ []) →
      noWeatherRequest m.mWeatherUpdateTime m.mCurrentRegion m.mTimePassed ticks = true →
      m.mRemainingTransitionTime < consumed m.mTimePassed ticks →
      ∃ m2, m.run ticks = some m2 ∧ m2.mCurrentWeather = m.mNextWeather ∧
        m2.mNextWeather = "" := by
  induction ticks with
  | nil =>
    intro m a b _ _ _ hstart _ htotal
    rcases hstart with h | h
    · simp only [consumed] at htotal
      exact absurd htotal (not_lt.mpr h)
    · exact absurd rfl h
  | cons t rest ih =>
    intro m a b hnext ha hb _ hquiet htotal
    obtain ⟨hext, hregion, hcount, hrest⟩ := noWeatherRequest_cons _ _ _ _ _ hquiet
    have hreg : ∀ name, name = m.mCurrentWeather ∨ (name = m.mNextWeather ∧ name ≠ "") →
        ∃ w, m.findWeather name = some w := by
      rintro name (rfl | ⟨rfl, _⟩)
      · exact ⟨a, ha⟩
      · exact ⟨b, hb⟩
    obtain ⟨m1, hm1, g1, g2, g3, g4, _, g6, g7⟩ :=
      tick_without_request m t hext hregion hcount hreg
    have hrest1 : noWeatherRequest m1.mWeatherUpdateTime m1.mCurrentRegion m1.mTimePassed rest
        = true := by
      rw [g3, g2, g4]
      exact hrest
    have hrun : m.run (t :: rest) = m1.run rest := by
      simp only [WeatherManager.run, hm1]
    rw [hrun]
    by_cases hneg : m.mRemainingTransitionTime - (m.mTimePassed + t.hours * 3600) < 0
    · obtain ⟨k1, k2, _⟩ := g6 hnext hneg
      have hb1 : m1.findWeather m1.mCurrentWeather = some b := by
        simp only [WeatherManager.findWeather, g1, k1]
        exact hb
      obtain ⟨m2, hm2, r1, r2⟩ := run_stays_stable rest m1 b k2 hb1 hrest1
      exact ⟨m2, hm2, r1.trans k1, r2⟩
    · obtain ⟨k1, k2, k3⟩ := g7 hnext hneg
      have ha1 : m1.findWeather m1.mCurrentWeather = some a := by
        simp only [WeatherManager.findWeather, g1, k1]
        exact ha
      have hb1 : m1.findWeather m1.mNextWeather = some b := by
        simp only [WeatherManager.findWeather, g1, k2]
        exact hb
      have htotal1 : m1.mRemainingTransitionTime < consumed m1.mTimePassed rest := by
        rw [k3, g4]
        simp only [consumed] at htotal
        linarith
      obtain ⟨m2, hm2, r1, r2⟩ :=
        ih m1 a b (by rw [k2]; exact hnext) ha1 hb1
          (Or.inl (by rw [k3]; exact not_lt.mp hneg)) hrest1 htotal1
      exact ⟨m2, hm2, r1.trans k2, r2⟩

/-- C4 (as amended): from a transition from "clear" to "rain" with the remaining
time `R = transitionSeconds("clear")`, exterior update ticks without a weather
request whose consumed time-passed totals strictly more than `R` seconds end
in the stable state of "rain": current is "rain" and next is empty. -/
theorem update_completes_clear_to_rain (m : WeatherManager) (ticks : List Tick)
    (clear rain : Weather)
    (hcur : m.mCurrentWeather = "clear") (hnext : m.mNextWeather = "rain")
    (hclear : m.findWeather "clear" = some clear) (hrain : m.findWeather "rain" = some rain)
    (hrem : m.mRemainingTransitionTime = clear.transitionSeconds)
    (hticks : ticks ≠ [])
    (hquiet : noWeatherRequest m.mWeatherUpdateTime m.mCurrentRegion m.mTimePassed ticks = true)
    (htotal : clear.transitionSeconds < consumed m.mTimePassed ticks) :
    ∃ m2, m.run ticks = some m2 ∧ m2.mCurrentWeather = "rain" ∧ m2.mNextWeather = "" := by
  have hne : m.mNextWeather ≠ "" := by rw [hnext]; decide
  obtain ⟨m2, hm2, r1, r2⟩ :=
    run_completes_transition ticks m clear rain hne (by rw [hcur]; exact hclear)
      (by rw [hnext]; exact hrain) (Or.inr hticks) hquiet (by rw [hrem]; exact htotal)
  exact ⟨m2, hm2, r1.trans hnext, r2⟩

theorem clearToRain_facts (r : ℚ) :
    (clearToRain r).mCurrentWeather = "clear" ∧ (clearToRain r).mNextWeather = "rain" ∧
      (clearToRain r).mRemainingTransitionTime = r ∧
      (clearToRain r).mWeatherUpdateTime = 1 * 3600 ∧
      (clearToRain r).mCurrentRegion = "" ∧ (clearToRain r).mTimePassed = 0 ∧
      (clearToRain r).findWeather "clear" = some (Weather.new "Clear" unitFallback 0 1 "" "") ∧
      (clearToRain r).findWeather "rain" = some (Weather.new "Rain" unitFallback 0 1 "rain" "") :=
  ⟨rfl, rfl, rfl, rfl, rfl, rfl, rfl, rfl⟩

theorem exteriorTick_quiet (r hours : ℚ) (h : hours * 3600 < 3600) :
    noWeatherRequest (clearToRain r).mWeatherUpdateTime (clearToRain r).mCurrentRegion
      (clearToRain r).mTimePassed [exteriorTick hours] = true := by
  obtain ⟨_, _, _, e4, e5, e6, _, _⟩ := clearToRain_facts r
  rw [e4, e5, e6]
  have hl : lowerCase "" = "" := by decide
  simp only [noWeatherRequest, exteriorTick, exteriorWorld, Bool.or_false, Bool.true_and,
    Bool.and_true, hl, decide_True, decide_eq_true_eq]
  linarith

/-- C4, witness: one exterior frame that consumes 36 s, which is more than the
30.06 s of the transition from "clear" to "rain". -/
theorem update_completes_clear_to_rain_witness :
    ∃ m2, (clearToRain (1503 / 50)).run [exteriorTick (1 / 100)] = some m2 ∧
      m2.mCurrentWeather = "rain" ∧ m2.mNextWeather = "" := by
  obtain ⟨e1, e2, e3, _, _, e6, e7, e8⟩ := clearToRain_facts (1503 / 50)
  have hsec : (Weather.new "Clear" unitFallback 0 1 "" "").transitionSeconds = 1503 / 50 :=
    freshManager_transitionSeconds "clear" _ rfl
  exact update_completes_clear_to_rain (clearToRain (1503 / 50)) [exteriorTick (1 / 100)]
    _ _ e1 e2 e7 e8 (by rw [e3, hsec]) (by simp)
    (exteriorTick_quiet _ _ (by norm_num))
    (by rw [hsec, e6]; norm_num [consumed, exteriorTick])

/-- C4, counterexample: one exterior frame without a weather request that
consumes exactly the 30.06 s of the transition from "clear" to "rain" leaves
the remaining time at 0, which is not below 0: the transition is still
pending, current is "clear" and next is "rain". -/
theorem update_exactly_remaining_counterexample :
    (clearToRain (1503 / 50)).mCurrentWeather = "clear" ∧
      (clearToRain (1503 / 50)).mNextWeather = "rain" ∧
      (∃ clear, (clearToRain (1503 / 50)).findWeather "clear" = some clear ∧
        (clearToRain (1503 / 50)).mRemainingTransitionTime = clear.transitionSeconds) ∧
      noWeatherRequest (clearToRain (1503 / 50)).mWeatherUpdateTime
        (clearToRain (1503 / 50)).mCurrentRegion (clearToRain (1503 / 50)).mTimePassed
        [exteriorTick (167 / 20000)] = true ∧
      consumed (clearToRain (1503 / 50)).mTimePassed [exteriorTick (167 / 20000)]
        = (clearToRain (1503 / 50)).mRemainingTransitionTime ∧
      ∃ m2, (clearToRain (1503 / 50)).run [exteriorTick (167 / 20000)] = some m2 ∧
        m2.mCurrentWeather = "clear" ∧ m2.mNextWeather = "rain" ∧
        m2.mRemainingTransitionTime = 0 := by
  obtain ⟨e1, e2, e3, e4, e5, e6, e7, e8⟩ := clearToRain_facts (1503 / 50)
  have hsec : (Weather.new "Clear" unitFallback 0 1 "" "").transitionSeconds = 1503 / 50 :=
    freshManager_transitionSeconds "clear" _ rfl
  have hquiet := exteriorTick_quiet (1503 / 50) (167 / 20000) (by norm_num)
  refine ⟨e1, e2, ⟨_, e7, by rw [e3, hsec]⟩, hquiet, ?_, ?_⟩
  · rw [e3, e6]
    norm_num [consumed, exteriorTick]
  · obtain ⟨hext, hregion, hcount, _⟩ := noWeatherRequest_cons _ _ _ _ _ hquiet
    have hreg : ∀ name, name = (clearToRain (1503 / 50)).mCurrentWeather ∨
        (name = (clearToRain (1503 / 50)).mNextWeather ∧ name ≠ "") →
        ∃ w, (clearToRain (1503 / 50)).findWeather name = some w := by
      rintro name (rfl | ⟨rfl, _⟩)
      · exact ⟨_, e7⟩
      · exact ⟨_, e8⟩
    obtain ⟨m1, hm1, _, _, _, _, _, _, g7⟩ :=
      tick_without_request (clearToRain (1503 / 50)) (exteriorTick (167 / 20000)) hext hregion
        hcount hreg
    have hzero : (clearToRain (1503 / 50)).mRemainingTransitionTime -
        ((clearToRain (1503 / 50)).mTimePassed + (exteriorTick (167 / 20000)).hours * 3600)
        = 0 := by
      rw [e3, e6]
      norm_num [exteriorTick]
    obtain ⟨k1, k2, k3⟩ := g7 (by rw [e2]; decide) (by rw [hzero]; exact lt_irrefl 0)
    refine ⟨m1, ?_, k1.trans e1, k2.trans e2, k3.trans hzero⟩
    simp only [WeatherManager.run, hm1]

/-! ## Save, restore and reset -/

/-- C8: the snapshot written by `write` is a record of type `REC_WTHR`, and
`readRecord` on it returns true and leaves hour, wind speed, current weather,
next weather, current region, first-update flag, remaining transition time and
accumulated time-passed equal to their values in the manager that wrote the
snapshot, whatever the state of the manager that reads it; the save-file layer
is assumed to read back the record body it wrote. -/
theorem write_readRecord_round_trip {α : Type} (esm : EsmFormat α)
    (hesm : ∀ state, esm.load (esm.save state) = some state)
    (saved restoring : WeatherManager) :
    (saved.write esm).1 = esm.REC_WTHR ∧
      ∃ restored, restoring.readRecord esm (saved.write esm).2 (saved.write esm).1
          = some (restored, true) ∧
        restored.mHour = saved.mHour ∧
        restored.mWindSpeed = saved.mWindSpeed ∧
        restored.mCurrentWeather = saved.mCurrentWeather ∧
        restored.mNextWeather = saved.mNextWeather ∧
        restored.mCurrentRegion = saved.mCurrentRegion ∧
        restored.mFirstUpdate = saved.mFirstUpdate ∧
        restored.mRemainingTransitionTime = saved.mRemainingTransitionTime ∧
        restored.mTimePassed = saved.mTimePassed := by
  refine ⟨rfl, ?_⟩
  simp only [WeatherManager.readRecord, WeatherManager.write, if_true, hesm,
    Option.pure_def, Option.bind_eq_bind, Option.some_bind]
  exact ⟨_, rfl, rfl, rfl, rfl, rfl, rfl, rfl, rfl, rfl⟩

/-- C8, witness: a snapshot of the transition from "clear" to "rain", read
back by the constructed manager. -/
theorem write_readRecord_round_trip_witness :
    ∃ restored,
      freshManager.readRecord plainFormat ((clearToRain 10).write plainFormat).2
          ((clearToRain 10).write plainFormat).1 = some (restored, true) ∧
        restored.mCurrentWeather = "clear" ∧ restored.mNextWeather = "rain" ∧
        restored.mFirstUpdate = false ∧ restored.mRemainingTransitionTime = 10 := by
  obtain ⟨restored, h, _, _, h3, h4, _, h6, h7, _⟩ :=
    (write_readRecord_round_trip plainFormat (fun _ => rfl) (clearToRain 10) freshManager).2
  exact ⟨restored, h, h3, h4, h6, h7⟩

/-- C9 (as amended): `readRecord` changes the persisted fields only: the
thunder timers and the per-region weather and probability overrides keep the
values they had before the restore. They have their initial values (flash
timer 0, accumulated chance 0, chance threshold needed 50, no overrides) when
`clear` is called before the restore, whatever they were before. -/
theorem readRecord_keeps_unsaved_state {α : Type} (esm : EsmFormat α) (m : WeatherManager)
    (reader : α) (state : WeatherState) (hload : esm.load reader = some state) :
    (∃ restored, m.readRecord esm reader esm.REC_WTHR = some (restored, true) ∧
        restored.mThunderFlash = m.mThunderFlash ∧
        restored.mThunderChance = m.mThunderChance ∧
        restored.mThunderChanceNeeded = m.mThunderChanceNeeded ∧
        restored.mThunderSoundDelay = m.mThunderSoundDelay ∧
        restored.mRegionOverrides = m.mRegionOverrides ∧
        restored.mRegionMods = m.mRegionMods) ∧
      (∃ restored, m.clear.readRecord esm reader esm.REC_WTHR = some (restored, true) ∧
        restored.mThunderFlash = 0 ∧
        restored.mThunderChance = 0 ∧
        restored.mThunderChanceNeeded = 50 ∧
        restored.mRegionOverrides = [] ∧
        restored.mRegionMods = []) := by
  constructor
  · simp only [WeatherManager.readRecord, if_true, hload, Option.pure_def,
      Option.bind_eq_bind, Option.some_bind]
    exact ⟨_, rfl, rfl, rfl, rfl, rfl, rfl, rfl⟩
  · simp only [WeatherManager.readRecord, if_true, hload, Option.pure_def,
      Option.bind_eq_bind, Option.some_bind]
    exact ⟨_, rfl, rfl, rfl, rfl, rfl, rfl⟩

/-- C9, witness: the snapshot of the constructed manager read back by the
manager in the middle of a thunderstorm session, with `clear` first. -/
theorem readRecord_keeps_unsaved_state_witness :
    ∃ restored,
      stormyManager.clear.readRecord plainFormat (freshManager.write plainFormat).2
          plainFormat.REC_WTHR = some (restored, true) ∧
        restored.mThunderChanceNeeded = 50 ∧ restored.mRegionMods = [] := by
  obtain ⟨restored, h, _, _, h3, _, h5⟩ :=
    (readRecord_keeps_unsaved_state plainFormat stormyManager
      (freshManager.write plainFormat).2 _ rfl).2
  exact ⟨restored, h, h3, h5⟩

/-- C9, counterexample: the manager in the middle of a thunderstorm session
reads the snapshot of the constructed manager; `readRecord` returns true, and
the thunder timers and both override maps are what they were before the
restore, not the initial values. -/
theorem readRecord_no_reset_counterexample :
    ∃ restored,
      stormyManager.readRecord plainFormat (freshManager.write plainFormat).2
          (freshManager.write plainFormat).1 = some (restored, true) ∧
        restored.mThunderFlash = 2 ∧ restored.mThunderChance = 7 ∧
        restored.mThunderChanceNeeded = 80 ∧
        restored.mThunderChanceNeeded ≠ 50 ∧
        restored.mRegionOverrides = [("west gash", "thunderstorm")] ∧
        restored.mRegionMods = [("west gash", [50, 50])] := by
  refine ⟨_, rfl, rfl, rfl, rfl, ?_, rfl, ?_⟩
  · show (80 : ℚ) ≠ 50
    norm_num
  · decide

/-- C10 (as amended): `clear` empties the per-region weather overrides and the
per-region probability overrides and sets flash timer, accumulated chance and
chance threshold needed to the values 0, 0 and 50 that the constructor gives
them; the sound-repeat delay, 0.25 after construction, is left as it is. -/
theorem clear_resets_overrides_and_thunder (m : WeatherManager) (fallback : Fallback)
    (fStromWindSpeed : ℚ) (result0 : WeatherResult) :
    m.clear.mRegionOverrides = [] ∧ m.clear.mRegionMods = [] ∧
      m.clear.mThunderFlash = 0 ∧ m.clear.mThunderChance = 0 ∧
      m.clear.mThunderChanceNeeded = 50 ∧
      m.clear.mThunderSoundDelay = m.mThunderSoundDelay ∧
      (WeatherManager.new fallback fStromWindSpeed result0).mThunderFlash = 0 ∧
      (WeatherManager.new fallback fStromWindSpeed result0).mThunderChance = 0 ∧
      (WeatherManager.new fallback fStromWindSpeed result0).mThunderChanceNeeded = 50 ∧
      (WeatherManager.new fallback fStromWindSpeed result0).mThunderSoundDelay = 1 / 4 := by
  refine ⟨rfl, rfl, rfl, rfl, rfl, ?_, rfl, rfl, rfl, rfl⟩
  simp only [WeatherManager.clear, WeatherManager.stopSounds]
  split_ifs <;> rfl

/-- C10, counterexample: in the middle of a thunderstorm session the
sound-repeat delay is 1000; after `clear` it is still 1000, not the 0.25 of
the constructed manager. -/
theorem clear_keeps_sound_delay_counterexample :
    stormyManager.mThunderSoundDelay = 1000 ∧
      stormyManager.clear.mThunderSoundDelay = 1000 ∧
      freshManager.mThunderSoundDelay = 1 / 4 ∧
      stormyManager.clear.mThunderSoundDelay ≠ freshManager.mThunderSoundDelay := by
  have h1 : stormyManager.clear.mThunderSoundDelay = 1000 := rfl
  have h2 : freshManager.mThunderSoundDelay = 1 / 4 := rfl
  refine ⟨rfl, h1, h2, ?_⟩
  rw [h1, h2]
  norm_num

/-! ## Script commands and queries -/

theorem StrMap.find_set_self {α : Type} (m : StrMap α) (key : String) (v : α) :
    StrMap.find (StrMap.set m key v) key = some v := by
  induction m with
  | nil => simp [StrMap.set, StrMap.find]
  | cons p rest ih =>
    obtain ⟨k, x⟩ := p
    by_cases h : k = key
    · simp [StrMap.set, StrMap.find, h]
    · simp [StrMap.set, StrMap.find, h, ih]

theorem StrMap.find_set_other {α : Type} (m : StrMap α) (key other : String) (v : α)
    (h : other ≠ key) : StrMap.find (StrMap.set m key v) other = StrMap.find m other := by
  induction m with
  | nil => simp [StrMap.set, StrMap.find, Ne.symm h]
  | cons p rest ih =>
    obtain ⟨k, x⟩ := p
    by_cases hk : k = key
    · subst hk
      simp [StrMap.set, StrMap.find, Ne.symm h]
    · by_cases hko : k = other
      · subst hko
        simp [StrMap.set, StrMap.find, hk]
      · simp [StrMap.set, StrMap.find, hk, hko, ih]

/-- The chain of comparisons of `changeWeather` is the canonical order, with
"clear" for every id above 9. -/
theorem changeWeather_name (id : Nat) :
    (if id = 0 then "clear"
      else if id = 1 then "cloudy"
      else if id = 2 then "foggy"
      else if id = 3 then "overcast"
      else if id = 4 then "rain"
      else if id = 5 then "thunderstorm"
      else if id = 6 then "ashstorm"
      else if id = 7 then "blight"
      else if id = 8 then "snow"
      else if id = 9 then "blizzard"
      else "clear") = weatherOfId id := by
  by_cases h : id < 10
  · interval_cases id <;> rfl
  · obtain ⟨n, rfl⟩ := Nat.exists_eq_add_of_le (not_lt.mp h)
    have hget : weatherOfId (10 + n) = "clear" :=
      List.getD_eq_default _ _ (by simp [canonicalOrder])
    rw [hget]
    simp only [show ¬ (10 + n = 0) by omega, show ¬ (10 + n = 1) by omega,
      show ¬ (10 + n = 2) by omega, show ¬ (10 + n = 3) by omega,
      show ¬ (10 + n = 4) by omega, show ¬ (10 + n = 5) by omega,
      show ¬ (10 + n = 6) by omega, show ¬ (10 + n = 7) by omega,
      show ¬ (10 + n = 8) by omega, show ¬ (10 + n = 9) by omega, if_false]

/-- Either `setWeather` throws, or what it returns differs from its input in
the current weather, the next weather, the remaining transition time and the
first-update flag only, and the flag is false afterwards. -/
theorem setWeather_cases (m : WeatherManager) (weather : String) (instant : Bool) :
    m.setWeather weather instant = none ∨
      ∃ cur next remaining, m.setWeather weather instant =
        some { m with
          mCurrentWeather := cur
          mNextWeather := next
          mRemainingTransitionTime := remaining
          mFirstUpdate := false } := by
  simp only [WeatherManager.setWeather, WeatherManager.findWeather]
  split_ifs
  · exact Or.inr ⟨_, _, _, rfl⟩
  · exact Or.inr ⟨_, _, _, rfl⟩
  · cases h : StrMap.find m.mWeatherSettings m.mCurrentWeather with
    | none => simp [h]
    | some a =>
      simp only [h, Option.pure_def, Option.bind_eq_bind, Option.some_bind]
      split_ifs
      · cases hb : StrMap.find m.mWeatherSettings m.mNextWeather with
        | none => simp [hb]
        | some b =>
          simp only [hb, Option.some_bind]
          exact Or.inr ⟨_, _, _, rfl⟩
      · exact Or.inr ⟨_, _, _, rfl⟩
  · cases h : StrMap.find m.mWeatherSettings m.mCurrentWeather with
    | none => simp [h]
    | some a =>
      simp only [h, Option.pure_def, Option.bind_eq_bind, Option.some_bind]
      exact Or.inr ⟨_, _, _, rfl⟩

/-- The outcome of `setWeather` does not depend on the stored overrides. -/
theorem setWeather_with_overrides (m : WeatherManager) (overrides : StrMap String)
    (weather : String) (instant : Bool) :
    ({ m with mRegionOverrides := overrides } : WeatherManager).setWeather weather instant =
      (m.setWeather weather instant).map
        (fun m2 => { m2 with mRegionOverrides := overrides }) := by
  simp only [WeatherManager.setWeather, WeatherManager.findWeather]
  split_ifs
  · rfl
  · rfl
  · cases h : StrMap.find m.mWeatherSettings m.mCurrentWeather with
    | none => simp [h]
    | some a =>
      simp only [h, Option.pure_def, Option.bind_eq_bind, Option.some_bind]
      split_ifs
      · cases hb : StrMap.find m.mWeatherSettings m.mNextWeather <;> simp [hb]
      · simp [h]
  · cases h : StrMap.find m.mWeatherSettings m.mCurrentWeather <;> simp [h]

/-- When the current weather, and the next weather if one is pending, are
registered, `setWeather` returns. -/
theorem setWeather_returns (m : WeatherManager) (weather : String) (instant : Bool)
    (hreg : ∀ name, name = m.mCurrentWeather ∨ (name = m.mNextWeather ∧ name ≠ "") →
      ∃ w, m.findWeather name = some w) :
    ∃ m2, m.setWeather weather instant = some m2 := by
  obtain ⟨a, ha⟩ := hreg m.mCurrentWeather (Or.inl rfl)
  have ha2 : StrMap.find m.mWeatherSettings m.mCurrentWeather = some a := ha
  simp only [WeatherManager.setWeather, WeatherManager.findWeather]
  split_ifs with h1 h2 h3
  · exact ⟨_, rfl⟩
  · exact ⟨_, rfl⟩
  · obtain ⟨b, hb⟩ := hreg m.mNextWeather (Or.inr ⟨rfl, h3⟩)
    have hb2 : StrMap.find m.mWeatherSettings m.mNextWeather = some b := hb
    simp only [ha2, Option.pure_def, Option.bind_eq_bind, Option.some_bind]
    split_ifs
    · simp only [hb2, Option.some_bind]
      exact ⟨_, rfl⟩
    · exact ⟨_, rfl⟩
  · simp only [ha2, Option.pure_def, Option.bind_eq_bind, Option.some_bind]
    exact ⟨_, rfl⟩

/-- For an existing region `changeWeather` stores the override and, when the
player is in a cell of that region, hands the weather to a non-instant
`setWeather`. -/
theorem changeWeather_eq (m : WeatherManager) (world : World) (region : String) (id : Nat)
    (r : Region) (hregion : world.searchRegion region = some r) :
    m.changeWeather world region id =
      if world.playerInCell = true ∧ ciEqual region world.playerRegion = true then
        (m.setWeather (weatherOfId id) false).map (fun m2 =>
          { m2 with mRegionOverrides :=
              StrMap.set m.mRegionOverrides (lowerCase region) (weatherOfId id) })
      else
        some
          { m with mRegionOverrides :=
              StrMap.set m.mRegionOverrides (lowerCase region) (weatherOfId id) } := by
  simp only [WeatherManager.changeWeather, hregion, Option.pure_def, Option.bind_eq_bind,
    Option.some_bind, changeWeather_name]
  by_cases h1 : world.playerInCell = true
  · by_cases h2 : ciEqual region world.playerRegion = true
    · simp only [h1, h2, if_true, and_self]
      exact setWeather_with_overrides m _ _ _
    · simp only [h1, h2, if_true, and_false, if_false]
      rfl
  · simp only [h1, false_and, if_false]
    rfl

/-- C11: for an existing region and any id, what `changeWeather` returns has,
under the lower-cased region name, the override weather of the id in the fixed
order clear, cloudy, foggy, overcast, rain, thunderstorm, ashstorm, blight,
snow, blizzard, with "clear" for an id above 9 and "thunderstorm" for 5; the
overrides of all other names are unchanged. It returns whenever the player is
outside the region, or the current and the pending next weather are
registered. -/
theorem changeWeather_stores_override (m : WeatherManager) (world : World) (region : String)
    (id : Nat) (r : Region) (hregion : world.searchRegion region = some r) :
    (∀ m2, m.changeWeather world region id = some m2 →
        StrMap.find m2.mRegionOverrides (lowerCase region) = some (weatherOfId id) ∧
        ∀ other, other ≠ lowerCase region →
          StrMap.find m2.mRegionOverrides other = StrMap.find m.mRegionOverrides other) ∧
      ((¬ (world.playerInCell = true ∧ ciEqual region world.playerRegion = true) ∨
          ∀ name, name = m.mCurrentWeather ∨ (name = m.mNextWeather ∧ name ≠ "") →
            ∃ w, m.findWeather name = some w) →
        ∃ m2, m.changeWeather world region id = some m2) ∧
      (∀ k, k < 10 → some (weatherOfId k) = canonicalOrder[k]?) ∧
      (∀ k, 9 < k → weatherOfId k = "clear") ∧
      weatherOfId 5 = "thunderstorm" := by
  have hstored : ∀ m2, m.changeWeather world region id = some m2 →
      m2.mRegionOverrides = StrMap.set m.mRegionOverrides (lowerCase region) (weatherOfId id) := by
    intro m2 h
    rw [changeWeather_eq m world region id r hregion] at h
    split_ifs at h
    · simp only [Option.map_eq_some'] at h
      obtain ⟨m1, _, h⟩ := h
      subst h
      rfl
    · injection h with h
      subst h
      rfl
  refine ⟨?_, ?_, ?_, ?_, rfl⟩
  · intro m2 h
    rw [hstored m2 h]
    exact ⟨StrMap.find_set_self _ _ _, fun other ho => StrMap.find_set_other _ _ _ _ ho⟩
  · intro hret
    rw [changeWeather_eq m world region id r hregion]
    by_cases hin : world.playerInCell = true ∧ ciEqual region world.playerRegion = true
    · rcases hret with h | h
      · exact absurd hin h
      · obtain ⟨m1, hm1⟩ := setWeather_returns m (weatherOfId id) false h
        rw [if_pos hin, hm1]
        exact ⟨_, rfl⟩
    · rw [if_neg hin]
      exact ⟨_, rfl⟩
  · intro k hk
    interval_cases k <;> rfl
  · intro k hk
    exact List.getD_eq_default _ _ (by simp only [canonicalOrder, List.length]; omega)

/-- C11, witness: the constructed manager, the player in another region, and
the id 5 for the region "West Gash". -/
theorem changeWeather_stores_override_witness :
    ∃ m2, freshManager.changeWeather
        { exteriorWorld with searchRegion := fun _ => some (regionOf []) } "West Gash" 5
          = some m2 ∧
      StrMap.find m2.mRegionOverrides "west gash" = some "thunderstorm" := by
  obtain ⟨h1, h2, _⟩ := changeWeather_stores_override freshManager
    { exteriorWorld with searchRegion := fun _ => some (regionOf []) } "West Gash" 5
    (regionOf []) rfl
  obtain ⟨m2, hm2⟩ := h2 (Or.inl (by decide))
  exact ⟨m2, hm2, (h1 m2 hm2).1⟩

/-- C12: for an existing region, when the player is in a cell whose region
equals the region argument up to case, `changeWeather` is a non-instant
`setWeather` of the weather of the id, apart from the stored override; from a
stable state with the first-update flag clear and a different current weather
the manager is then in transition toward that weather. When the player is in
another region or in no cell, only the stored override changes. -/
theorem changeWeather_in_player_region (m : WeatherManager) (world : World) (region : String)
    (id : Nat) (r : Region) (hregion : world.searchRegion region = some r) :
    (world.playerInCell = true ∧ ciEqual region world.playerRegion = true →
        m.changeWeather world region id =
          (m.setWeather (weatherOfId id) false).map (fun m2 =>
            { m2 with mRegionOverrides :=
                StrMap.set m.mRegionOverrides (lowerCase region) (weatherOfId id) })) ∧
      (world.playerInCell = true ∧ ciEqual region world.playerRegion = true →
        m.mNextWeather = "" → m.mFirstUpdate = false → m.mCurrentWeather ≠ weatherOfId id →
        ∀ w, m.findWeather m.mCurrentWeather = some w →
          ∃ m2, m.changeWeather world region id = some m2 ∧
            m2.mCurrentWeather = m.mCurrentWeather ∧ m2.mNextWeather = weatherOfId id ∧
            m2.mRemainingTransitionTime = w.transitionSeconds ∧ m2.mFirstUpdate = false) ∧
      (¬ (world.playerInCell = true ∧ ciEqual region world.playerRegion = true) →
        ∃ m2, m.changeWeather world region id = some m2 ∧
          m2.mCurrentWeather = m.mCurrentWeather ∧ m2.mNextWeather = m.mNextWeather ∧
          m2.mRemainingTransitionTime = m.mRemainingTransitionTime ∧
          m2.mFirstUpdate = m.mFirstUpdate) := by
  refine ⟨?_, ?_, ?_⟩
  · intro hin
    rw [changeWeather_eq m world region id r hregion, if_pos hin]
  · intro hin hnext hfirst hdiff w hw
    rw [changeWeather_eq m world region id r hregion, if_pos hin]
    have hw2 : StrMap.find m.mWeatherSettings m.mCurrentWeather = some w := hw
    have hset : m.setWeather (weatherOfId id) false =
        some { m with
          mNextWeather := weatherOfId id
          mRemainingTransitionTime := w.transitionSeconds
          mFirstUpdate := false } := by
      simp only [WeatherManager.setWeather, WeatherManager.findWeather, hnext, hfirst, hw2,
        Ne.symm hdiff, false_and, and_true, if_false, Bool.or_false, Bool.false_eq_true, ne_eq,
        not_true_eq_false, Option.pure_def, Option.bind_eq_bind, Option.some_bind]
    rw [hset]
    exact ⟨_, rfl, rfl, rfl, rfl, rfl⟩
  · intro hout
    rw [changeWeather_eq m world region id r hregion, if_neg hout]
    exact ⟨_, rfl, rfl, rfl, rfl, rfl⟩

/-- C12, witness: the stable "clear" manager, the player in the region
"west gash", and `changeWeather("West Gash", 5)`. -/
theorem changeWeather_in_player_region_witness :
    ∃ m2, stableClear.changeWeather
        { exteriorWorld with
          searchRegion := fun _ => some (regionOf []), playerRegion := "west gash" }
        "West Gash" 5 = some m2 ∧
      m2.mCurrentWeather = "clear" ∧ m2.mNextWeather = "thunderstorm" := by
  obtain ⟨_, h2, _⟩ := changeWeather_in_player_region stableClear
    { exteriorWorld with
      searchRegion := fun _ => some (regionOf []), playerRegion := "west gash" }
    "West Gash" 5 (regionOf []) rfl
  obtain ⟨m2, hm2, hc, hn, _, _⟩ := h2 (by decide) (by decide) (by decide) (by decide)
    (Weather.new "Clear" unitFallback 0 1 "" "") rfl
  exact ⟨m2, hm2, hc, hn⟩

/-- The numeric id of `getWeatherID` is the position of the current weather
in the canonical order, and 0 for a name that is not in it. -/
theorem getWeatherID_position (m : WeatherManager) :
    (∀ i, canonicalOrder[i]? = some m.mCurrentWeather → m.getWeatherID = i) ∧
      (m.mCurrentWeather ∉ canonicalOrder → m.getWeatherID = 0) := by
  constructor
  · intro i h
    have hi : i < 10 := by
      by_contra hc
      rw [List.getElem?_eq_none (by simp only [canonicalOrder, List.length]; omega)] at h
      exact absurd h (by simp)
    interval_cases i <;>
      simp only [canonicalOrder, List.getElem?_cons_zero, List.getElem?_cons_succ,
        Option.some.injEq] at h <;>
      simp only [WeatherManager.getWeatherID, ← h] <;> decide
  · intro h
    simp only [canonicalOrder, List.mem_cons, List.mem_singleton, List.not_mem_nil, or_false,
      not_or] at h
    obtain ⟨h0, h1, h2, h3, h4, h5, h6, h7, h8, h9⟩ := h
    simp only [WeatherManager.getWeatherID, h0, h1, h2, h3, h4, h5, h6, h7, h8, h9, if_false]

/-- C13: `modRegion` stores the sequence as the probability override of the
lower-cased region id; it sets the weather-update countdown to 0 when the
numeric id of the current weather is not a valid index of the sequence or its
weight is 0, and leaves the countdown unchanged otherwise; the numeric id is
the position of the current weather in the canonical order (0 for any other
name); current weather, next weather and remaining transition time are
unchanged. -/
theorem modRegion_stores_and_forces (m : WeatherManager) (regionid : String)
    (chances : List Int) :
    StrMap.find (m.modRegion regionid chances).mRegionMods (lowerCase regionid)
        = some chances ∧
      (m.modRegion regionid chances).mWeatherUpdateTime =
        (if chances.length ≤ m.getWeatherID ∨ chances[m.getWeatherID]? = some 0 then 0
          else m.mWeatherUpdateTime) ∧
      ((∀ i, canonicalOrder[i]? = some m.mCurrentWeather → m.getWeatherID = i) ∧
        (m.mCurrentWeather ∉ canonicalOrder → m.getWeatherID = 0)) ∧
      (m.modRegion regionid chances).mCurrentWeather = m.mCurrentWeather ∧
      (m.modRegion regionid chances).mNextWeather = m.mNextWeather ∧
      (m.modRegion regionid chances).mRemainingTransitionTime = m.mRemainingTransitionTime := by
  have hid : ({ m with mRegionMods := StrMap.set m.mRegionMods (lowerCase regionid) chances }
      : WeatherManager).getWeatherID = m.getWeatherID := rfl
  have hcond : (m.getWeatherID ≥ chances.length ∨ chances.getD m.getWeatherID 0 = 0) ↔
      (chances.length ≤ m.getWeatherID ∨ chances[m.getWeatherID]? = some 0) := by
    by_cases hlen : chances.length ≤ m.getWeatherID
    · simp [hlen]
    · have hlt : m.getWeatherID < chances.length := not_le.mp hlen
      simp [hlen, List.getD, List.getElem?_eq_getElem hlt]
  simp only [WeatherManager.modRegion, hid]
  by_cases h : chances.length ≤ m.getWeatherID ∨ chances[m.getWeatherID]? = some 0
  · rw [if_pos (hcond.mpr h), if_pos h]
    exact ⟨StrMap.find_set_self _ _ _, rfl, getWeatherID_position m, rfl, rfl, rfl⟩
  · rw [if_neg (fun hc => h (hcond.mp hc)), if_neg h]
    exact ⟨StrMap.find_set_self _ _ _, rfl, getWeatherID_position m, rfl, rfl, rfl⟩

/-- C13, witness: in a stable thunderstorm (numeric id 5, countdown 3600 s) a
sequence with the weight 0 for "thunderstorm" and a sequence of two entries
both set the countdown to 0, and a sequence with the weight 100 for
"thunderstorm" leaves it at 3600. -/
theorem modRegion_stores_and_forces_witness :
    flashingManager.getWeatherID = 5 ∧
      (flashingManager.modRegion "West Gash"
        [20, 20, 20, 20, 20, 0, 0, 0, 0, 0]).mWeatherUpdateTime = 0 ∧
      (flashingManager.modRegion "West Gash" [50, 50]).mWeatherUpdateTime = 0 ∧
      (flashingManager.modRegion "West Gash"
        [0, 0, 0, 0, 0, 100, 0, 0, 0, 0]).mWeatherUpdateTime = 3600 := by
  have eW : flashingManager.mWeatherUpdateTime = 1 * 3600 := rfl
  obtain ⟨_, h1, ⟨hpos, _⟩, _⟩ := modRegion_stores_and_forces flashingManager "West Gash"
    [20, 20, 20, 20, 20, 0, 0, 0, 0, 0]
  obtain ⟨_, h2, _⟩ := modRegion_stores_and_forces flashingManager "West Gash" [50, 50]
  obtain ⟨_, h3, _⟩ := modRegion_stores_and_forces flashingManager "West Gash"
    [0, 0, 0, 0, 0, 100, 0, 0, 0, 0]
  have hid : flashingManager.getWeatherID = 5 := hpos 5 rfl
  rw [hid] at h1 h2 h3
  rw [if_pos (by decide)] at h1 h2
  rw [if_neg (by decide), eW] at h3
  refine ⟨hid, h1, h2, ?_⟩
  rw [h3]
  norm_num

/-- C14: at every hour, `isDark` is true exactly when the location is exterior
or quasi-exterior and the hour is before the sunrise time or after the night
start minus 1; so it is false whenever the location is neither. -/
theorem isDark_iff (m : WeatherManager) (world : World) (hour : ℚ) :
    (m.setHour hour).isDark world = true ↔
      ((world.isCellExterior = true ∨ world.isCellQuasiExterior = true) ∧
        (hour < m.mSunriseTime ∨ hour > m.mNightStart - 1)) := by
  simp [WeatherManager.isDark, WeatherManager.setHour]

/-! ## The moon model -/

/-- C15: the constructed moon model has the effective speed `min (s, 180/23)`
for the configured speed `s`: a configured speed above 180/23 yields exactly
180/23, a configured speed at or below 180/23 is kept, and the effective speed
never exceeds 180/23. -/
theorem moonModel_speed_clamped (name : String) (fallback : Fallback) :
    (MoonModel.new name fallback).mSpeed
        = min (fallback.getFallbackFloat ("Moons_" ++ name ++ "_Speed")) (180 / 23) ∧
      (MoonModel.new name fallback).mSpeed
        = (if 180 / 23 < fallback.getFallbackFloat ("Moons_" ++ name ++ "_Speed") then 180 / 23
            else fallback.getFallbackFloat ("Moons_" ++ name ++ "_Speed")) ∧
      (MoonModel.new name fallback).mSpeed ≤ 180 / 23 := by
  refine ⟨rfl, ?_, min_le_right _ _⟩
  show min (fallback.getFallbackFloat ("Moons_" ++ name ++ "_Speed")) (180 / 23) = _
  split_ifs with h
  · exact min_eq_right (le_of_lt h)
  · exact min_eq_left (not_lt.mp h)

theorem fmod_zero_left (y : ℚ) : fmod 0 y = 0 := by
  simp [fmod, truncate]

/-- C16 (as amended): for every moon model whose speed is not negative, every
day count and every game hour in [0,24), the rotation angle returned by
`calculateState` is at least 0 and strictly below 180. -/
theorem calculateState_angle_range (moon : MoonModel) (daysPassed : Nat) (gameHour : ℚ)
    (hspeed : 0 ≤ moon.mSpeed) (hlo : 0 ≤ gameHour) (hhi : gameHour < 24) :
    0 ≤ (moon.calculateState daysPassed gameHour).mRotationFromHorizon ∧
      (moon.calculateState daysPassed gameHour).mRotationFromHorizon < 180 := by
  have _h24 := hhi
  have hrot : ∀ hours : ℚ, 0 ≤ hours → 0 ≤ moon.rotation hours := by
    intro hours hh
    unfold MoonModel.rotation
    positivity
  show 0 ≤ moon.angle daysPassed gameHour ∧ moon.angle daysPassed gameHour < 180
  simp only [MoonModel.angle]
  split_ifs
  all_goals first
    | exact ⟨le_refl 0, by norm_num⟩
    | exact ⟨add_nonneg (hrot _ hlo) (hrot _ (by linarith)), lt_of_not_ge ‹_›⟩
    | exact ⟨hrot _ (by linarith), lt_of_not_ge ‹_›⟩

/-- C16, witness: a moon of speed 1 and daily increment 0 at hour 6 of day 1. -/
theorem calculateState_angle_range_witness :
    0 ≤ (forwardMoon.calculateState 1 6).mRotationFromHorizon ∧
      (forwardMoon.calculateState 1 6).mRotationFromHorizon < 180 :=
  calculateState_angle_range forwardMoon 1 6 (by norm_num [forwardMoon]) (by norm_num)
    (by norm_num)

/-- C16, counterexample: the moon constructed from a configured speed of -1
(and a daily increment of 0) rises at hour 0 and is at the angle -15 at hour 1
of day 1, which is below 0. -/
theorem calculateState_negative_speed_counterexample :
    (MoonModel.new "Masser" backwardMoonFallback).mSpeed = -1 ∧
      ((MoonModel.new "Masser" backwardMoonFallback).calculateState 1 1).mRotationFromHorizon
        = -15 ∧
      ((MoonModel.new "Masser" backwardMoonFallback).calculateState 1 1).mRotationFromHorizon
        < 0 := by
  have hspeed : (MoonModel.new "Masser" backwardMoonFallback).mSpeed = -1 := by
    show min (-1 : ℚ) (180 / 23) = -1
    norm_num
  have hinc : (MoonModel.new "Masser" backwardMoonFallback).mDailyIncrement = 0 := rfl
  have hrise : ∀ d, (MoonModel.new "Masser" backwardMoonFallback).moonRiseHour d = 0 := by
    intro d
    simp only [MoonModel.moonRiseHour, hinc, mul_zero, fmod_zero_left, add_zero]
  have hangle : (MoonModel.new "Masser" backwardMoonFallback).angle 1 1 = -15 := by
    simp only [MoonModel.angle, hrise, MoonModel.rotation, hspeed]
    norm_num
  refine ⟨hspeed, hangle, ?_⟩
  show (MoonModel.new "Masser" backwardMoonFallback).angle 1 1 < 0
  rw [hangle]
  norm_num

/-! ## The daily colour resolver -/

theorem lerp_between (a b f : ℚ) (h0 : 0 ≤ f) (h1 : f ≤ 1) :
    min a b ≤ a * (1 - f) + b * f ∧ a * (1 - f) + b * f ≤ max a b := by
  rcases le_total a b with hab | hab
  · rw [min_eq_left hab, max_eq_right hab]
    constructor <;> nlinarith
  · rw [min_eq_right hab, max_eq_left hab]
    constructor <;> nlinarith

theorem lerp4_between (a b : Vec4f) (f : ℚ) (h0 : 0 ≤ f) (h1 : f ≤ 1) :
    (lerp4 a b f).between a b :=
  ⟨lerp_between _ _ _ h0 h1, lerp_between _ _ _ h0 h1, lerp_between _ _ _ h0 h1,
    lerp_between _ _ _ h0 h1⟩

/-- C17 (as amended): with configured sunrise and sunset durations of at most
2 hours, at every hour and for every registered profile `setResult` returns,
and the fog, ambient, sun and sky colours of the result are the night colours
in the night range, the day colours in the day range, and in the sunrise and
sunset ranges lie channel by channel between the two phase colours that are
interpolated there: sunrise and night, sunrise and day, sunset and day, sunset
and night. -/
theorem setResult_colours_convex (m : WeatherManager) (weatherType : String) (w : Weather)
    (hw : m.findWeather weatherType = some w) (htimes : m.hasDerivedTimes)
    (hrise : m.mSunriseDuration ≤ 2) (hset : m.mSunsetDuration ≤ 2) :
    ∃ m2, m.setResult weatherType = some m2 ∧
      (if m.mHour ≤ m.mNightEnd ∨ m.mHour ≥ m.mNightStart + 1 then
        m2.mResult.colours = w.nightColours
      else if m.mHour ≥ m.mNightEnd ∧ m.mHour ≤ m.mDayStart + 1 then
        (if m.mHour ≤ m.mSunriseTime then
          m2.mResult.colours.between w.sunriseColours w.nightColours
        else
          m2.mResult.colours.between w.sunriseColours w.dayColours)
      else if m.mHour ≥ m.mDayStart + 1 ∧ m.mHour ≤ m.mDayEnd - 1 then
        m2.mResult.colours = w.dayColours
      else if m.mHour ≥ m.mDayEnd - 1 ∧ m.mHour ≤ m.mNightStart + 1 then
        (if m.mHour ≤ m.mDayEnd + 1 then
          m2.mResult.colours.between w.sunsetColours w.dayColours
        else
          m2.mResult.colours.between w.sunsetColours w.nightColours)
      else False) := by
  obtain ⟨hNS, hNE, hDS, hDE⟩ := htimes
  simp only [WeatherManager.setResult, hw, Option.pure_def, Option.bind_eq_bind,
    Option.some_bind]
  refine ⟨_, rfl, ?_⟩
  by_cases h1 : m.mHour ≤ m.mNightEnd ∨ m.mHour ≥ m.mNightStart + 1
  · simp only [h1, if_true]
    rfl
  simp only [h1, if_false]
  push_neg at h1
  by_cases h2 : m.mHour ≥ m.mNightEnd ∧ m.mHour ≤ m.mDayStart + 1
  · simp only [h2, and_self, if_true]
    by_cases h3 : m.mHour ≤ m.mSunriseTime
    · simp only [h3, if_true]
      have hf0 : 0 ≤ (m.mSunriseTime - m.mHour) / (1 / 2) := by
        apply div_nonneg <;> linarith
      have hf1 : (m.mSunriseTime - m.mHour) / (1 / 2) ≤ 1 := by
        rw [div_le_one (by norm_num)]
        linarith [h1.1]
      exact ⟨lerp4_between _ _ _ hf0 hf1, lerp4_between _ _ _ hf0 hf1,
        lerp4_between _ _ _ hf0 hf1, lerp4_between _ _ _ hf0 hf1⟩
    · simp only [h3, if_false]
      have hf0 : 0 ≤ (m.mHour - m.mSunriseTime) / 3 := by
        apply div_nonneg <;> linarith
      have hf1 : (m.mHour - m.mSunriseTime) / 3 ≤ 1 := by
        rw [div_le_one (by norm_num)]
        linarith [h2.2]
      exact ⟨lerp4_between _ _ _ hf0 hf1, lerp4_between _ _ _ hf0 hf1,
        lerp4_between _ _ _ hf0 hf1, lerp4_between _ _ _ hf0 hf1⟩
  simp only [h2, if_false]
  have h7 : m.mDayStart + 1 < m.mHour := by
    by_contra hc
    exact h2 ⟨le_of_lt h1.1, not_lt.mp hc⟩
  by_cases h4 : m.mHour ≥ m.mDayStart + 1 ∧ m.mHour ≤ m.mDayEnd - 1
  · simp only [h4, and_self, if_true]
    rfl
  simp only [h4, if_false]
  have h8 : m.mDayEnd - 1 < m.mHour := by
    by_contra hc
    exact h4 ⟨le_of_lt h7, not_lt.mp hc⟩
  have h5 : m.mHour ≥ m.mDayEnd - 1 ∧ m.mHour ≤ m.mNightStart + 1 :=
    ⟨le_of_lt h8, le_of_lt h1.2⟩
  simp only [h5, and_self, if_true]
  by_cases h6 : m.mHour ≤ m.mDayEnd + 1
  · simp only [h6, if_true]
    have hf0 : 0 ≤ (m.mDayEnd + 1 - m.mHour) / 2 := by
      apply div_nonneg <;> linarith
    have hf1 : (m.mDayEnd + 1 - m.mHour) / 2 ≤ 1 := by
      rw [div_le_one (by norm_num)]
      linarith
    exact ⟨lerp4_between _ _ _ hf0 hf1, lerp4_between _ _ _ hf0 hf1,
      lerp4_between _ _ _ hf0 hf1, lerp4_between _ _ _ hf0 hf1⟩
  · simp only [h6, if_false]
    have hf0 : 0 ≤ (m.mHour - (m.mDayEnd + 1)) / 2 := by
      apply div_nonneg <;> linarith
    have hf1 : (m.mHour - (m.mDayEnd + 1)) / 2 ≤ 1 := by
      rw [div_le_one (by norm_num)]
      linarith [h1.2]
    exact ⟨lerp4_between _ _ _ hf0 hf1, lerp4_between _ _ _ hf0 hf1,
      lerp4_between _ _ _ hf0 hf1, lerp4_between _ _ _ hf0 hf1⟩

/-- The sunrise fade-out branch of `setResult`: the four colours are the
interpolation from the sunrise to the day colours by `(hour - sunriseTime) / 3`,
and the night-fade value is not assigned. -/
theorem setResult_sunrise_fade_out (m : WeatherManager) (weatherType : String) (w : Weather)
    (hw : m.findWeather weatherType = some w)
    (h1 : ¬ (m.mHour ≤ m.mNightEnd ∨ m.mHour ≥ m.mNightStart + 1))
    (h2 : m.mHour ≥ m.mNightEnd ∧ m.mHour ≤ m.mDayStart + 1)
    (h3 : ¬ m.mHour ≤ m.mSunriseTime) :
    ∃ m2, m.setResult weatherType = some m2 ∧
      m2.mResult.mFogColor
        = lerp4 w.mFogSunriseColor w.mFogDayColor ((m.mHour - m.mSunriseTime) / 3) ∧
      m2.mResult.mAmbientColor
        = lerp4 w.mAmbientSunriseColor w.mAmbientDayColor ((m.mHour - m.mSunriseTime) / 3) ∧
      m2.mResult.mSunColor
        = lerp4 w.mSunSunriseColor w.mSunDayColor ((m.mHour - m.mSunriseTime) / 3) ∧
      m2.mResult.mSkyColor
        = lerp4 w.mSkySunriseColor w.mSkyDayColor ((m.mHour - m.mSunriseTime) / 3) ∧
      m2.mResult.mNightFade = m.mResult.mNightFade := by
  simp only [WeatherManager.setResult, hw, Option.pure_def, Option.bind_eq_bind,
    Option.some_bind, h1, h2, h3, and_self, if_true, if_false]
  exact ⟨_, rfl, rfl, rfl, rfl, rfl, rfl⟩

/-- C17, witness: with sunrise at 6 and sunset at 18, both lasting 2 hours, at
hour 7 `setResult` is in the sunrise fade-out with the factor 1/3: the four
colours lie between the sunrise and the day colours of the "clear" profile, and
the fog colour interpolated from the red sunrise fog to the blue day fog is
(2/3, 0, 1/3, 1). -/
theorem setResult_colours_convex_witness :
    ∃ w m2, dawnManager.findWeather "clear" = some w ∧
      dawnManager.setResult "clear" = some m2 ∧
      m2.mResult.colours.between w.sunriseColours w.dayColours ∧
      w.mFogSunriseColor = ⟨1, 0, 0, 1⟩ ∧ w.mFogDayColor = ⟨0, 0, 1, 1⟩ ∧
      m2.mResult.mFogColor = ⟨2 / 3, 0, 1 / 3, 1⟩ := by
  have eH : dawnManager.mHour = 7 := rfl
  have eNE : dawnManager.mNightEnd = 6 - 1 / 2 := rfl
  have eNS : dawnManager.mNightStart = 18 + 2 := rfl
  have eDS : dawnManager.mDayStart = 6 + 2 := rfl
  have eSR : dawnManager.mSunriseTime = 6 := rfl
  have eRD : dawnManager.mSunriseDuration = 2 := rfl
  have eSD : dawnManager.mSunsetDuration = 2 := rfl
  have hw : dawnManager.findWeather "clear"
      = some (Weather.new "Clear" dawnFallback 0 1 "" "") := rfl
  have h1 : ¬ (dawnManager.mHour ≤ dawnManager.mNightEnd ∨
      dawnManager.mHour ≥ dawnManager.mNightStart + 1) := by
    rw [eH, eNE, eNS]
    norm_num
  have h2 : dawnManager.mHour ≥ dawnManager.mNightEnd ∧
      dawnManager.mHour ≤ dawnManager.mDayStart + 1 := by
    rw [eH, eNE, eDS]
    norm_num
  have h3 : ¬ dawnManager.mHour ≤ dawnManager.mSunriseTime := by
    rw [eH, eSR]
    norm_num
  obtain ⟨m2, hm2, hcol⟩ := setResult_colours_convex dawnManager "clear"
    (Weather.new "Clear" dawnFallback 0 1 "" "") hw ⟨rfl, rfl, rfl, rfl⟩
    (le_of_eq eRD) (le_of_eq eSD)
  rw [if_neg h1, if_pos h2, if_neg h3] at hcol
  obtain ⟨m3, hm3, hfog, _⟩ := setResult_sunrise_fade_out dawnManager "clear" _ hw h1 h2 h3
  have hsame : m3 = m2 := Option.some.inj (hm3.symm.trans hm2)
  rw [hsame] at hfog
  have hs : (Weather.new "Clear" dawnFallback 0 1 "" "").mFogSunriseColor
      = ⟨1, 0, 0, 1⟩ := rfl
  have hd : (Weather.new "Clear" dawnFallback 0 1 "" "").mFogDayColor
      = ⟨0, 0, 1, 1⟩ := rfl
  refine ⟨_, m2, hw, hm2, hcol, hs, hd, ?_⟩
  rw [hfog, hs, hd, eH, eSR]
  simp only [lerp4]
  norm_num

/-- C17, counterexample: with a configured sunrise duration of 5 hours
(sunrise at 6, sunset at 18 lasting 2 hours), at hour 11 `setResult` is in the
sunrise fade-out with the factor 5/3; the fog colour interpolated from the
black sunrise fog to the white day fog has the channel value 5/3, above both
endpoints. -/
theorem setResult_long_sunrise_counterexample :
    longSunriseManager.hasDerivedTimes ∧
      (0 ≤ longSunriseManager.mHour ∧ longSunriseManager.mHour < 24) ∧
      ∃ w m2, longSunriseManager.findWeather "clear" = some w ∧
        longSunriseManager.setResult "clear" = some m2 ∧
        w.mFogSunriseColor = ⟨0, 0, 0, 0⟩ ∧ w.mFogDayColor = ⟨1, 1, 1, 1⟩ ∧
        m2.mResult.mFogColor = ⟨5 / 3, 5 / 3, 5 / 3, 5 / 3⟩ ∧
        ¬ m2.mResult.mFogColor.between w.mFogSunriseColor w.mFogDayColor := by
  have eH : longSunriseManager.mHour = 11 := rfl
  have eNE : longSunriseManager.mNightEnd = 6 - 1 / 2 := rfl
  have eNS : longSunriseManager.mNightStart = 18 + 2 := rfl
  have eDS : longSunriseManager.mDayStart = 6 + 5 := rfl
  have eSR : longSunriseManager.mSunriseTime = 6 := rfl
  have hw : longSunriseManager.findWeather "clear"
      = some (Weather.new "Clear" longSunriseFallback 0 1 "" "") := rfl
  obtain ⟨m2, hm2, hfog, _⟩ := setResult_sunrise_fade_out longSunriseManager "clear" _ hw
    (by rw [eH, eNE, eNS]; norm_num) (by rw [eH, eNE, eDS]; norm_num)
    (by rw [eH, eSR]; norm_num)
  have hs : (Weather.new "Clear" longSunriseFallback 0 1 "" "").mFogSunriseColor
      = ⟨0, 0, 0, 0⟩ := rfl
  have hd : (Weather.new "Clear" longSunriseFallback 0 1 "" "").mFogDayColor
      = ⟨1, 1, 1, 1⟩ := rfl
  have hval : m2.mResult.mFogColor = ⟨5 / 3, 5 / 3, 5 / 3, 5 / 3⟩ := by
    rw [hfog, hs, hd, eH, eSR]
    simp only [lerp4]
    norm_num
  refine ⟨⟨rfl, rfl, rfl, rfl⟩, ⟨by rw [eH]; norm_num, by rw [eH]; norm_num⟩,
    _, m2, hw, hm2, hs, hd, hval, ?_⟩
  rw [hval, hs, hd]
  simp only [Vec4f.between]
  norm_num

/-- C18: for a profile with a non-zero transition rate, `transitionSeconds` is
`(0.00835 / transitionRate) * 3600`, which is `30.06 / transitionRate`, and it
is positive when the transition rate is positive. -/
theorem transitionSeconds_formula (w : Weather) (hrate : w.mTransitionDelta ≠ 0) :
    w.transitionSeconds = (835 / 100000 / w.mTransitionDelta) * 3600 ∧
      w.transitionSeconds = (3006 / 100) / w.mTransitionDelta ∧
      (0 < w.mTransitionDelta → 0 < w.transitionSeconds) := by
  unfold Weather.transitionSeconds
  refine ⟨by ring, ?_, ?_⟩
  · field_simp
    ring
  · intro hpos
    positivity

/-- C18, witness: the "clear" profile of the constructed manager, whose
transition rate is 1, has the transition time 30.06 s. -/
theorem transitionSeconds_formula_witness :
    (Weather.new "Clear" unitFallback 0 1 "" "").transitionSeconds = (3006 / 100) / 1 :=
  (transitionSeconds_formula (Weather.new "Clear" unitFallback 0 1 "" "")
    (by show (1 : ℚ) ≠ 0; norm_num)).2.1

/-! ## Region re-evaluation -/

/-- The outcome of `setWeather` does not depend on the stored region and the
weather-update countdown. -/
theorem setWeather_with_region (m : WeatherManager) (region : String) (countdown : ℚ)
    (weather : String) (instant : Bool) :
    ({ m with mCurrentRegion := region, mWeatherUpdateTime := countdown }
        : WeatherManager).setWeather weather instant =
      (m.setWeather weather instant).map
        (fun m2 => { m2 with mCurrentRegion := region, mWeatherUpdateTime := countdown }) := by
  simp only [WeatherManager.setWeather, WeatherManager.findWeather]
  split_ifs
  · rfl
  · rfl
  · cases h : StrMap.find m.mWeatherSettings m.mCurrentWeather with
    | none => simp [h]
    | some a =>
      simp only [h, Option.pure_def, Option.bind_eq_bind, Option.some_bind]
      split_ifs
      · cases hb : StrMap.find m.mWeatherSettings m.mNextWeather <;> simp [hb]
      · simp [h]
  · cases h : StrMap.find m.mWeatherSettings m.mCurrentWeather <;> simp [h]

/-- C19: in an exterior location, when the weather-update countdown is not
positive or the lower-cased region of the player differs from the stored
region, `switchToNextWeather` is `setWeather` of the forced override of the
region when one is stored (whatever the roll), of "clear" when there is no
override and the store finds no region, and of the `nextWeather` draw of the
region otherwise, together with the reset of the countdown to
`hoursBetweenWeatherChanges * 3600` and the store of the region of the player;
when neither trigger holds, nothing changes. -/
theorem switchToNextWeather_cases (m : WeatherManager) (world : World) (instantly : Bool)
    (hext : (world.isCellExterior || world.isCellQuasiExterior) = true) :
    (m.mWeatherUpdateTime ≤ 0 ∨ lowerCase world.playerRegion ≠ m.mCurrentRegion →
        (∀ forced, StrMap.find m.mRegionOverrides (lowerCase world.playerRegion) = some forced →
          m.switchToNextWeather world instantly =
            (m.setWeather forced instantly).map (fun m2 =>
              { m2 with
                mCurrentRegion := lowerCase world.playerRegion
                mWeatherUpdateTime := m.mHoursBetweenWeatherChanges * 3600 })) ∧
        (StrMap.find m.mRegionOverrides (lowerCase world.playerRegion) = none →
          world.searchRegion (lowerCase world.playerRegion) = none →
          m.switchToNextWeather world instantly =
            (m.setWeather "clear" instantly).map (fun m2 =>
              { m2 with
                mCurrentRegion := lowerCase world.playerRegion
                mWeatherUpdateTime := m.mHoursBetweenWeatherChanges * 3600 })) ∧
        (∀ region, StrMap.find m.mRegionOverrides (lowerCase world.playerRegion) = none →
          world.searchRegion (lowerCase world.playerRegion) = some region →
          m.switchToNextWeather world instantly =
            (m.setWeather (m.nextWeather region world.rollWeather) instantly).map (fun m2 =>
              { m2 with
                mCurrentRegion := lowerCase world.playerRegion
                mWeatherUpdateTime := m.mHoursBetweenWeatherChanges * 3600 })) ∧
        (∀ m2, m.switchToNextWeather world instantly = some m2 →
          m2.mWeatherUpdateTime = m.mHoursBetweenWeatherChanges * 3600 ∧
          m2.mCurrentRegion = lowerCase world.playerRegion)) ∧
      (¬ (m.mWeatherUpdateTime ≤ 0 ∨ lowerCase world.playerRegion ≠ m.mCurrentRegion) →
        m.switchToNextWeather world instantly = some m) := by
  constructor
  · intro htrigger
    have hforced : ∀ forced,
        StrMap.find m.mRegionOverrides (lowerCase world.playerRegion) = some forced →
        m.switchToNextWeather world instantly =
          (m.setWeather forced instantly).map (fun m2 =>
            { m2 with
              mCurrentRegion := lowerCase world.playerRegion
              mWeatherUpdateTime := m.mHoursBetweenWeatherChanges * 3600 }) := by
      intro forced hfind
      simp only [WeatherManager.switchToNextWeather, hext, if_true, htrigger, hfind]
      exact setWeather_with_region m _ _ _ _
    have hclear : StrMap.find m.mRegionOverrides (lowerCase world.playerRegion) = none →
        world.searchRegion (lowerCase world.playerRegion) = none →
        m.switchToNextWeather world instantly =
          (m.setWeather "clear" instantly).map (fun m2 =>
            { m2 with
              mCurrentRegion := lowerCase world.playerRegion
              mWeatherUpdateTime := m.mHoursBetweenWeatherChanges * 3600 }) := by
      intro hfind hsearch
      simp only [WeatherManager.switchToNextWeather, hext, if_true, htrigger, hfind, hsearch]
      exact setWeather_with_region m _ _ _ _
    have hdraw : ∀ region,
        StrMap.find m.mRegionOverrides (lowerCase world.playerRegion) = none →
        world.searchRegion (lowerCase world.playerRegion) = some region →
        m.switchToNextWeather world instantly =
          (m.setWeather (m.nextWeather region world.rollWeather) instantly).map (fun m2 =>
            { m2 with
              mCurrentRegion := lowerCase world.playerRegion
              mWeatherUpdateTime := m.mHoursBetweenWeatherChanges * 3600 }) := by
      intro region hfind hsearch
      simp only [WeatherManager.switchToNextWeather, hext, if_true, htrigger, hfind, hsearch]
      exact setWeather_with_region m _ _ _ _
    refine ⟨hforced, hclear, hdraw, ?_⟩
    intro m2 hm2
    have hmap : ∃ weather, m.switchToNextWeather world instantly =
        (m.setWeather weather instantly).map (fun m2 =>
          { m2 with
            mCurrentRegion := lowerCase world.playerRegion
            mWeatherUpdateTime := m.mHoursBetweenWeatherChanges * 3600 }) := by
      cases hfind : StrMap.find m.mRegionOverrides (lowerCase world.playerRegion) with
      | some forced => exact ⟨_, hforced forced hfind⟩
      | none =>
        cases hsearch : world.searchRegion (lowerCase world.playerRegion) with
        | none => exact ⟨_, hclear hfind hsearch⟩
        | some region => exact ⟨_, hdraw region hfind hsearch⟩
    obtain ⟨weather, hmap⟩ := hmap
    rw [hmap, Option.map_eq_some'] at hm2
    obtain ⟨m1, _, h⟩ := hm2
    subst h
    exact ⟨rfl, rfl⟩
  · intro hquiet
    simp only [WeatherManager.switchToNextWeather, hext, if_true, hquiet, if_false]

/-- C19, witness: the countdown has expired, a forced "blight" is stored for
"west gash", and the store would draw "rain" for the region: the manager goes
from "clear" toward "blight", the countdown is 3600 and the region is
"west gash". -/
theorem switchToNextWeather_cases_witness :
    (forcedBlightManager.switchToNextWeather westGashWorld false).map
        (fun m => (m.mCurrentWeather, m.mNextWeather, m.mCurrentRegion))
      = some ("clear", "blight", "west gash") := by
  have h := ((switchToNextWeather_cases forcedBlightManager westGashWorld false rfl).1
    (Or.inl (le_refl 0))).1 "blight" (by decide)
  rw [h]
  decide

/-- C20: on an exterior update tick without a weather request (the player is
in the stored region and the countdown stays positive), with the weathers of
the engine registered, `update` returns. With a pending transition the
remaining transition time is decreased by the consumed time-passed; the
transition completes (current becomes the old next, next becomes empty) when
the decreased remaining time is strictly below 0, and current and next are
unchanged otherwise. With no pending transition, current, next and remaining
transition time are unchanged. -/
theorem update_transition_step (m : WeatherManager) (world : World) (duration : ℚ)
    (paused : Bool)
    (hext : (world.isCellExterior || world.isCellQuasiExterior) = true)
    (hregion : lowerCase world.playerRegion = m.mCurrentRegion)
    (hcount : 0 < m.mWeatherUpdateTime - m.mTimePassed)
    (hreg : ∀ name, name = m.mCurrentWeather ∨ (name = m.mNextWeather ∧ name ≠ "") →
      ∃ w, m.findWeather name = some w) :
    ∃ m2, m.update world duration paused = some m2 ∧
      (m.mNextWeather ≠ "" →
        m2.mRemainingTransitionTime = m.mRemainingTransitionTime - m.mTimePassed ∧
        (m.mRemainingTransitionTime - m.mTimePassed < 0 →
          m2.mCurrentWeather = m.mNextWeather ∧ m2.mNextWeather = "") ∧
        (¬ m.mRemainingTransitionTime - m.mTimePassed < 0 →
          m2.mCurrentWeather = m.mCurrentWeather ∧ m2.mNextWeather = m.mNextWeather)) ∧
      (m.mNextWeather = "" →
        m2.mRemainingTransitionTime = m.mRemainingTransitionTime ∧
        m2.mCurrentWeather = m.mCurrentWeather ∧ m2.mNextWeather = "") := by
  obtain ⟨m2, hm2, _, _, _, _, _, f6, f7, f8⟩ :=
    update_without_request m world duration paused hext hregion hcount hreg
  obtain ⟨_, _, _, _, _, t6, t7, t8⟩ := updateTransition_cases m m.mTimePassed
  refine ⟨m2, hm2, ?_, ?_⟩
  · intro hnext
    refine ⟨?_, ?_, ?_⟩
    · rw [f8]
      by_cases hneg : m.mRemainingTransitionTime - m.mTimePassed < 0
      · exact (t7 hnext hneg).2.2
      · exact (t8 hnext hneg).2.2
    · intro hneg
      rw [f6, f7]
      exact ⟨(t7 hnext hneg).1, (t7 hnext hneg).2.1⟩
    · intro hneg
      rw [f6, f7]
      exact ⟨(t8 hnext hneg).1, (t8 hnext hneg).2.1⟩
  · intro hnext
    rw [f6, f7, f8]
    exact ⟨(t6 hnext).2.2, (t6 hnext).1, (t6 hnext).2.1⟩

/-- C20, witness: 10 s before the end of the transition from "clear" to "rain",
a tick that consumes 3.6 s leaves 6.4 s and the transition pending. -/
theorem update_transition_step_witness :
    ∃ m2, ((clearToRain 10).advanceTime (1 / 1000)).update exteriorWorld 1 false = some m2 ∧
      m2.mRemainingTransitionTime = 32 / 5 ∧
      m2.mCurrentWeather = "clear" ∧ m2.mNextWeather = "rain" := by
  have eT : ((clearToRain 10).advanceTime (1 / 1000)).mTimePassed = 0 + 1 / 1000 * 3600 := rfl
  have eW : ((clearToRain 10).advanceTime (1 / 1000)).mWeatherUpdateTime = 1 * 3600 := rfl
  have eR : ((clearToRain 10).advanceTime (1 / 1000)).mRemainingTransitionTime = 10 := rfl
  have hreg : ∀ name, name = ((clearToRain 10).advanceTime (1 / 1000)).mCurrentWeather ∨
      (name = ((clearToRain 10).advanceTime (1 / 1000)).mNextWeather ∧ name ≠ "") →
      ∃ w, ((clearToRain 10).advanceTime (1 / 1000)).findWeather name = some w := by
    rintro name (rfl | ⟨rfl, _⟩)
    · exact ⟨_, rfl⟩
    · exact ⟨_, rfl⟩
  obtain ⟨m2, hm2, h1, _⟩ := update_transition_step ((clearToRain 10).advanceTime (1 / 1000))
    exteriorWorld 1 false rfl (by decide) (by rw [eT, eW]; norm_num) hreg
  obtain ⟨hrem, _, hkeep⟩ := h1 (by decide)
  obtain ⟨hc, hn⟩ := hkeep (by rw [eT, eR]; norm_num)
  refine ⟨m2, hm2, ?_, hc, hn⟩
  rw [hrem, eT, eR]
  norm_num

/-! ## The angle of the moon -/

theorem truncate_of_bounds (q : ℚ) (k : Int) (h0 : 0 ≤ q) (hlo : (k : ℚ) ≤ q)
    (hhi : q < (k : ℚ) + 1) : truncate q = k := by
  unfold truncate
  rw [if_pos h0]
  exact Int.floor_eq_iff.mpr ⟨hlo, hhi⟩

/-- The `unsigned int` expression `daysPassed - 1 + startDay` does not wrap
around when the day count plus 15 is below 2^32. -/
theorem wrapUInt_day (daysPassed : Nat) (h : daysPassed + 15 < 2 ^ 32) :
    wrapUInt (wrapUInt (daysPassed + (2 ^ 32 - 1)) + 16) = daysPassed + 15 := by
  unfold wrapUInt
  norm_num at h ⊢
  omega

/-- The same for the day before: `(daysPassed - 1) - 1 + startDay`. -/
theorem wrapUInt_yesterday (daysPassed : Nat) (h : daysPassed + 15 < 2 ^ 32) :
    wrapUInt (wrapUInt (wrapUInt (daysPassed + (2 ^ 32 - 1)) + (2 ^ 32 - 1)) + 16)
      = daysPassed + 14 := by
  unfold wrapUInt
  norm_num at h ⊢
  omega

/-- The conversion to `float` keeps every number up to 2^24. -/
theorem floatOfUInt_of_le (n : Nat) (h : n ≤ 2 ^ 24) : floatOfUInt n = n := by
  rcases Nat.lt_or_eq_of_le h with hlt | heq
  · have hshift : floatShift 8 n = 0 := by
      simp only [floatShift, hlt, if_true]
    simp only [floatOfUInt, hshift, pow_zero, Nat.mod_one, Nat.div_one, mul_zero, mul_one]
    rw [if_neg (by omega)]
  · subst heq
    decide

/-- The conversion to `float` rounds 2^24 + 1 down to 2^24. -/
theorem floatOfUInt_first_loss : floatOfUInt 16777217 = 16777216 := by
  decide

theorem moonRiseHour_eq_riseSpec (moon : MoonModel) (daysPassed : Nat)
    (h : daysPassed + 15 ≤ 2 ^ 24) :
    moon.moonRiseHour daysPassed = moon.riseSpec (daysPassed : Int) := by
  have hwrap : daysPassed + 15 < 2 ^ 32 := lt_of_le_of_lt h (by norm_num)
  simp only [MoonModel.moonRiseHour, MoonModel.riseSpec, wrapUInt_day daysPassed hwrap,
    floatOfUInt_of_le (daysPassed + 15) h]
  push_cast
  ring_nf

theorem moonRiseHour_yesterday_eq_riseSpec (moon : MoonModel) (daysPassed : Nat)
    (h : daysPassed + 15 ≤ 2 ^ 24) :
    moon.moonRiseHour (wrapUInt (daysPassed + (2 ^ 32 - 1)))
      = moon.riseSpec ((daysPassed : Int) - 1) := by
  have hwrap : daysPassed + 15 < 2 ^ 32 := lt_of_le_of_lt h (by norm_num)
  simp only [MoonModel.moonRiseHour, MoonModel.riseSpec, wrapUInt_yesterday daysPassed hwrap,
    floatOfUInt_of_le (daysPassed + 14) (by omega)]
  push_cast
  ring_nf

/-- C21 (as amended): for every moon model, every hour and every day `d` with
`d + 15 <= 2^24` (the `unsigned int` sum `d - 1 + 16` is converted to `float`
without loss), `MoonModel::angle (d, h)` is the angle of the specification: with
`rise (d) = dailyIncrement + ((d - 1 + 16) * dailyIncrement mod 24)`, it is
`rotation (h - rise d)` when `h >= rise d`; `rotation h + rotation (24 - rise (d - 1))`
when `h < rise d`, `rise (d - 1) < 24` and `rotation (24 - rise (d - 1)) < 180`; and
0 otherwise; a value that reaches or exceeds 180 is replaced by 0. -/
theorem angle_eq_angleSpec (moon : MoonModel) (daysPassed : Nat) (gameHour : ℚ)
    (hday : daysPassed + 15 ≤ 2 ^ 24) :
    moon.angle daysPassed gameHour = moon.angleSpec (daysPassed : Int) gameHour := by
  simp only [MoonModel.angle, MoonModel.angleSpec, moonRiseHour_eq_riseSpec moon daysPassed hday,
    moonRiseHour_yesterday_eq_riseSpec moon daysPassed hday]
  by_cases h1 : gameHour < moon.riseSpec (daysPassed : Int)
  · have h1n : ¬ gameHour ≥ moon.riseSpec (daysPassed : Int) := not_le.mpr h1
    simp only [h1, h1n, if_true, if_false]
    by_cases h2 : moon.riseSpec ((daysPassed : Int) - 1) < 24
    · by_cases h3 : moon.rotation (24 - moon.riseSpec ((daysPassed : Int) - 1)) < 180
      · simp only [h2, h3, and_self, if_true]
      · simp only [h2, h3, and_false, if_true, if_false]
    · simp only [h2, false_and, if_false]
  · have h1n : gameHour ≥ moon.riseSpec (daysPassed : Int) := not_lt.mp h1
    simp only [h1, h1n, if_true, if_false]

theorem fmod_of_bounds (x : ℚ) (k : Int) (h0 : 0 ≤ x) (hlo : 24 * (k : ℚ) ≤ x)
    (hhi : x < 24 * ((k : ℚ) + 1)) : fmod x 24 = x - 24 * (k : ℚ) := by
  unfold fmod
  rw [truncate_of_bounds (x / 24) k (by positivity)
    (by rw [le_div_iff₀ (by norm_num)]; linarith)
    (by rw [div_lt_iff₀ (by norm_num)]; linarith)]

/-- C21, witness: the moon of speed 1 and daily increment 1 on the last day
of the range, day 2^24 - 15, at hour 20: the sum is 2^24, the moon rose at hour
17 and is at 45 degrees. -/
theorem angle_eq_angleSpec_witness :
    dailyMoon.angle 16777201 20 = dailyMoon.angleSpec ((16777201 : Nat) : Int) 20 ∧
      dailyMoon.angleSpec ((16777201 : Nat) : Int) 20 = 45 := by
  have hinc : dailyMoon.mDailyIncrement = 1 := rfl
  have hspeed : dailyMoon.mSpeed = 1 := rfl
  have hf : fmod 16777216 24 = 16 := by
    rw [fmod_of_bounds 16777216 699050 (by norm_num) (by norm_num) (by norm_num)]
    norm_num
  have hs : dailyMoon.riseSpec ((16777201 : Nat) : Int) = 17 := by
    simp only [MoonModel.riseSpec, hinc]
    norm_num [hf]
  refine ⟨angle_eq_angleSpec dailyMoon 16777201 20 (by norm_num), ?_⟩
  simp only [MoonModel.angleSpec, hs, MoonModel.rotation, hspeed]
  norm_num

/-- C21, counterexample: on day 2^24 - 14 the `unsigned int` sum
`daysPassed - 1 + 16` is 2^24 + 1, which the conversion to `float` rounds to
2^24. The moon of speed 1 and daily increment 1 then rises at hour 17 in the
code and is at 7.5 degrees at hour 17.5, while the formula of the
specification lets it rise at hour 18, and the angle carried over from the day
before, 367.5 degrees, is replaced by 0. -/
theorem angle_float_day_counterexample :
    dailyMoon.angle 16777202 (35 / 2) = 15 / 2 ∧
      dailyMoon.angleSpec ((16777202 : Nat) : Int) (35 / 2) = 0 ∧
      dailyMoon.angle 16777202 (35 / 2)
        ≠ dailyMoon.angleSpec ((16777202 : Nat) : Int) (35 / 2) := by
  have hinc : dailyMoon.mDailyIncrement = 1 := rfl
  have hspeed : dailyMoon.mSpeed = 1 := rfl
  have hsum : floatOfUInt (wrapUInt (wrapUInt (16777202 + (2 ^ 32 - 1)) + 16)) = 16777216 := by
    decide
  have hf0 : fmod 16777216 24 = 16 := by
    rw [fmod_of_bounds 16777216 699050 (by norm_num) (by norm_num) (by norm_num)]
    norm_num
  have hf1 : fmod 16777217 24 = 17 := by
    rw [fmod_of_bounds 16777217 699050 (by norm_num) (by norm_num) (by norm_num)]
    norm_num
  have hrise : dailyMoon.moonRiseHour 16777202 = 17 := by
    simp only [MoonModel.moonRiseHour, hinc, hsum]
    norm_num [hf0]
  have hcode : dailyMoon.angle 16777202 (35 / 2) = 15 / 2 := by
    simp only [MoonModel.angle, hrise, MoonModel.rotation, hspeed]
    norm_num
  have hs1 : dailyMoon.riseSpec ((16777202 : Nat) : Int) = 18 := by
    simp only [MoonModel.riseSpec, hinc]
    norm_num [hf1]
  have hs2 : dailyMoon.riseSpec (((16777202 : Nat) : Int) - 1) = 17 := by
    simp only [MoonModel.riseSpec, hinc]
    norm_num [hf0]
  have hspec : dailyMoon.angleSpec ((16777202 : Nat) : Int) (35 / 2) = 0 := by
    simp only [MoonModel.angleSpec, hs1, hs2, MoonModel.rotation, hspeed]
    norm_num
  refine ⟨hcode, hspec, ?_⟩
  rw [hcode, hspec]
  norm_num

/-- Beyond the loss of the conversion, on day 2^32 - 15 the `unsigned int` sum
`daysPassed - 1 + 16` wraps around to 0, so the moon of speed 1 and daily
increment 1 rises at hour 1 in the code and is at 15 degrees at hour 2, while
the formula of the specification, in which the sum is 2^32, lets it rise at
hour 17 and puts it at 150 degrees. -/
theorem angle_day_wraps :
    dailyMoon.angle 4294967281 2 = 15 ∧
      dailyMoon.angleSpec ((4294967281 : Nat) : Int) 2 = 150 := by
  have hinc : dailyMoon.mDailyIncrement = 1 := rfl
  have hspeed : dailyMoon.mSpeed = 1 := rfl
  have hwrap : floatOfUInt (wrapUInt (wrapUInt (4294967281 + (2 ^ 32 - 1)) + 16)) = 0 := by
    decide
  have hrise : dailyMoon.moonRiseHour 4294967281 = 1 := by
    simp only [MoonModel.moonRiseHour, hinc, hwrap, Nat.cast_zero, zero_mul, fmod_zero_left,
      add_zero]
  have hcode : dailyMoon.angle 4294967281 2 = 15 := by
    simp only [MoonModel.angle, hrise, MoonModel.rotation, hspeed]
    norm_num
  have hf1 : fmod 4294967296 24 = 16 := by
    rw [fmod_of_bounds 4294967296 178956970 (by norm_num) (by norm_num) (by norm_num)]
    norm_num
  have hf2 : fmod 4294967295 24 = 15 := by
    rw [fmod_of_bounds 4294967295 178956970 (by norm_num) (by norm_num) (by norm_num)]
    norm_num
  have hs1 : dailyMoon.riseSpec ((4294967281 : Nat) : Int) = 17 := by
    simp only [MoonModel.riseSpec, hinc]
    norm_num [hf1]
  have hs2 : dailyMoon.riseSpec (((4294967281 : Nat) : Int) - 1) = 16 := by
    simp only [MoonModel.riseSpec, hinc]
    norm_num [hf2]
  have hspec : dailyMoon.angleSpec ((4294967281 : Nat) : Int) 2 = 150 := by
    simp only [MoonModel.angleSpec, hs1, hs2, MoonModel.rotation, hspeed]
    norm_num
  exact ⟨hcode, hspec⟩

/-! ## The shadow blend of the moon -/

/-- The five pieces of `shadowBlend` for `fadeEndAngle < fadeStartAngle <= 90`. -/
theorem shadowBlend_pieces (moon : MoonModel) (angle : ℚ)
    (hlt : moon.mFadeEndAngle < moon.mFadeStartAngle) (hle : moon.mFadeStartAngle ≤ 90) :
    (angle < moon.mFadeEndAngle → moon.shadowBlend angle = 0) ∧
      (moon.mFadeEndAngle ≤ angle → angle < moon.mFadeStartAngle →
        moon.shadowBlend angle
          = (angle - moon.mFadeEndAngle) / (moon.mFadeStartAngle - moon.mFadeEndAngle)) ∧
      (moon.mFadeStartAngle ≤ angle → angle < 180 - moon.mFadeStartAngle →
        moon.shadowBlend angle = 1) ∧
      (180 - moon.mFadeStartAngle ≤ angle → angle < 180 - moon.mFadeEndAngle →
        moon.shadowBlend angle
          = ((180 - moon.mFadeEndAngle) - angle)
            / (moon.mFadeStartAngle - moon.mFadeEndAngle)) ∧
      (180 - moon.mFadeEndAngle ≤ angle → moon.shadowBlend angle = 0) := by
  refine ⟨?_, ?_, ?_, ?_, ?_⟩
  · intro h
    have c1 : ¬ (angle ≥ moon.mFadeEndAngle ∧ angle < moon.mFadeStartAngle) :=
      fun hc => absurd hc.1 (not_le.mpr h)
    have c2 : ¬ (angle ≥ moon.mFadeStartAngle ∧ angle < 180 - moon.mFadeStartAngle) :=
      fun hc => by linarith [hc.1]
    have c3 : ¬ (angle ≥ 180 - moon.mFadeStartAngle ∧ angle < 180 - moon.mFadeEndAngle) :=
      fun hc => by linarith [hc.1]
    simp only [MoonModel.shadowBlend, c1, c2, c3, if_false]
  · intro h1 h2
    have c1 : angle ≥ moon.mFadeEndAngle ∧ angle < moon.mFadeStartAngle := ⟨h1, h2⟩
    simp only [MoonModel.shadowBlend, c1, and_self, if_true]
  · intro h1 h2
    have c1 : ¬ (angle ≥ moon.mFadeEndAngle ∧ angle < moon.mFadeStartAngle) :=
      fun hc => absurd hc.2 (not_lt.mpr h1)
    have c2 : angle ≥ moon.mFadeStartAngle ∧ angle < 180 - moon.mFadeStartAngle := ⟨h1, h2⟩
    simp only [MoonModel.shadowBlend, c1, c2, and_self, if_true, if_false]
  · intro h1 h2
    have c1 : ¬ (angle ≥ moon.mFadeEndAngle ∧ angle < moon.mFadeStartAngle) :=
      fun hc => by linarith [hc.2]
    have c2 : ¬ (angle ≥ moon.mFadeStartAngle ∧ angle < 180 - moon.mFadeStartAngle) :=
      fun hc => absurd hc.2 (not_lt.mpr h1)
    have c3 : angle ≥ 180 - moon.mFadeStartAngle ∧ angle < 180 - moon.mFadeEndAngle :=
      ⟨h1, h2⟩
    simp only [MoonModel.shadowBlend, c1, c2, c3, and_self, if_true, if_false]
  · intro h
    have c1 : ¬ (angle ≥ moon.mFadeEndAngle ∧ angle < moon.mFadeStartAngle) :=
      fun hc => by linarith [hc.2]
    have c2 : ¬ (angle ≥ moon.mFadeStartAngle ∧ angle < 180 - moon.mFadeStartAngle) :=
      fun hc => by linarith [hc.2]
    have c3 : ¬ (angle ≥ 180 - moon.mFadeStartAngle ∧ angle < 180 - moon.mFadeEndAngle) :=
      fun hc => absurd hc.2 (not_lt.mpr h)
    simp only [MoonModel.shadowBlend, c1, c2, c3, if_false]

theorem shadowBlend_range (moon : MoonModel) (angle : ℚ)
    (hlt : moon.mFadeEndAngle < moon.mFadeStartAngle) (hle : moon.mFadeStartAngle ≤ 90) :
    0 ≤ moon.shadowBlend angle ∧ moon.shadowBlend angle ≤ 1 := by
  obtain ⟨p1, p2, p3, p4, p5⟩ := shadowBlend_pieces moon angle hlt hle
  have hpos : 0 < moon.mFadeStartAngle - moon.mFadeEndAngle := by linarith
  rcases lt_or_le angle moon.mFadeEndAngle with h1 | h1
  · rw [p1 h1]
    norm_num
  rcases lt_or_le angle moon.mFadeStartAngle with h2 | h2
  · rw [p2 h1 h2]
    exact ⟨div_nonneg (by linarith) (le_of_lt hpos), by rw [div_le_one hpos]; linarith⟩
  rcases lt_or_le angle (180 - moon.mFadeStartAngle) with h3 | h3
  · rw [p3 h2 h3]
    norm_num
  rcases lt_or_le angle (180 - moon.mFadeEndAngle) with h4 | h4
  · rw [p4 h3 h4]
    exact ⟨div_nonneg (by linarith) (le_of_lt hpos), by rw [div_le_one hpos]; linarith⟩
  · rw [p5 h4]
    norm_num

theorem shadowBlend_mirror (moon : MoonModel) (angle : ℚ)
    (hlt : moon.mFadeEndAngle < moon.mFadeStartAngle) (hle : moon.mFadeStartAngle ≤ 90) :
    moon.shadowBlend (180 - angle) = moon.shadowBlend angle := by
  obtain ⟨p1, p2, p3, p4, p5⟩ := shadowBlend_pieces moon angle hlt hle
  obtain ⟨q1, q2, q3, q4, q5⟩ := shadowBlend_pieces moon (180 - angle) hlt hle
  have hpos : 0 < moon.mFadeStartAngle - moon.mFadeEndAngle := by linarith
  have hne : moon.mFadeStartAngle - moon.mFadeEndAngle ≠ 0 := ne_of_gt hpos
  rcases lt_or_le angle moon.mFadeEndAngle with h1 | h1
  · rw [p1 h1, q5 (by linarith)]
  rcases lt_or_le angle moon.mFadeStartAngle with h2 | h2
  · rcases eq_or_lt_of_le h1 with h1e | h1l
    · rw [p2 h1 h2, q5 (by linarith), ← h1e]
      simp
    · rw [p2 h1 h2, q4 (by linarith) (by linarith)]
      congr 1
      ring
  rcases lt_or_le angle (180 - moon.mFadeStartAngle) with h3 | h3
  · rcases eq_or_lt_of_le h2 with h2e | h2l
    · rw [p3 h2 h3, q4 (by linarith) (by linarith), ← h2e]
      field_simp
    · rw [p3 h2 h3, q3 (by linarith) (by linarith)]
  rcases lt_or_le angle (180 - moon.mFadeEndAngle) with h4 | h4
  · rcases eq_or_lt_of_le h3 with h3e | h3l
    · rcases eq_or_lt_of_le hle with h90 | h90
      · rw [p4 h3 h4, q4 (by linarith) (by linarith)]
        congr 1
        linarith
      · rw [p4 h3 h4, q3 (by linarith) (by linarith), ← h3e]
        field_simp
    · rw [p4 h3 h4, q2 (by linarith) (by linarith)]
      congr 1
      ring
  · rcases eq_or_lt_of_le h4 with h4e | h4l
    · rw [p5 h4, q2 (by linarith) (by linarith), ← h4e]
      simp
    · rw [p5 h4, q1 (by linarith)]

/-- C22: for a moon model with `fadeEndAngle < fadeStartAngle <= 90` and every
angle `a`, `shadowBlend a` is 0 for `a < fadeEndAngle`, the rising ramp
`(a - fadeEndAngle) / (fadeStartAngle - fadeEndAngle)` up to `fadeStartAngle`, 1 up to
`180 - fadeStartAngle`, the falling ramp
`((180 - fadeEndAngle) - a) / (fadeStartAngle - fadeEndAngle)` up to `180 - fadeEndAngle` and
0 from there on; it lies in [0,1] and `shadowBlend (180 - a) = shadowBlend a`. -/
theorem shadowBlend_ramp (moon : MoonModel) (angle : ℚ)
    (hlt : moon.mFadeEndAngle < moon.mFadeStartAngle) (hle : moon.mFadeStartAngle ≤ 90) :
    ((angle < moon.mFadeEndAngle → moon.shadowBlend angle = 0) ∧
      (moon.mFadeEndAngle ≤ angle → angle < moon.mFadeStartAngle →
        moon.shadowBlend angle
          = (angle - moon.mFadeEndAngle) / (moon.mFadeStartAngle - moon.mFadeEndAngle)) ∧
      (moon.mFadeStartAngle ≤ angle → angle < 180 - moon.mFadeStartAngle →
        moon.shadowBlend angle = 1) ∧
      (180 - moon.mFadeStartAngle ≤ angle → angle < 180 - moon.mFadeEndAngle →
        moon.shadowBlend angle
          = ((180 - moon.mFadeEndAngle) - angle)
            / (moon.mFadeStartAngle - moon.mFadeEndAngle)) ∧
      (180 - moon.mFadeEndAngle ≤ angle → moon.shadowBlend angle = 0)) ∧
      (0 ≤ moon.shadowBlend angle ∧ moon.shadowBlend angle ≤ 1) ∧
      moon.shadowBlend (180 - angle) = moon.shadowBlend angle :=
  ⟨shadowBlend_pieces moon angle hlt hle, shadowBlend_range moon angle hlt hle,
    shadowBlend_mirror moon angle hlt hle⟩

/-- C22, witness: the moon with the fade angles 10 and 40 at the angle 25, in
the middle of the rising ramp, and at its mirror angle 155. -/
theorem shadowBlend_ramp_witness :
    fadingMoon.shadowBlend 25 = 1 / 2 ∧ fadingMoon.shadowBlend 155 = 1 / 2 := by
  have hE : fadingMoon.mFadeEndAngle = 10 := rfl
  have hS : fadingMoon.mFadeStartAngle = 40 := rfl
  obtain ⟨⟨_, p2, _⟩, _, hm⟩ := shadowBlend_ramp fadingMoon 25 (by rw [hE, hS]; norm_num)
    (by rw [hS]; norm_num)
  have h25 : fadingMoon.shadowBlend 25 = 1 / 2 := by
    rw [p2 (by rw [hE]; norm_num) (by rw [hS]; norm_num), hE, hS]
    norm_num
  refine ⟨h25, ?_⟩
  have h155 : (155 : ℚ) = 180 - 25 := by norm_num
  rw [h155, hm, h25]

/-! ## The blend of two weathers -/

/-- For a registered weather `setResult` returns; it changes `mResult` only,
and the storm flag, the effects, the rain parameters and the ambient loop of
the result are those of the profile. -/
theorem setResult_attributes (m : WeatherManager) (weatherType : String) (w : Weather)
    (hw : m.findWeather weatherType = some w) :
    ∃ r, m.setResult weatherType = some { m with mResult := r } ∧
      r.mIsStorm = w.mIsStorm ∧ r.mParticleEffect = w.mParticleEffect ∧
      r.mRainEffect = w.mRainEffect ∧ r.mRainSpeed = w.mRainSpeed ∧
      r.mRainFrequency = w.mRainFrequency ∧
      r.mAmbientLoopSoundID = w.mAmbientLoopSoundID := by
  simp only [WeatherManager.setResult, hw, Option.pure_def, Option.bind_eq_bind,
    Option.some_bind]
  refine ⟨_, rfl, ?_⟩
  split_ifs <;> exact ⟨rfl, rfl, rfl, rfl, rfl, rfl⟩

/-- C23: for a progress `f` in [0,1] and registered current and next weathers,
`transition f` returns; the result takes storm flag, particle effect, rain
effect, rain speed, rain frequency and ambient loop sound id from the current
weather when `f < 0.5` and from the next weather when `f >= 0.5`; ambient sound
volume and effect fade are both `1 - 2f` when `f < 0.5` and `2 (f - 0.5)` when
`f >= 0.5`, so they lie in [0,1], are 1 at `f = 0` and `f = 1` and 0 at
`f = 0.5`. -/
theorem transition_halves (m : WeatherManager) (f : ℚ) (a b : Weather)
    (ha : m.findWeather m.mCurrentWeather = some a)
    (hb : m.findWeather m.mNextWeather = some b) (h0 : 0 ≤ f) (h1 : f ≤ 1) :
    ∃ m2, m.transition f = some m2 ∧
      (f < 1 / 2 →
        m2.mResult.mIsStorm = a.mIsStorm ∧
        m2.mResult.mParticleEffect = a.mParticleEffect ∧
        m2.mResult.mRainEffect = a.mRainEffect ∧
        m2.mResult.mRainSpeed = a.mRainSpeed ∧
        m2.mResult.mRainFrequency = a.mRainFrequency ∧
        m2.mResult.mAmbientLoopSoundID = a.mAmbientLoopSoundID ∧
        m2.mResult.mAmbientSoundVolume = 1 - 2 * f ∧
        m2.mResult.mEffectFade = 1 - 2 * f) ∧
      (1 / 2 ≤ f →
        m2.mResult.mIsStorm = b.mIsStorm ∧
        m2.mResult.mParticleEffect = b.mParticleEffect ∧
        m2.mResult.mRainEffect = b.mRainEffect ∧
        m2.mResult.mRainSpeed = b.mRainSpeed ∧
        m2.mResult.mRainFrequency = b.mRainFrequency ∧
        m2.mResult.mAmbientLoopSoundID = b.mAmbientLoopSoundID ∧
        m2.mResult.mAmbientSoundVolume = 2 * (f - 1 / 2) ∧
        m2.mResult.mEffectFade = 2 * (f - 1 / 2)) ∧
      (0 ≤ m2.mResult.mAmbientSoundVolume ∧ m2.mResult.mAmbientSoundVolume ≤ 1) ∧
      (0 ≤ m2.mResult.mEffectFade ∧ m2.mResult.mEffectFade ≤ 1) ∧
      (f = 0 → m2.mResult.mAmbientSoundVolume = 1 ∧ m2.mResult.mEffectFade = 1) ∧
      (f = 1 → m2.mResult.mAmbientSoundVolume = 1 ∧ m2.mResult.mEffectFade = 1) ∧
      (f = 1 / 2 → m2.mResult.mAmbientSoundVolume = 0 ∧ m2.mResult.mEffectFade = 0) := by
  obtain ⟨r1, hr1, a1, a2, a3, a4, a5, a6⟩ := setResult_attributes m m.mCurrentWeather a ha
  have hb1 : ({ m with mResult := r1 } : WeatherManager).findWeather m.mNextWeather = some b := hb
  obtain ⟨r2, hr2, b1, b2, b3, b4, b5, b6⟩ :=
    setResult_attributes { m with mResult := r1 } m.mNextWeather b hb1
  have hb2 : ({ m with mResult := r2 } : WeatherManager).findWeather m.mNextWeather = some b := hb
  have key : ∃ m2, m.transition f = some m2 ∧
      (f < 1 / 2 →
        m2.mResult.mIsStorm = r1.mIsStorm ∧
        m2.mResult.mParticleEffect = r1.mParticleEffect ∧
        m2.mResult.mRainEffect = r1.mRainEffect ∧
        m2.mResult.mRainSpeed = r1.mRainSpeed ∧
        m2.mResult.mRainFrequency = r1.mRainFrequency ∧
        m2.mResult.mAmbientLoopSoundID = r1.mAmbientLoopSoundID ∧
        m2.mResult.mAmbientSoundVolume = 1 - f * 2 ∧
        m2.mResult.mEffectFade = 1 - f * 2) ∧
      (¬ f < 1 / 2 →
        m2.mResult.mIsStorm = r2.mIsStorm ∧
        m2.mResult.mParticleEffect = r2.mParticleEffect ∧
        m2.mResult.mRainEffect = r2.mRainEffect ∧
        m2.mResult.mRainSpeed = r2.mRainSpeed ∧
        m2.mResult.mRainFrequency = r2.mRainFrequency ∧
        m2.mResult.mAmbientLoopSoundID = r2.mAmbientLoopSoundID ∧
        m2.mResult.mAmbientSoundVolume = 2 * (f - 1 / 2) ∧
        m2.mResult.mEffectFade = 2 * (f - 1 / 2)) := by
    simp only [WeatherManager.transition, hr1, hr2, hb2, Option.pure_def, Option.bind_eq_bind,
      Option.some_bind]
    refine ⟨_, rfl, ?_, ?_⟩
    · intro hf
      rw [if_pos hf]
      exact ⟨rfl, rfl, rfl, rfl, rfl, rfl, rfl, rfl⟩
    · intro hf
      rw [if_neg hf]
      exact ⟨rfl, rfl, rfl, rfl, rfl, rfl, rfl, rfl⟩
  obtain ⟨m2, hm2, k1, k2⟩ := key
  have hvol : (f < 1 / 2 → m2.mResult.mAmbientSoundVolume = 1 - 2 * f ∧
        m2.mResult.mEffectFade = 1 - 2 * f) ∧
      (1 / 2 ≤ f → m2.mResult.mAmbientSoundVolume = 2 * (f - 1 / 2) ∧
        m2.mResult.mEffectFade = 2 * (f - 1 / 2)) := by
    constructor
    · intro hf
      obtain ⟨_, _, _, _, _, _, v, e⟩ := k1 hf
      exact ⟨by rw [v]; ring, by rw [e]; ring⟩
    · intro hf
      obtain ⟨_, _, _, _, _, _, v, e⟩ := k2 (not_lt.mpr hf)
      exact ⟨v, e⟩
  refine ⟨m2, hm2, ?_, ?_, ?_, ?_, ?_, ?_, ?_⟩
  · intro hf
    obtain ⟨s1, s2, s3, s4, s5, s6, _, _⟩ := k1 hf
    exact ⟨s1.trans a1, s2.trans a2, s3.trans a3, s4.trans a4, s5.trans a5, s6.trans a6,
      (hvol.1 hf).1, (hvol.1 hf).2⟩
  · intro hf
    obtain ⟨s1, s2, s3, s4, s5, s6, _, _⟩ := k2 (not_lt.mpr hf)
    exact ⟨s1.trans b1, s2.trans b2, s3.trans b3, s4.trans b4, s5.trans b5, s6.trans b6,
      (hvol.2 hf).1, (hvol.2 hf).2⟩
  · rcases lt_or_le f (1 / 2) with hf | hf
    · rw [(hvol.1 hf).1]
      constructor <;> linarith
    · rw [(hvol.2 hf).1]
      constructor <;> linarith
  · rcases lt_or_le f (1 / 2) with hf | hf
    · rw [(hvol.1 hf).2]
      constructor <;> linarith
    · rw [(hvol.2 hf).2]
      constructor <;> linarith
  · intro hf
    have hlt : f < 1 / 2 := by rw [hf]; norm_num
    rw [(hvol.1 hlt).1, (hvol.1 hlt).2, hf]
    norm_num
  · intro hf
    have hge : 1 / 2 ≤ f := by rw [hf]; norm_num
    rw [(hvol.2 hge).1, (hvol.2 hge).2, hf]
    norm_num
  · intro hf
    have hge : 1 / 2 ≤ f := le_of_eq hf.symm
    rw [(hvol.2 hge).1, (hvol.2 hge).2, hf]
    norm_num

/-- C23, witness: half-way through the transition from "clear" to "rain" the
ambient loop is that of "rain", at volume 0. -/
theorem transition_halves_witness :
    ∃ m2, (clearToRain 10).transition (1 / 2) = some m2 ∧
      m2.mResult.mAmbientLoopSoundID = "rain" ∧ m2.mResult.mAmbientSoundVolume = 0 := by
  obtain ⟨m2, hm2, _, h2, _, _, _, _, h7⟩ := transition_halves (clearToRain 10) (1 / 2)
    (Weather.new "Clear" unitFallback 0 1 "" "") (Weather.new "Rain" unitFallback 0 1 "rain" "")
    rfl rfl (by norm_num) (by norm_num)
  obtain ⟨_, _, _, _, _, hs, _, _⟩ := h2 (le_refl _)
  exact ⟨m2, hm2, hs, (h7 rfl).1⟩

/-! ## The night fade and the phases of `setResult` -/

/-- C24: for a registered weather `setResult` returns, and the night-fade
value of the result is 1 in the night range, `(sunriseTime - hour) / 0.5` in
the sunrise fade-in sub-branch, `(hour - (dayEnd + 1)) / 2` in the sunset
fade-out sub-branch, and the value it had before the call in the sunrise
fade-out sub-branch, the day range and the sunset fade-in sub-branch. -/
theorem setResult_nightFade (m : WeatherManager) (weatherType : String) (w : Weather)
    (hw : m.findWeather weatherType = some w) :
    ∃ m2, m.setResult weatherType = some m2 ∧
      m2.mResult.mNightFade =
        (if m.mHour ≤ m.mNightEnd ∨ m.mHour ≥ m.mNightStart + 1 then 1
        else if m.mHour ≥ m.mNightEnd ∧ m.mHour ≤ m.mDayStart + 1 then
          (if m.mHour ≤ m.mSunriseTime then (m.mSunriseTime - m.mHour) / (1 / 2)
          else m.mResult.mNightFade)
        else if m.mHour ≥ m.mDayStart + 1 ∧ m.mHour ≤ m.mDayEnd - 1 then
          m.mResult.mNightFade
        else if m.mHour ≥ m.mDayEnd - 1 ∧ m.mHour ≤ m.mNightStart + 1 then
          (if m.mHour ≤ m.mDayEnd + 1 then m.mResult.mNightFade
          else (m.mHour - (m.mDayEnd + 1)) / 2)
        else m.mResult.mNightFade) := by
  simp only [WeatherManager.setResult, hw, Option.pure_def, Option.bind_eq_bind,
    Option.some_bind]
  refine ⟨_, rfl, ?_⟩
  split_ifs <;> rfl

/-- C24, witness: the constructed manager is at hour 14, in its night range,
and the night-fade value of the result is 1. -/
theorem setResult_nightFade_witness :
    ∃ m2, freshManager.setResult "clear" = some m2 ∧ m2.mResult.mNightFade = 1 := by
  obtain ⟨m2, hm2, hfade⟩ := setResult_nightFade freshManager "clear"
    (Weather.new "Clear" unitFallback 0 1 "" "") rfl
  have eH : freshManager.mHour = 14 := rfl
  have eNS : freshManager.mNightStart = 1 + 1 := rfl
  have hnight : freshManager.mHour ≤ freshManager.mNightEnd ∨
      freshManager.mHour ≥ freshManager.mNightStart + 1 :=
    Or.inr (by rw [eH, eNS]; norm_num)
  rw [if_pos hnight] at hfade
  exact ⟨m2, hm2, hfade⟩

/-- C27: for a registered weather, every hour and every values of the four
derived hours, `setResult` returns and one of its four phase branches is
taken: when the night, the sunrise and the day condition fail, the sunset
condition holds. The fog, ambient, sun and sky colours of the result are the
night or day colours of the profile or an interpolation of two of its phase
colours, and they are the same whatever the result held before the call. -/
theorem setResult_phase_taken (m : WeatherManager) (weatherType : String) (w : Weather)
    (hw : m.findWeather weatherType = some w) :
    (¬ (m.mHour ≤ m.mNightEnd ∨ m.mHour ≥ m.mNightStart + 1) →
        ¬ (m.mHour ≥ m.mNightEnd ∧ m.mHour ≤ m.mDayStart + 1) →
        ¬ (m.mHour ≥ m.mDayStart + 1 ∧ m.mHour ≤ m.mDayEnd - 1) →
        m.mHour ≥ m.mDayEnd - 1 ∧ m.mHour ≤ m.mNightStart + 1) ∧
      ∃ m2, m.setResult weatherType = some m2 ∧
        m2.mResult.colours =
          (if m.mHour ≤ m.mNightEnd ∨ m.mHour ≥ m.mNightStart + 1 then w.nightColours
          else if m.mHour ≥ m.mNightEnd ∧ m.mHour ≤ m.mDayStart + 1 then
            (if m.mHour ≤ m.mSunriseTime then
              PhaseColours.lerp w.sunriseColours w.nightColours
                ((m.mSunriseTime - m.mHour) / (1 / 2))
            else
              PhaseColours.lerp w.sunriseColours w.dayColours ((m.mHour - m.mSunriseTime) / 3))
          else if m.mHour ≥ m.mDayStart + 1 ∧ m.mHour ≤ m.mDayEnd - 1 then w.dayColours
          else
            (if m.mHour ≤ m.mDayEnd + 1 then
              PhaseColours.lerp w.sunsetColours w.dayColours ((m.mDayEnd + 1 - m.mHour) / 2)
            else
              PhaseColours.lerp w.sunsetColours w.nightColours
                ((m.mHour - (m.mDayEnd + 1)) / 2))) ∧
        ∀ before : WeatherResult,
          ∃ m3, ({ m with mResult := before } : WeatherManager).setResult weatherType = some m3 ∧
            m3.mResult.colours = m2.mResult.colours := by
  have hexh : ¬ (m.mHour ≤ m.mNightEnd ∨ m.mHour ≥ m.mNightStart + 1) →
      ¬ (m.mHour ≥ m.mNightEnd ∧ m.mHour ≤ m.mDayStart + 1) →
      ¬ (m.mHour ≥ m.mDayStart + 1 ∧ m.mHour ≤ m.mDayEnd - 1) →
      m.mHour ≥ m.mDayEnd - 1 ∧ m.mHour ≤ m.mNightStart + 1 := by
    intro h1 h2 h3
    push_neg at h1
    have h4 : m.mDayStart + 1 < m.mHour := by
      by_contra hc
      exact h2 ⟨le_of_lt h1.1, not_lt.mp hc⟩
    have h5 : m.mDayEnd - 1 < m.mHour := by
      by_contra hc
      exact h3 ⟨le_of_lt h4, not_lt.mp hc⟩
    exact ⟨le_of_lt h5, le_of_lt h1.2⟩
  have hform : ∀ before : WeatherResult,
      ∃ m3, ({ m with mResult := before } : WeatherManager).setResult weatherType = some m3 ∧
        m3.mResult.colours =
          (if m.mHour ≤ m.mNightEnd ∨ m.mHour ≥ m.mNightStart + 1 then w.nightColours
          else if m.mHour ≥ m.mNightEnd ∧ m.mHour ≤ m.mDayStart + 1 then
            (if m.mHour ≤ m.mSunriseTime then
              PhaseColours.lerp w.sunriseColours w.nightColours
                ((m.mSunriseTime - m.mHour) / (1 / 2))
            else
              PhaseColours.lerp w.sunriseColours w.dayColours ((m.mHour - m.mSunriseTime) / 3))
          else if m.mHour ≥ m.mDayStart + 1 ∧ m.mHour ≤ m.mDayEnd - 1 then w.dayColours
          else
            (if m.mHour ≤ m.mDayEnd + 1 then
              PhaseColours.lerp w.sunsetColours w.dayColours ((m.mDayEnd + 1 - m.mHour) / 2)
            else
              PhaseColours.lerp w.sunsetColours w.nightColours
                ((m.mHour - (m.mDayEnd + 1)) / 2))) := by
    intro before
    have hw2 : ({ m with mResult := before } : WeatherManager).findWeather weatherType
        = some w := hw
    simp only [WeatherManager.setResult, hw2, Option.pure_def, Option.bind_eq_bind,
      Option.some_bind]
    refine ⟨_, rfl, ?_⟩
    by_cases h1 : m.mHour ≤ m.mNightEnd ∨ m.mHour ≥ m.mNightStart + 1
    · simp only [h1, if_true]
      rfl
    simp only [h1, if_false]
    by_cases h2 : m.mHour ≥ m.mNightEnd ∧ m.mHour ≤ m.mDayStart + 1
    · simp only [h2, and_self, if_true]
      by_cases h3 : m.mHour ≤ m.mSunriseTime
      · simp only [h3, if_true]
        rfl
      · simp only [h3, if_false]
        rfl
    simp only [h2, if_false]
    by_cases h4 : m.mHour ≥ m.mDayStart + 1 ∧ m.mHour ≤ m.mDayEnd - 1
    · simp only [h4, and_self, if_true]
      rfl
    simp only [h4, if_false]
    have h5 := hexh h1 h2 h4
    simp only [h5, and_self, if_true]
    by_cases h6 : m.mHour ≤ m.mDayEnd + 1
    · simp only [h6, if_true]
      rfl
    · simp only [h6, if_false]
      rfl
  refine ⟨hexh, ?_⟩
  obtain ⟨m2, hm2, hcol⟩ := hform m.mResult
  refine ⟨m2, hm2, hcol, ?_⟩
  intro before
  obtain ⟨m3, hm3, hcol3⟩ := hform before
  exact ⟨m3, hm3, hcol3.trans hcol.symm⟩

/-- C27, witness: the constructed manager at hour 14 resolves the night
colours of its "clear" profile. -/
theorem setResult_phase_taken_witness :
    ∃ m2, freshManager.setResult "clear" = some m2 ∧
      m2.mResult.colours = (Weather.new "Clear" unitFallback 0 1 "" "").nightColours := by
  obtain ⟨_, m2, hm2, hcol, _⟩ := setResult_phase_taken freshManager "clear"
    (Weather.new "Clear" unitFallback 0 1 "" "") rfl
  have eH : freshManager.mHour = 14 := rfl
  have eNS : freshManager.mNightStart = 1 + 1 := rfl
  have hnight : freshManager.mHour ≤ freshManager.mNightEnd ∨
      freshManager.mHour ≥ freshManager.mNightStart + 1 :=
    Or.inr (by rw [eH, eNS]; norm_num)
  rw [if_pos hnight] at hcol
  exact ⟨m2, hm2, hcol⟩

/-! ## The sun arc -/

/-- C29: for an hour, a sunrise time and a night start in [0,24), the divisor
of the branch of the sun arc that is taken (the day duration when the adjusted
hour is before the adjusted night start, the night duration otherwise) is
strictly positive, the angle is pi times the elapsed part of the arc over that
divisor, and this fraction lies in [0,1); so no division by zero occurs, also
when the night start equals the sunrise time. -/
theorem sunArc_fraction_range (m : WeatherManager)
    (hh0 : 0 ≤ m.mHour) (hh1 : m.mHour < 24)
    (hs0 : 0 ≤ m.mSunriseTime) (hs1 : m.mSunriseTime < 24)
    (hn0 : 0 ≤ m.mNightStart) (hn1 : m.mNightStart < 24) :
    0 < m.sunArc.divisor ∧
      m.sunArc.thetaOverPi =
        (if !m.sunArc.is_night then m.sunArc.adjustedHour - m.mSunriseTime
          else m.sunArc.adjustedHour - m.sunArc.adjustedNightStart) / m.sunArc.divisor ∧
      0 ≤ m.sunArc.thetaOverPi ∧ m.sunArc.thetaOverPi < 1 := by
  have _hbounds := And.intro hs0 hn0
  simp only [WeatherManager.sunArc, SunArc.divisor]
  by_cases hH : m.mHour < m.mSunriseTime <;> by_cases hN : m.mNightStart < m.mSunriseTime <;>
    simp only [hH, hN, if_true, if_false]
  all_goals
    split_ifs with hnight
    · simp only [Bool.not_eq_true', decide_eq_false_iff_not, not_le] at hnight
      refine ⟨by linarith, rfl, div_nonneg (by linarith) (by linarith), ?_⟩
      rw [div_lt_one (by linarith)]
      linarith
    · simp only [Bool.not_eq_true', decide_eq_false_iff_not, not_le, not_lt] at hnight
      refine ⟨by linarith, rfl, div_nonneg (by linarith) (by linarith), ?_⟩
      rw [div_lt_one (by linarith)]
      linarith

/-- C29, witness: at hour 23 with sunrise and night start both at 6 the night
branch is taken with the divisor 24. -/
theorem sunArc_fraction_range_witness :
    0 < noDayManager.sunArc.divisor ∧ noDayManager.sunArc.thetaOverPi < 1 := by
  have eH : noDayManager.mHour = 23 := rfl
  have eS : noDayManager.mSunriseTime = 6 := rfl
  have eN : noDayManager.mNightStart = 6 := rfl
  obtain ⟨h1, _, _, h4⟩ := sunArc_fraction_range noDayManager
    (by rw [eH]; norm_num) (by rw [eH]; norm_num) (by rw [eS]; norm_num)
    (by rw [eS]; norm_num) (by rw [eN]; norm_num) (by rw [eN]; norm_num)
  exact ⟨h1, h4⟩

/-! ## The thunder timers -/

/-- What `setResult` returns differs from its input in `mResult` only. -/
theorem setResult_shape (m m2 : WeatherManager) (weatherType : String)
    (h : m.setResult weatherType = some m2) : ∃ r, m2 = { m with mResult := r } := by
  cases hw : m.findWeather weatherType with
  | none => simp [WeatherManager.setResult, hw] at h
  | some w =>
    obtain ⟨r, hr⟩ := setResult_of_find m weatherType w hw
    rw [hr] at h
    injection h with h
    exact ⟨r, h.symm⟩

theorem setResult_none (m : WeatherManager) (weatherType : String)
    (h : m.findWeather weatherType = none) : m.setResult weatherType = none := by
  simp [WeatherManager.setResult, h]

/-- What `transition` returns differs from its input in `mResult` only. -/
theorem transition_shape (m m2 : WeatherManager) (factor : ℚ)
    (h : m.transition factor = some m2) : ∃ r, m2 = { m with mResult := r } := by
  cases ha : m.findWeather m.mCurrentWeather with
  | none => simp [WeatherManager.transition, WeatherManager.setResult, ha] at h
  | some a =>
    cases hb : m.findWeather m.mNextWeather with
    | none =>
      obtain ⟨r1, hr1⟩ := setResult_of_find m m.mCurrentWeather a ha
      have hb1 : ({ m with mResult := r1 } : WeatherManager).findWeather m.mNextWeather
          = none := hb
      have hnone : m.transition factor = none := by
        simp only [WeatherManager.transition, hr1, Option.bind_eq_bind, Option.some_bind,
          setResult_none _ _ hb1, Option.none_bind]
      rw [hnone] at h
      exact absurd h (by simp)
    | some b =>
      obtain ⟨r, hr⟩ := transition_of_find m factor a b ha hb
      rw [hr] at h
      injection h with h
      exact ⟨r, h.symm⟩

/-- What the result step of `update` returns differs from its input in
`mResult` only. -/
theorem updateResult_shape (m m2 : WeatherManager) (h : m.updateResult = some m2) :
    ∃ r, m2 = { m with mResult := r } := by
  unfold WeatherManager.updateResult at h
  split_ifs at h
  · simp only [Option.bind_eq_bind, Option.bind_eq_some] at h
    obtain ⟨cur, _, h⟩ := h
    exact transition_shape m m2 _ h
  · exact setResult_shape m m2 _ h

/-- On an exterior tick `update` is, when it returns, the chain of its steps:
the consumption of the time-passed, `switchToNextWeather`, the transition
step, the result step, the storm step, the thunder step and the sound step. -/
theorem update_exterior_steps (m m2 : WeatherManager) (world : World) (duration : ℚ)
    (paused : Bool) (hext : (world.isCellExterior || world.isCellQuasiExterior) = true)
    (h : m.update world duration paused = some m2) :
    ∃ m1 r,
      ({ m with mTimePassed := 0, mWeatherUpdateTime := m.mWeatherUpdateTime - m.mTimePassed }
          : WeatherManager).switchToNextWeather world false = some m1 ∧
        m2 = ((({ m1.updateTransition m.mTimePassed with mResult := r }
          : WeatherManager).updateStorm world).updateThunder world duration
            paused).updateSound world := by
  unfold WeatherManager.update at h
  simp only [hext, Bool.not_true, Bool.false_eq_true, if_false, Option.pure_def,
    Option.bind_eq_bind, Option.bind_eq_some] at h
  obtain ⟨m1, hm1, m3, hm3, h⟩ := h
  obtain ⟨r, hr⟩ := updateResult_shape _ _ hm3
  subst hr
  injection h with h
  exact ⟨m1, r, hm1, h.symm⟩

/-- On a tick that is not exterior `update` returns after the consumption of
the time-passed and the stop of the ambient loop. -/
theorem update_interior (m : WeatherManager) (world : World) (duration : ℚ) (paused : Bool)
    (hext : (world.isCellExterior || world.isCellQuasiExterior) = false) :
    m.update world duration paused =
      some ({ m with mTimePassed := 0, mWeatherUpdateTime := m.mWeatherUpdateTime - m.mTimePassed }
        : WeatherManager).stopSounds := by
  unfold WeatherManager.update
  simp only [hext, Bool.not_false, if_true]

/-- What `setWeather` returns differs from its input in the current weather,
the next weather, the remaining transition time and the first-update flag
only. -/
theorem setWeather_shape (m m2 : WeatherManager) (weather : String) (instant : Bool)
    (h : m.setWeather weather instant = some m2) :
    ∃ cur next remaining, m2 =
      { m with
        mCurrentWeather := cur
        mNextWeather := next
        mRemainingTransitionTime := remaining
        mFirstUpdate := false } := by
  rcases setWeather_cases m weather instant with hn | ⟨cur, next, remaining, hs⟩
  · rw [hn] at h
    exact absurd h (by simp)
  · rw [hs] at h
    injection h with h
    exact ⟨cur, next, remaining, h.symm⟩

/-- What `switchToNextWeather` returns differs from its input in the current
weather, the next weather, the remaining transition time, the first-update
flag, the stored region and the countdown only. -/
theorem switchToNextWeather_shape (m m2 : WeatherManager) (world : World) (instantly : Bool)
    (h : m.switchToNextWeather world instantly = some m2) :
    ∃ cur next remaining first region countdown,
      m2 = { m with
        mCurrentWeather := cur
        mNextWeather := next
        mRemainingTransitionTime := remaining
        mFirstUpdate := first
        mCurrentRegion := region
        mWeatherUpdateTime := countdown } := by
  by_cases hext : (world.isCellExterior || world.isCellQuasiExterior) = true
  · by_cases htrigger : m.mWeatherUpdateTime ≤ 0 ∨ lowerCase world.playerRegion ≠ m.mCurrentRegion
    · simp only [WeatherManager.switchToNextWeather, hext, htrigger, if_true] at h
      obtain ⟨cur, next, remaining, hm2⟩ := setWeather_shape _ _ _ _ h
      exact ⟨_, _, _, _, _, _, hm2⟩
    · simp only [WeatherManager.switchToNextWeather, hext, htrigger, if_true, if_false] at h
      injection h with h
      exact ⟨_, _, _, _, _, _, h.symm⟩
  · simp only [WeatherManager.switchToNextWeather, hext, if_false] at h
    injection h with h
    exact ⟨_, _, _, _, _, _, h.symm⟩

/-- The thunder step does nothing when the simulation is paused, the current
weather is not "thunderstorm", or a transition is pending. -/
theorem updateThunder_inactive (m : WeatherManager) (world : World) (duration : ℚ)
    (paused : Bool)
    (h : paused = true ∨ m.mCurrentWeather ≠ "thunderstorm" ∨ m.mNextWeather ≠ "") :
    m.updateThunder world duration paused = m := by
  unfold WeatherManager.updateThunder
  rcases h with h | h | h
  · simp [h]
  · have hc : ¬ (m.mCurrentWeather = "thunderstorm" ∧ m.mNextWeather = "") := fun hc => h hc.1
    simp only [hc, if_false, ite_self]
  · have hc : ¬ (m.mCurrentWeather = "thunderstorm" ∧ m.mNextWeather = "") := fun hc => h hc.2
    simp only [hc, if_false, ite_self]

/-- The thunder step while a flash is in progress: the flash timer is
decreased by the duration, the chance threshold is rolled anew and the
accumulated chance is set to 0, whatever the decreased flash timer is. -/
theorem updateThunder_flash (m : WeatherManager) (world : World) (duration : ℚ)
    (hcur : m.mCurrentWeather = "thunderstorm") (hnext : m.mNextWeather = "")
    (hflash : m.mThunderFlash > 0) :
    (m.updateThunder world duration false).mThunderFlash = m.mThunderFlash - duration ∧
      (m.updateThunder world duration false).mThunderChanceNeeded = (world.rollThunder : ℚ) ∧
      (m.updateThunder world duration false).mThunderChance = 0 ∧
      (m.updateThunder world duration false).mThunderSoundDelay =
        (if m.mThunderSoundDelay - duration ≤ 0 then 1000
          else m.mThunderSoundDelay - duration) := by
  simp only [WeatherManager.updateThunder, hcur, hnext, hflash, and_self, if_true,
    Bool.not_false]
  split_ifs <;> refine ⟨?_, ?_, ?_, ?_⟩ <;> first | rfl | trivial

/-- On an exterior tick on which `update` returns, the thunder timers of the
result are those of the thunder step applied to a state that has the thunder
timers and the configured flash duration of the state before the tick and the
current and next weather of the state after it. -/
theorem update_thunder_step (m m2 : WeatherManager) (world : World) (duration : ℚ)
    (paused : Bool) (hext : (world.isCellExterior || world.isCellQuasiExterior) = true)
    (h : m.update world duration paused = some m2) :
    ∃ m4 : WeatherManager,
      m4.mThunderFlash = m.mThunderFlash ∧ m4.mThunderChance = m.mThunderChance ∧
      m4.mThunderChanceNeeded = m.mThunderChanceNeeded ∧
      m4.mThunderSoundDelay = m.mThunderSoundDelay ∧
      m4.mThunderThreshold = m.mThunderThreshold ∧
      m4.mCurrentWeather = m2.mCurrentWeather ∧ m4.mNextWeather = m2.mNextWeather ∧
      m2.thunderState = (m4.updateThunder world duration paused).thunderState := by
  obtain ⟨m1, r, hm1, hm2⟩ := update_exterior_steps m m2 world duration paused hext h
  obtain ⟨cur, next, remaining, first, region, countdown, hshape⟩ :=
    switchToNextWeather_shape _ _ _ _ hm1
  obtain ⟨m4, hm4⟩ : ∃ m4 : WeatherManager, m4 =
      ({ m1.updateTransition m.mTimePassed with mResult := r } : WeatherManager).updateStorm
        world := ⟨_, rfl⟩
  rw [← hm4] at hm2
  have htrans : (m1.updateTransition m.mTimePassed).mThunderFlash = m.mThunderFlash ∧
      (m1.updateTransition m.mTimePassed).mThunderChance = m.mThunderChance ∧
      (m1.updateTransition m.mTimePassed).mThunderChanceNeeded = m.mThunderChanceNeeded ∧
      (m1.updateTransition m.mTimePassed).mThunderSoundDelay = m.mThunderSoundDelay ∧
      (m1.updateTransition m.mTimePassed).mThunderThreshold = m.mThunderThreshold := by
    rw [hshape]
    simp only [WeatherManager.updateTransition]
    split_ifs <;> exact ⟨rfl, rfl, rfl, rfl, rfl⟩
  have hstorm : m4.mThunderFlash = m.mThunderFlash ∧ m4.mThunderChance = m.mThunderChance ∧
      m4.mThunderChanceNeeded = m.mThunderChanceNeeded ∧
      m4.mThunderSoundDelay = m.mThunderSoundDelay ∧
      m4.mThunderThreshold = m.mThunderThreshold := by
    obtain ⟨t1, t2, t3, t4, t5⟩ := htrans
    rw [hm4]
    simp only [WeatherManager.updateStorm]
    split_ifs <;> exact ⟨t1, t2, t3, t4, t5⟩
  obtain ⟨u1, u2, _⟩ := updateThunder_frame m4 world duration paused
  obtain ⟨v1, v2, _⟩ := updateSound_frame (m4.updateThunder world duration paused) world
  have hsound : m2.thunderState = (m4.updateThunder world duration paused).thunderState := by
    rw [hm2]
    simp only [WeatherManager.updateSound, WeatherManager.stopSounds,
      WeatherManager.thunderState]
    split_ifs <;> rfl
  refine ⟨m4, hstorm.1, hstorm.2.1, hstorm.2.2.1, hstorm.2.2.2.1, hstorm.2.2.2.2, ?_, ?_, hsound⟩
  · rw [hm2, v1, u1]
  · rw [hm2, v2, u2]

/-- C25: on a tick that is not exterior `update` returns and the thunder
sub-state (flash timer, accumulated chance, chance threshold needed,
sound-repeat delay) is unchanged; on an exterior tick from which `update`
returns with the simulation paused, or with a current weather other than
"thunderstorm", or with a transition still pending, the thunder sub-state is
unchanged as well. -/
theorem update_thunder_unchanged (m : WeatherManager) (world : World) (duration : ℚ)
    (paused : Bool) :
    ((world.isCellExterior || world.isCellQuasiExterior) = false →
        ∃ m2, m.update world duration paused = some m2 ∧ m2.thunderState = m.thunderState) ∧
      ((world.isCellExterior || world.isCellQuasiExterior) = true →
        ∀ m2, m.update world duration paused = some m2 →
          paused = true ∨ m2.mCurrentWeather ≠ "thunderstorm" ∨ m2.mNextWeather ≠ "" →
          m2.thunderState = m.thunderState) := by
  constructor
  · intro hext
    rw [update_interior m world duration paused hext]
    refine ⟨_, rfl, ?_⟩
    simp only [WeatherManager.stopSounds, WeatherManager.thunderState]
    split_ifs <;> rfl
  · intro hext m2 h hinactive
    obtain ⟨m4, e1, e2, e3, e4, _, e6, e7, hstate⟩ :=
      update_thunder_step m m2 world duration paused hext h
    rw [← e6, ← e7] at hinactive
    rw [hstate, updateThunder_inactive m4 world duration paused hinactive]
    simp only [WeatherManager.thunderState, e1, e2, e3, e4]

theorem flashingManager_update (duration : ℚ) (paused : Bool) :
    ∃ m2, flashingManager.update thunderWorld duration paused = some m2 ∧
      m2.mCurrentWeather = "thunderstorm" ∧ m2.mNextWeather = "" := by
  have eW : flashingManager.mWeatherUpdateTime = 1 * 3600 := rfl
  have eT : flashingManager.mTimePassed = 0 := rfl
  have hreg : ∀ name, name = flashingManager.mCurrentWeather ∨
      (name = flashingManager.mNextWeather ∧ name ≠ "") →
      ∃ w, flashingManager.findWeather name = some w := by
    rintro name (rfl | ⟨rfl, hne⟩)
    · exact ⟨_, rfl⟩
    · exact absurd rfl hne
  obtain ⟨m2, hm2, _, _, _, _, _, f6, f7, _⟩ :=
    update_without_request flashingManager thunderWorld duration paused rfl (by decide)
      (by rw [eW, eT]; norm_num) hreg
  obtain ⟨_, _, _, _, _, t6, _, _⟩ :=
    updateTransition_cases flashingManager flashingManager.mTimePassed
  obtain ⟨k1, k2, _⟩ := t6 rfl
  exact ⟨m2, hm2, f6.trans k1, f7.trans k2⟩

/-- C25, witness: a paused exterior tick in the middle of a flash session of a
stable thunderstorm leaves the thunder sub-state as it was. -/
theorem update_thunder_unchanged_witness :
    ∃ m2, flashingManager.update thunderWorld 1 true = some m2 ∧
      m2.thunderState = (1, 80, 80, 1 / 4) := by
  obtain ⟨m2, hm2, _, _⟩ := flashingManager_update 1 true
  exact ⟨m2, hm2,
    (update_thunder_unchanged flashingManager thunderWorld 1 true).2 rfl m2 hm2 (Or.inl rfl)⟩

/-- C26: a stable thunderstorm at the start of a flash session (flash timer 1,
chance threshold 80) and an unpaused exterior tick of 0.25 s with the roll 7:
after the tick the flash timer is 0.75, still positive, and yet the chance
threshold has been rolled anew to 7 and the accumulated chance reset to 0. -/
theorem update_rerolls_during_flash :
    flashingManager.mThunderFlash = 1 ∧ flashingManager.mThunderChanceNeeded = 80 ∧
      ∃ m2, flashingManager.update thunderWorld (1 / 4) false = some m2 ∧
        m2.mCurrentWeather = "thunderstorm" ∧ m2.mNextWeather = "" ∧
        m2.mThunderFlash = 3 / 4 ∧ 0 < m2.mThunderFlash ∧
        m2.mThunderChanceNeeded = 7 ∧
        m2.mThunderChanceNeeded ≠ flashingManager.mThunderChanceNeeded ∧
        m2.mThunderChance = 0 := by
  refine ⟨rfl, rfl, ?_⟩
  obtain ⟨m2, hm2, hcur, hnext⟩ := flashingManager_update (1 / 4) false
  obtain ⟨m4, e1, _, _, _, _, e6, e7, hstate⟩ :=
    update_thunder_step flashingManager m2 thunderWorld (1 / 4) false rfl hm2
  have eF : flashingManager.mThunderFlash = 1 := rfl
  have eN : flashingManager.mThunderChanceNeeded = 80 := rfl
  obtain ⟨g1, g2, g3, _⟩ := updateThunder_flash m4 thunderWorld (1 / 4) (e6.trans hcur)
    (e7.trans hnext) (by rw [e1, eF]; norm_num)
  have hflash : m2.mThunderFlash = 3 / 4 := by
    have h := congrArg (fun s => s.1) hstate
    simp only [WeatherManager.thunderState] at h
    rw [h, g1, e1, eF]
    norm_num
  have hchance : m2.mThunderChance = 0 := by
    have h := congrArg (fun s => s.2.1) hstate
    simp only [WeatherManager.thunderState] at h
    rw [h, g3]
  have hneeded : m2.mThunderChanceNeeded = 7 := by
    have h := congrArg (fun s => s.2.2.1) hstate
    simp only [WeatherManager.thunderState] at h
    rw [h, g2]
    rfl
  refine ⟨m2, hm2, hcur, hnext, hflash, by rw [hflash]; norm_num, hneeded, ?_, hchance⟩
  rw [hneeded, eN]
  norm_num

/-! ## The invariant of the transition engine -/

theorem transitionSeconds_pos (w : Weather) (h : 0 < w.mTransitionDelta) :
    0 < w.transitionSeconds := by
  unfold Weather.transitionSeconds
  positivity

theorem remainingInRange_iff (m : WeatherManager) :
    m.remainingInRange ↔
      (m.mNextWeather ≠ "" →
        ∃ w, StrMap.find m.mWeatherSettings m.mCurrentWeather = some w ∧
          0 ≤ m.mRemainingTransitionTime ∧ m.mRemainingTransitionTime ≤ w.transitionSeconds) := by
  unfold WeatherManager.remainingInRange WeatherManager.findWeather
  constructor
  · intro h hnext
    have h2 := h hnext
    cases hw : StrMap.find m.mWeatherSettings m.mCurrentWeather with
    | none => rw [hw] at h2; exact absurd h2 id
    | some w => rw [hw] at h2; exact ⟨w, rfl, h2⟩
  · intro h hnext
    obtain ⟨w, hw, h2⟩ := h hnext
    rw [hw]
    exact h2

/-- The invariant reads the profiles, the current weather, the next weather
and the remaining transition time only. -/
theorem remainingInRange_congr (m m2 : WeatherManager)
    (hs : m2.mWeatherSettings = m.mWeatherSettings)
    (hc : m2.mCurrentWeather = m.mCurrentWeather) (hn : m2.mNextWeather = m.mNextWeather)
    (hr : m2.mRemainingTransitionTime = m.mRemainingTransitionTime)
    (h : m.remainingInRange) : m2.remainingInRange := by
  rw [remainingInRange_iff] at h ⊢
  rw [hs, hc, hn, hr]
  exact h

/-- After `setWeather` the profiles and the time-passed are unchanged, and
either the next weather is empty or the remaining transition time is the
`transitionSeconds` of the registered current weather. -/
theorem setWeather_pending (m m2 : WeatherManager) (weather : String) (instant : Bool)
    (h : m.setWeather weather instant = some m2) :
    m2.mWeatherSettings = m.mWeatherSettings ∧ m2.mTimePassed = m.mTimePassed ∧
      (m2.mNextWeather = "" ∨
        ∃ w, StrMap.find m2.mWeatherSettings m2.mCurrentWeather = some w ∧
          m2.mRemainingTransitionTime = w.transitionSeconds) := by
  simp only [WeatherManager.setWeather, WeatherManager.findWeather] at h
  split_ifs at h with h1 h2 h3
  · injection h with h
    subst h
    exact ⟨rfl, rfl, Or.inl h1.2⟩
  · injection h with h
    subst h
    exact ⟨rfl, rfl, Or.inl rfl⟩
  · cases ha : StrMap.find m.mWeatherSettings m.mCurrentWeather with
    | none => simp [ha] at h
    | some a =>
      simp only [ha, Option.pure_def, Option.bind_eq_bind, Option.some_bind] at h
      split_ifs at h
      · cases hb : StrMap.find m.mWeatherSettings m.mNextWeather with
        | none => simp [hb] at h
        | some b =>
          simp only [hb, Option.some_bind] at h
          injection h with h
          subst h
          exact ⟨rfl, rfl, Or.inr ⟨b, hb, rfl⟩⟩
      · injection h with h
        subst h
        exact ⟨rfl, rfl, Or.inr ⟨a, ha, rfl⟩⟩
  · cases ha : StrMap.find m.mWeatherSettings m.mCurrentWeather with
    | none => simp [ha] at h
    | some a =>
      simp only [ha, Option.pure_def, Option.bind_eq_bind, Option.some_bind] at h
      injection h with h
      subst h
      exact ⟨rfl, rfl, Or.inr ⟨a, ha, rfl⟩⟩

/-- `setWeather` preserves the invariant when all profiles have a positive
transition rate. -/
theorem setWeather_invariant (settings : StrMap Weather)
    (hpos : ∀ name w, StrMap.find settings name = some w → 0 < w.mTransitionDelta)
    (m m2 : WeatherManager) (weather : String) (instant : Bool)
    (hs : m.mWeatherSettings = settings) (ht : 0 ≤ m.mTimePassed)
    (h : m.setWeather weather instant = some m2) :
    m2.mWeatherSettings = settings ∧ 0 ≤ m2.mTimePassed ∧ m2.remainingInRange := by
  obtain ⟨e1, e2, e3⟩ := setWeather_pending m m2 weather instant h
  refine ⟨e1.trans hs, by rw [e2]; exact ht, ?_⟩
  rw [remainingInRange_iff]
  intro hnext
  rcases e3 with e3 | ⟨w, hw, hrem⟩
  · exact absurd e3 hnext
  · have hwpos : 0 < w.transitionSeconds :=
      transitionSeconds_pos w (hpos _ w (by rw [← hs, ← e1]; exact hw))
    exact ⟨w, hw, by rw [hrem]; exact le_of_lt hwpos, by rw [hrem]⟩

/-- `switchToNextWeather` preserves the invariant. -/
theorem switchToNextWeather_invariant (settings : StrMap Weather)
    (hpos : ∀ name w, StrMap.find settings name = some w → 0 < w.mTransitionDelta)
    (m m2 : WeatherManager) (world : World) (instantly : Bool)
    (hs : m.mWeatherSettings = settings) (ht : 0 ≤ m.mTimePassed) (hinv : m.remainingInRange)
    (h : m.switchToNextWeather world instantly = some m2) :
    m2.mWeatherSettings = settings ∧ 0 ≤ m2.mTimePassed ∧ m2.remainingInRange := by
  by_cases hext : (world.isCellExterior || world.isCellQuasiExterior) = true
  · by_cases htrigger : m.mWeatherUpdateTime ≤ 0 ∨ lowerCase world.playerRegion ≠ m.mCurrentRegion
    · simp only [WeatherManager.switchToNextWeather, hext, htrigger, if_true] at h
      exact setWeather_invariant settings hpos
        ({ m with
            mCurrentRegion := lowerCase world.playerRegion
            mWeatherUpdateTime := m.mHoursBetweenWeatherChanges * 3600 } : WeatherManager)
        m2 _ _ hs ht h
    · simp only [WeatherManager.switchToNextWeather, hext, htrigger, if_true, if_false] at h
      injection h with h
      subst h
      exact ⟨hs, ht, hinv⟩
  · simp only [WeatherManager.switchToNextWeather, hext, if_false] at h
    injection h with h
    subst h
    exact ⟨hs, ht, hinv⟩

/-- The transition step preserves the invariant when it consumes no negative
time. -/
theorem updateTransition_invariant (m : WeatherManager) (timePassed : ℚ)
    (hdt : 0 ≤ timePassed) (hinv : m.remainingInRange) :
    (m.updateTransition timePassed).remainingInRange := by
  obtain ⟨_, t2, _, _, _, t6, t7, t8⟩ := updateTransition_cases m timePassed
  rw [remainingInRange_iff] at hinv ⊢
  intro hnext2
  by_cases hnext : m.mNextWeather = ""
  · exact absurd (t6 hnext).2.1 hnext2
  · by_cases hneg : m.mRemainingTransitionTime - timePassed < 0
    · exact absurd (t7 hnext hneg).2.1 hnext2
    · obtain ⟨k1, _, k3⟩ := t8 hnext hneg
      obtain ⟨w, hw, _, hle⟩ := hinv hnext
      refine ⟨w, by rw [t2, k1]; exact hw, by rw [k3]; exact not_lt.mp hneg, ?_⟩
      rw [k3]
      linarith

/-- `update` preserves the invariant when the time-passed it consumes is not
negative. -/
theorem update_invariant (settings : StrMap Weather)
    (hpos : ∀ name w, StrMap.find settings name = some w → 0 < w.mTransitionDelta)
    (m m2 : WeatherManager) (world : World) (duration : ℚ) (paused : Bool)
    (hs : m.mWeatherSettings = settings) (ht : 0 ≤ m.mTimePassed) (hinv : m.remainingInRange)
    (h : m.update world duration paused = some m2) :
    m2.mWeatherSettings = settings ∧ 0 ≤ m2.mTimePassed ∧ m2.remainingInRange := by
  have hinv0 :
      ({ m with mTimePassed := 0, mWeatherUpdateTime := m.mWeatherUpdateTime - m.mTimePassed }
        : WeatherManager).remainingInRange :=
    remainingInRange_congr m _ rfl rfl rfl rfl hinv
  by_cases hext : (world.isCellExterior || world.isCellQuasiExterior) = true
  · obtain ⟨m1, r, hm1, hm2⟩ := update_exterior_steps m m2 world duration paused hext h
    obtain ⟨s1, s2, s3⟩ := switchToNextWeather_invariant settings hpos
      ({ m with mTimePassed := 0, mWeatherUpdateTime := m.mWeatherUpdateTime - m.mTimePassed }
        : WeatherManager) m1 world false hs (le_refl 0) hinv0 hm1
    have s4 := updateTransition_invariant m1 m.mTimePassed ht s3
    obtain ⟨_, t2, _, _, t5, _⟩ := updateTransition_cases m1 m.mTimePassed
    obtain ⟨a1, a2, a3, _, a5, _, _, a8⟩ := updateStorm_frame
      ({ m1.updateTransition m.mTimePassed with mResult := r } : WeatherManager) world
    obtain ⟨b1, b2, b3, _, b5, _, _, b8⟩ := updateThunder_frame
      (({ m1.updateTransition m.mTimePassed with mResult := r } : WeatherManager).updateStorm
        world) world duration paused
    obtain ⟨c1, c2, c3, _, c5, _, _, c8⟩ := updateSound_frame
      ((({ m1.updateTransition m.mTimePassed with mResult := r }
        : WeatherManager).updateStorm world).updateThunder world duration paused) world
    rw [← hm2] at c1 c2 c3 c5 c8
    refine ⟨?_, ?_, ?_⟩
    · rw [c5, b5, a5]
      exact t2.trans s1
    · rw [c8, b8, a8]
      show 0 ≤ (m1.updateTransition m.mTimePassed).mTimePassed
      rw [t5]
      exact s2
    · exact remainingInRange_congr (m1.updateTransition m.mTimePassed) m2
        (by rw [c5, b5, a5]) (by rw [c1, b1, a1]) (by rw [c2, b2, a2]) (by rw [c3, b3, a3]) s4
  · have hext2 : (world.isCellExterior || world.isCellQuasiExterior) = false := by
      simpa using hext
    rw [update_interior m world duration paused hext2] at h
    injection h with h
    subst h
    have hstop : ∀ m0 : WeatherManager,
        m0.stopSounds.mWeatherSettings = m0.mWeatherSettings ∧
        m0.stopSounds.mTimePassed = m0.mTimePassed ∧
        m0.stopSounds.mCurrentWeather = m0.mCurrentWeather ∧
        m0.stopSounds.mNextWeather = m0.mNextWeather ∧
        m0.stopSounds.mRemainingTransitionTime = m0.mRemainingTransitionTime := by
      intro m0
      simp only [WeatherManager.stopSounds]
      split_ifs <;> exact ⟨rfl, rfl, rfl, rfl, rfl⟩
    obtain ⟨d1, d2, d3, d4, d5⟩ := hstop
      ({ m with mTimePassed := 0, mWeatherUpdateTime := m.mWeatherUpdateTime - m.mTimePassed }
        : WeatherManager)
    refine ⟨d1.trans hs, by rw [d2], ?_⟩
    exact remainingInRange_congr _ _ d1 d3 d4 d5 hinv0

/-- Every operation that adds no negative time preserves the invariant. -/
theorem applyOp_invariant (settings : StrMap Weather)
    (hpos : ∀ name w, StrMap.find settings name = some w → 0 < w.mTransitionDelta)
    (m m2 : WeatherManager) (op : Op) (hop : op.addsNoNegativeTime = true)
    (hs : m.mWeatherSettings = settings) (ht : 0 ≤ m.mTimePassed) (hinv : m.remainingInRange)
    (h : m.applyOp op = some m2) :
    m2.mWeatherSettings = settings ∧ 0 ≤ m2.mTimePassed ∧ m2.remainingInRange := by
  cases op with
  | setWeather name instant =>
    exact setWeather_invariant settings hpos m m2 name instant hs ht h
  | advanceTime hours =>
    simp only [WeatherManager.applyOp] at h
    injection h with h
    subst h
    have hh : 0 ≤ hours := by simpa [Op.addsNoNegativeTime] using hop
    refine ⟨hs, ?_, remainingInRange_congr m _ rfl rfl rfl rfl hinv⟩
    show 0 ≤ m.mTimePassed + hours * 3600
    positivity
  | update world duration paused =>
    exact update_invariant settings hpos m m2 world duration paused hs ht hinv h

theorem runOps_invariant (settings : StrMap Weather)
    (hpos : ∀ name w, StrMap.find settings name = some w → 0 < w.mTransitionDelta)
    (ops : List Op) :
    ∀ (m m2 : WeatherManager), (∀ op ∈ ops, op.addsNoNegativeTime = true) →
      m.mWeatherSettings = settings → 0 ≤ m.mTimePassed → m.remainingInRange →
      m.runOps ops = some m2 →
      m2.mWeatherSettings = settings ∧ 0 ≤ m2.mTimePassed ∧ m2.remainingInRange := by
  induction ops with
  | nil =>
    intro m m2 _ hs ht hinv h
    simp only [WeatherManager.runOps] at h
    injection h with h
    subst h
    exact ⟨hs, ht, hinv⟩
  | cons op rest ih =>
    intro m m2 hops hs ht hinv h
    simp only [WeatherManager.runOps] at h
    cases h1 : m.applyOp op with
    | none => simp [h1] at h
    | some m1 =>
      simp only [h1] at h
      obtain ⟨s1, s2, s3⟩ := applyOp_invariant settings hpos m m1 op
        (hops op (List.mem_cons_self _ _)) hs ht hinv h1
      exact ih m1 m2 (fun o ho => hops o (List.mem_cons_of_mem _ ho)) s1 s2 s3 h

/-- C28: in every state reached from the constructed manager by `setWeather`
calls, advances of the simulated time by non-negative hours and `update`
ticks, with all profiles having a positive transition rate, a pending
transition has a registered current weather and a remaining transition time
between 0 and the `transitionSeconds` of the current weather; hence the
progress `1 - remaining / transitionSeconds` lies in [0,1]. -/
theorem engine_remaining_in_range (fallback : Fallback) (fStromWindSpeed : ℚ)
    (result0 : WeatherResult) (ops : List Op) (m : WeatherManager)
    (hpos : ∀ name w,
      (WeatherManager.new fallback fStromWindSpeed result0).findWeather name = some w →
        0 < w.mTransitionDelta)
    (hops : ∀ op ∈ ops, op.addsNoNegativeTime = true)
    (hrun : (WeatherManager.new fallback fStromWindSpeed result0).runOps ops = some m) :
    m.mNextWeather ≠ "" →
      ∃ w, m.findWeather m.mCurrentWeather = some w ∧
        (0 ≤ m.mRemainingTransitionTime ∧ m.mRemainingTransitionTime ≤ w.transitionSeconds) ∧
        (0 ≤ 1 - m.mRemainingTransitionTime / w.transitionSeconds ∧
          1 - m.mRemainingTransitionTime / w.transitionSeconds ≤ 1) := by
  intro hnext
  have hstart : (WeatherManager.new fallback fStromWindSpeed result0).remainingInRange := by
    intro hne
    exact absurd rfl hne
  obtain ⟨hs, _, hinv⟩ := runOps_invariant
    (WeatherManager.new fallback fStromWindSpeed result0).mWeatherSettings hpos ops
    (WeatherManager.new fallback fStromWindSpeed result0) m hops rfl (le_refl 0) hstart hrun
  rw [remainingInRange_iff] at hinv
  obtain ⟨w, hw, h0, h1⟩ := hinv hnext
  have hw2 : (WeatherManager.new fallback fStromWindSpeed result0).findWeather
      m.mCurrentWeather = some w := by
    unfold WeatherManager.findWeather
    rw [← hs]
    exact hw
  have hwpos : 0 < w.transitionSeconds :=
    transitionSeconds_pos w (hpos m.mCurrentWeather w hw2)
  refine ⟨w, hw, ⟨h0, h1⟩, ?_, ?_⟩
  · rw [sub_nonneg, div_le_one hwpos]
    exact h1
  · have : 0 ≤ m.mRemainingTransitionTime / w.transitionSeconds :=
      div_nonneg h0 (le_of_lt hwpos)
    linarith

theorem freshManager_delta_pos (name : String) (w : Weather)
    (h : freshManager.findWeather name = some w) : 0 < w.mTransitionDelta := by
  have hsec := freshManager_transitionSeconds name w h
  by_contra hneg
  have hle : w.mTransitionDelta ≤ 0 := not_lt.mp hneg
  have hts : w.transitionSeconds ≤ 0 := by
    unfold Weather.transitionSeconds
    have h1 : (835 : ℚ) / 100000 / w.mTransitionDelta ≤ 0 :=
      div_nonpos_of_nonneg_of_nonpos (by norm_num) hle
    nlinarith
  rw [hsec] at hts
  norm_num at hts

theorem freshManager_clear_rain :
    freshManager.runOps [Op.setWeather "clear" false, Op.setWeather "rain" false]
      = some (clearToRain (Weather.new "Clear" unitFallback 0 1 "" "").transitionSeconds) := by
  have h1 : freshManager.setWeather "clear" false = some stableClear := by
    simp only [WeatherManager.setWeather]
    rw [if_pos (by decide)]
    rfl
  have hfind : stableClear.findWeather "clear"
      = some (Weather.new "Clear" unitFallback 0 1 "" "") := by rfl
  have hfind2 : StrMap.find stableClear.mWeatherSettings "clear"
      = some (Weather.new "Clear" unitFallback 0 1 "" "") := hfind
  have hcur : stableClear.mCurrentWeather = "clear" := rfl
  have hnext : stableClear.mNextWeather = "" := rfl
  have hfirst : stableClear.mFirstUpdate = false := rfl
  have h2 : stableClear.setWeather "rain" false
      = some (clearToRain (Weather.new "Clear" unitFallback 0 1 "" "").transitionSeconds) := by
    simp [WeatherManager.setWeather, WeatherManager.findWeather, hcur, hnext, hfirst, hfind2]
    rfl
  simp only [WeatherManager.runOps, WeatherManager.applyOp, h1, h2]

/-- C28, witness: the constructed manager after `setWeather("clear")` and
`setWeather("rain")` is in transition from "clear" to "rain" with the whole
30.06 s remaining, and the progress 0. -/
theorem engine_remaining_in_range_witness :
    ∃ m w, freshManager.runOps [Op.setWeather "clear" false, Op.setWeather "rain" false]
        = some m ∧
      m.mNextWeather = "rain" ∧ m.findWeather m.mCurrentWeather = some w ∧
      0 ≤ 1 - m.mRemainingTransitionTime / w.transitionSeconds := by
  have hrun : freshManager.runOps [Op.setWeather "clear" false, Op.setWeather "rain" false]
      = some (clearToRain (Weather.new "Clear" unitFallback 0 1 "" "").transitionSeconds) :=
    freshManager_clear_rain
  obtain ⟨w, hw, _, hprog, _⟩ := engine_remaining_in_range unitFallback 0 zeroResult
    [Op.setWeather "clear" false, Op.setWeather "rain" false] _ freshManager_delta_pos
    (by decide) hrun (by decide)
  exact ⟨_, w, hrun, rfl, hw, hprog⟩

end MWWorld
